import Mathlib

/-!
# Filter translation and register access of the Onload hardware layer

A shallow embedding of `src/lib/efhw/ethtool_flow.c`: the function
`efx_spec_to_ethtool_flow`, which turns a driver filter specification
(`struct efx_filter_spec`) into the kernel flow-classifier record
(`struct ethtool_rx_flow_spec`), and its helper `combine_ports`; and of the
register accessors of `drivers/net/ethernet/sfc/io.h`.

Conventions of the embedding.

* Unsigned machine integers are natural numbers; a store into a narrower
  field is an explicit reduction modulo `2 ^ w`.  The C `int` variable
  `proto` is an integer.
* A field of type `__be16` / `__be32` holds the integer the host reads from
  it.  The bytes it occupies in memory are given by `mem16` / `mem32`, which
  depend on the byte order of the host (`be = true` for a big-endian host).
* The union `ethtool_flow_union` is a record with one component per member
  the translation writes; members which the source asserts to coincide
  (`tcp_ip4_spec`/`udp_ip4_spec`, `tcp_ip6_spec`/`udp_ip6_spec`) are a single
  component.
* The enumerators `EFX_FILTER_FLAG_*` and `EFX_FILTER_MATCH_*` are declared in
  a header which is not among the sources; their values are parameters
  (`efx_filter_consts`).
* A register value (`efx_dword_t`, `efx_qword_t`, `efx_oword_t`) is given by the
  bytes of the object, and so is each of its members `u32[i]`, `u64[i]`: the
  accessors move them with the raw kernel primitives, which do not swap bytes,
  so the bytes on the bus are those of the object whatever the byte order of
  the host.  The device is a byte-addressed store together with the sequence
  of its lock and bus events; offsets are `unsigned int` and wrap at `2 ^ 32`,
  bus addresses (`membase` plus an offset) do not.
-/

namespace Onload

/-! ## Byte order -/

/-- Exchange the two bytes of a 16-bit quantity (the argument is first
converted to 16 bits). -/
def swab16 (x : Nat) : Nat :=
  (x % 256) * 256 + x / 256 % 256

/-- Reverse the four bytes of a 32-bit quantity (the argument is first
converted to 32 bits). -/
def swab32 (x : Nat) : Nat :=
  (x % 256) * 2 ^ 24 + (x / 2 ^ 8 % 256) * 2 ^ 16 + (x / 2 ^ 16 % 256) * 2 ^ 8 + x / 2 ^ 24 % 256

/-- The C library conversion `htons`, on a host whose byte order is big-endian
when `be` holds and little-endian otherwise. -/
def htons (be : Bool) (x : Nat) : Nat :=
  if be then x % 2 ^ 16 else swab16 x

/-- The C library conversion `ntohs`. -/
def ntohs (be : Bool) (x : Nat) : Nat :=
  if be then x % 2 ^ 16 else swab16 x

/-- The C library conversion `htonl`. -/
def htonl (be : Bool) (x : Nat) : Nat :=
  if be then x % 2 ^ 32 else swab32 x

/-- The C library conversion `ntohl`. -/
def ntohl (be : Bool) (x : Nat) : Nat :=
  if be then x % 2 ^ 32 else swab32 x

/-- The two bytes a 16-bit object with value `v` occupies in memory, lowest
address first. -/
def mem16 (be : Bool) (v : Nat) : List Nat :=
  if be then [v / 256 % 256, v % 256] else [v % 256, v / 256 % 256]

/-- The four bytes a 32-bit object with value `v` occupies in memory, lowest
address first. -/
def mem32 (be : Bool) (v : Nat) : List Nat :=
  if be then [v / 2 ^ 24 % 256, v / 2 ^ 16 % 256, v / 2 ^ 8 % 256, v % 256]
  else [v % 256, v / 2 ^ 8 % 256, v / 2 ^ 16 % 256, v / 2 ^ 24 % 256]

/-- The sixteen bytes an array of four 32-bit objects occupies in memory. -/
def mem128 (be : Bool) (a : Fin 4 → Nat) : List Nat :=
  mem32 be (a 0) ++ mem32 be (a 1) ++ mem32 be (a 2) ++ mem32 be (a 3)

/-- Conversion of an `int` to `uint8_t`. -/
def u8 (x : Int) : Nat :=
  (x % 2 ^ 8).toNat

/-- Conversion of an `int` to `uint16_t`. -/
def u16 (x : Int) : Nat :=
  (x % 2 ^ 16).toNat

/-- The operator `~` on a 32-bit operand. -/
def lnot32 (x : Nat) : Nat :=
  0xFFFFFFFF ^^^ x

/-! ## Constants of the kernel interface -/

/-- The errno value `EPROTONOSUPPORT` of Linux. -/
def EPROTONOSUPPORT : Int := 93

/-- Ethernet protocol number of IPv4, from `linux/if_ether.h`. -/
def ETH_P_IP : Nat := 0x0800

/-- Ethernet protocol number of IPv6, from `linux/if_ether.h`. -/
def ETH_P_IPV6 : Nat := 0x86DD

/-- IP protocol number of TCP. -/
def IPPROTO_TCP : Int := 6

/-- IP protocol number of UDP. -/
def IPPROTO_UDP : Int := 17

/-- Flow types and markers of `uapi/linux/ethtool.h`. -/
def TCP_V4_FLOW : Nat := 0x01

/-- See `TCP_V4_FLOW`. -/
def UDP_V4_FLOW : Nat := 0x02

/-- See `TCP_V4_FLOW`. -/
def TCP_V6_FLOW : Nat := 0x05

/-- See `TCP_V4_FLOW`. -/
def UDP_V6_FLOW : Nat := 0x06

/-- See `TCP_V4_FLOW`. -/
def IPV4_USER_FLOW : Nat := 0x0d

/-- See `TCP_V4_FLOW`. -/
def IPV6_USER_FLOW : Nat := 0x0e

/-- The "extended" bit of a flow type. -/
def FLOW_EXT : Nat := 0x80000000

/-- The location value which leaves the choice of location to the driver. -/
def RX_CLS_LOC_ANY : Nat := 0xffffffff

/-! ## Constants of the driver interface -/

/-- The enumerators of `enum efx_filter_flags` which the translation mentions. -/
inductive efx_filter_flags where
  | EFX_FILTER_FLAG_RX
  | EFX_FILTER_FLAG_STACK_ID
  | EFX_FILTER_FLAG_VPORT_ID
  | EFX_FILTER_FLAG_RX_SCATTER
  deriving DecidableEq

/-- The enumerators of `enum efx_filter_match_flags` which the translation
mentions. -/
inductive efx_filter_match_flags where
  | EFX_FILTER_MATCH_REM_HOST
  | EFX_FILTER_MATCH_LOC_HOST
  | EFX_FILTER_MATCH_REM_PORT
  | EFX_FILTER_MATCH_LOC_PORT
  | EFX_FILTER_MATCH_IP_PROTO
  | EFX_FILTER_MATCH_ETHER_TYPE
  | EFX_FILTER_MATCH_OUTER_VID
  | EFX_FILTER_MATCH_LOC_MAC_IG
  deriving DecidableEq

/-- The values of the enumerators.  The declarations of the two enumerations
are not among the sources, so the values are parameters of the embedding. -/
structure efx_filter_consts where
  flag_value : efx_filter_flags → Nat
  match_value : efx_filter_match_flags → Nat

/-- The value of `EFX_FILTER_FLAG_RX`. -/
abbrev efx_filter_consts.EFX_FILTER_FLAG_RX (K : efx_filter_consts) : Nat :=
  K.flag_value efx_filter_flags.EFX_FILTER_FLAG_RX

/-- The value of `EFX_FILTER_FLAG_STACK_ID`. -/
abbrev efx_filter_consts.EFX_FILTER_FLAG_STACK_ID (K : efx_filter_consts) : Nat :=
  K.flag_value efx_filter_flags.EFX_FILTER_FLAG_STACK_ID

/-- The value of `EFX_FILTER_FLAG_VPORT_ID`. -/
abbrev efx_filter_consts.EFX_FILTER_FLAG_VPORT_ID (K : efx_filter_consts) : Nat :=
  K.flag_value efx_filter_flags.EFX_FILTER_FLAG_VPORT_ID

/-- The value of `EFX_FILTER_FLAG_RX_SCATTER`. -/
abbrev efx_filter_consts.EFX_FILTER_FLAG_RX_SCATTER (K : efx_filter_consts) : Nat :=
  K.flag_value efx_filter_flags.EFX_FILTER_FLAG_RX_SCATTER

/-- The value of `EFX_FILTER_MATCH_REM_HOST`. -/
abbrev efx_filter_consts.EFX_FILTER_MATCH_REM_HOST (K : efx_filter_consts) : Nat :=
  K.match_value efx_filter_match_flags.EFX_FILTER_MATCH_REM_HOST

/-- The value of `EFX_FILTER_MATCH_LOC_HOST`. -/
abbrev efx_filter_consts.EFX_FILTER_MATCH_LOC_HOST (K : efx_filter_consts) : Nat :=
  K.match_value efx_filter_match_flags.EFX_FILTER_MATCH_LOC_HOST

/-- The value of `EFX_FILTER_MATCH_REM_PORT`. -/
abbrev efx_filter_consts.EFX_FILTER_MATCH_REM_PORT (K : efx_filter_consts) : Nat :=
  K.match_value efx_filter_match_flags.EFX_FILTER_MATCH_REM_PORT

/-- The value of `EFX_FILTER_MATCH_LOC_PORT`. -/
abbrev efx_filter_consts.EFX_FILTER_MATCH_LOC_PORT (K : efx_filter_consts) : Nat :=
  K.match_value efx_filter_match_flags.EFX_FILTER_MATCH_LOC_PORT

/-- The value of `EFX_FILTER_MATCH_IP_PROTO`. -/
abbrev efx_filter_consts.EFX_FILTER_MATCH_IP_PROTO (K : efx_filter_consts) : Nat :=
  K.match_value efx_filter_match_flags.EFX_FILTER_MATCH_IP_PROTO

/-- The value of `EFX_FILTER_MATCH_ETHER_TYPE`. -/
abbrev efx_filter_consts.EFX_FILTER_MATCH_ETHER_TYPE (K : efx_filter_consts) : Nat :=
  K.match_value efx_filter_match_flags.EFX_FILTER_MATCH_ETHER_TYPE

/-- The value of `EFX_FILTER_MATCH_OUTER_VID`. -/
abbrev efx_filter_consts.EFX_FILTER_MATCH_OUTER_VID (K : efx_filter_consts) : Nat :=
  K.match_value efx_filter_match_flags.EFX_FILTER_MATCH_OUTER_VID

/-- The value of `EFX_FILTER_MATCH_LOC_MAC_IG`. -/
abbrev efx_filter_consts.EFX_FILTER_MATCH_LOC_MAC_IG (K : efx_filter_consts) : Nat :=
  K.match_value efx_filter_match_flags.EFX_FILTER_MATCH_LOC_MAC_IG

/-- Modelled from the spec: the declarations of `enum efx_filter_flags` and
`enum efx_filter_match_flags` are missing; the spec describes `flags` as a
bitset of options and the match flags as a bitset selecting which of the fields
remote host, local host, remote port, local port, IP protocol, ether type,
outer VLAN id and multicast-MAC-group are active.  Accordingly each enumerator
is one bit of a 32-bit word, and no two match flags are the same bit. -/
def efx_filter_consts.wf (K : efx_filter_consts) : Prop :=
  (∀ f, ∃ k, k < 32 ∧ K.flag_value f = 2 ^ k) ∧
  (∀ m, ∃ k, k < 32 ∧ K.match_value m = 2 ^ k) ∧
  Function.Injective K.match_value

/-- The set of supported flags, the operand of `~` in the first check. -/
def efx_filter_consts.flags_supported (K : efx_filter_consts) : Nat :=
  K.EFX_FILTER_FLAG_RX ||| K.EFX_FILTER_FLAG_STACK_ID |||
    K.EFX_FILTER_FLAG_VPORT_ID ||| K.EFX_FILTER_FLAG_RX_SCATTER

/-- The set of supported match flags, the operand of `~` in the third check. -/
def efx_filter_consts.match_supported (K : efx_filter_consts) : Nat :=
  K.EFX_FILTER_MATCH_REM_HOST ||| K.EFX_FILTER_MATCH_LOC_HOST |||
    K.EFX_FILTER_MATCH_REM_PORT ||| K.EFX_FILTER_MATCH_LOC_PORT |||
    K.EFX_FILTER_MATCH_IP_PROTO ||| K.EFX_FILTER_MATCH_ETHER_TYPE |||
    K.EFX_FILTER_MATCH_OUTER_VID

/-- The 32-bit word `x` has a bit set which is not a bit of `S`. -/
def bit_outside (x S : Nat) : Prop :=
  ∃ i, i < 32 ∧ x.testBit i = true ∧ S.testBit i = false

/-- Modelled from the spec: the declarations of `enum efx_filter_flags` and
`enum efx_filter_match_flags` are missing; this is one assignment of distinct
bits to their enumerators, used to exhibit concrete inputs. -/
def efx_consts : efx_filter_consts where
  flag_value
    | .EFX_FILTER_FLAG_RX_SCATTER => 0x02
    | .EFX_FILTER_FLAG_RX => 0x08
    | .EFX_FILTER_FLAG_STACK_ID => 0x20
    | .EFX_FILTER_FLAG_VPORT_ID => 0x40
  match_value
    | .EFX_FILTER_MATCH_REM_HOST => 0x0001
    | .EFX_FILTER_MATCH_LOC_HOST => 0x0002
    | .EFX_FILTER_MATCH_REM_PORT => 0x0008
    | .EFX_FILTER_MATCH_LOC_PORT => 0x0020
    | .EFX_FILTER_MATCH_ETHER_TYPE => 0x0040
    | .EFX_FILTER_MATCH_OUTER_VID => 0x0100
    | .EFX_FILTER_MATCH_IP_PROTO => 0x0200
    | .EFX_FILTER_MATCH_LOC_MAC_IG => 0x0400

/-! ## Data model -/

/-- The fields of `struct efx_filter_spec` which the translation reads.
`loc_host` and `rem_host` are arrays of four `__be32`, `loc_mac` is an array of
six bytes; `ether_type`, `loc_port`, `rem_port` and `outer_vid` are `__be16`. -/
structure efx_filter_spec where
  match_flags : Nat
  flags : Nat
  outer_vid : Nat
  loc_mac : Fin 6 → Nat
  ether_type : Nat
  ip_proto : Nat
  loc_host : Fin 4 → Nat
  rem_host : Fin 4 → Nat
  loc_port : Nat
  rem_port : Nat

/-- The record `struct ethtool_tcpip4_spec`. -/
structure ethtool_tcpip4_spec where
  ip4src : Nat
  ip4dst : Nat
  psrc : Nat
  pdst : Nat
  tos : Nat

/-- The record `struct ethtool_usrip4_spec`. -/
structure ethtool_usrip4_spec where
  ip4src : Nat
  ip4dst : Nat
  l4_4_bytes : Nat
  tos : Nat
  ip_ver : Nat
  proto : Nat

/-- The record `struct ethtool_tcpip6_spec`. -/
structure ethtool_tcpip6_spec where
  ip6src : Fin 4 → Nat
  ip6dst : Fin 4 → Nat
  psrc : Nat
  pdst : Nat
  tclass : Nat

/-- The record `struct ethtool_usrip6_spec`. -/
structure ethtool_usrip6_spec where
  ip6src : Fin 4 → Nat
  ip6dst : Fin 4 → Nat
  l4_4_bytes : Nat
  tclass : Nat
  l4_proto : Nat

/-- The members of `union ethtool_flow_union` which the translation writes.
The member `udp_ip4_spec` is the component `tcp_ip4_spec` and the member
`tcp_ip6_spec` is the component `udp_ip6_spec`: the source asserts that each
pair has one address and one type. -/
structure ethtool_flow_union where
  tcp_ip4_spec : ethtool_tcpip4_spec
  usr_ip4_spec : ethtool_usrip4_spec
  udp_ip6_spec : ethtool_tcpip6_spec
  usr_ip6_spec : ethtool_usrip6_spec

/-- The member `udp_ip4_spec` of the union. -/
abbrev ethtool_flow_union.udp_ip4_spec (u : ethtool_flow_union) : ethtool_tcpip4_spec :=
  u.tcp_ip4_spec

/-- The member `tcp_ip6_spec` of the union. -/
abbrev ethtool_flow_union.tcp_ip6_spec (u : ethtool_flow_union) : ethtool_tcpip6_spec :=
  u.udp_ip6_spec

/-- The record `struct ethtool_flow_ext`. -/
structure ethtool_flow_ext where
  padding : Fin 2 → Nat
  h_dest : Fin 6 → Nat
  vlan_etype : Nat
  vlan_tci : Nat
  data : Fin 2 → Nat

/-- The record `struct ethtool_rx_flow_spec`. -/
structure ethtool_rx_flow_spec where
  flow_type : Nat
  h_u : ethtool_flow_union
  h_ext : ethtool_flow_ext
  m_u : ethtool_flow_union
  m_ext : ethtool_flow_ext
  ring_cookie : Nat
  location : Nat

/-- The all-zero value of `ethtool_tcpip4_spec`. -/
def ethtool_tcpip4_spec.zero : ethtool_tcpip4_spec :=
  { ip4src := 0, ip4dst := 0, psrc := 0, pdst := 0, tos := 0 }

/-- The all-zero value of `ethtool_usrip4_spec`. -/
def ethtool_usrip4_spec.zero : ethtool_usrip4_spec :=
  { ip4src := 0, ip4dst := 0, l4_4_bytes := 0, tos := 0, ip_ver := 0, proto := 0 }

/-- The all-zero value of `ethtool_tcpip6_spec`. -/
def ethtool_tcpip6_spec.zero : ethtool_tcpip6_spec :=
  { ip6src := fun _ => 0, ip6dst := fun _ => 0, psrc := 0, pdst := 0, tclass := 0 }

/-- The all-zero value of `ethtool_usrip6_spec`. -/
def ethtool_usrip6_spec.zero : ethtool_usrip6_spec :=
  { ip6src := fun _ => 0, ip6dst := fun _ => 0, l4_4_bytes := 0, tclass := 0, l4_proto := 0 }

/-- The all-zero value of the union. -/
def ethtool_flow_union.zero : ethtool_flow_union :=
  { tcp_ip4_spec := ethtool_tcpip4_spec.zero, usr_ip4_spec := ethtool_usrip4_spec.zero,
    udp_ip6_spec := ethtool_tcpip6_spec.zero, usr_ip6_spec := ethtool_usrip6_spec.zero }

/-- The all-zero value of `ethtool_flow_ext`. -/
def ethtool_flow_ext.zero : ethtool_flow_ext :=
  { padding := fun _ => 0, h_dest := fun _ => 0, vlan_etype := 0, vlan_tci := 0,
    data := fun _ => 0 }

/-- The all-zero value of `ethtool_rx_flow_spec`. -/
def ethtool_rx_flow_spec.zero : ethtool_rx_flow_spec :=
  { flow_type := 0, h_u := ethtool_flow_union.zero, h_ext := ethtool_flow_ext.zero,
    m_u := ethtool_flow_union.zero, m_ext := ethtool_flow_ext.zero, ring_cookie := 0,
    location := 0 }

/-- The effect of `memset(dst, 0, sizeof( *dst))` on the record `dst`. -/
def memset_zero (_dst : ethtool_rx_flow_spec) : ethtool_rx_flow_spec :=
  ethtool_rx_flow_spec.zero

/-! ## The translation -/

/-- The function `combine_ports`:
`htonl(ntohs(loc) | (htons(rem) << 16))`, the argument of `htonl` being
converted to 32 bits. -/
def combine_ports (be : Bool) (loc rem : Nat) : Nat :=
  htonl be ((ntohs be loc ||| (htons be rem <<< 16)) % 2 ^ 32)

/-- The static array `zero` of the translation. -/
def zero : Fin 4 → Nat :=
  fun _ => 0

/-- The static array `minus1` of the translation, four times `~0u`. -/
def minus1 : Fin 4 → Nat :=
  fun _ => 0xFFFFFFFF

/-- The part of `efx_spec_to_ethtool_flow` after its checks (from
`if( src->match_flags & EFX_FILTER_MATCH_IP_PROTO )` to the last statement
before `return 0`): it resolves the optional fields and fills the record `dst`,
which the caller has cleared. -/
def efx_spec_to_ethtool_flow_fill (be : Bool) (K : efx_filter_consts) (src : efx_filter_spec)
    (dst : ethtool_rx_flow_spec) : ethtool_rx_flow_spec :=
  let proto : Int :=
    if src.match_flags &&& K.EFX_FILTER_MATCH_IP_PROTO ≠ 0 then (src.ip_proto : Int) else -1
  let loc_ip : Fin 4 → Nat :=
    if src.match_flags &&& K.EFX_FILTER_MATCH_LOC_HOST ≠ 0 then src.loc_host else zero
  let loc_ip_mask : Fin 4 → Nat :=
    if src.match_flags &&& K.EFX_FILTER_MATCH_LOC_HOST ≠ 0 then minus1 else zero
  let loc_port : Nat :=
    if src.match_flags &&& K.EFX_FILTER_MATCH_LOC_PORT ≠ 0 then src.loc_port else 0
  let loc_port_mask : Nat :=
    if src.match_flags &&& K.EFX_FILTER_MATCH_LOC_PORT ≠ 0 then u16 (-1) else 0
  let rem_ip : Fin 4 → Nat :=
    if src.match_flags &&& K.EFX_FILTER_MATCH_REM_HOST ≠ 0 then src.rem_host else zero
  let rem_ip_mask : Fin 4 → Nat :=
    if src.match_flags &&& K.EFX_FILTER_MATCH_REM_HOST ≠ 0 then minus1 else zero
  let rem_port : Nat :=
    if src.match_flags &&& K.EFX_FILTER_MATCH_REM_PORT ≠ 0 then src.rem_port else 0
  let rem_port_mask : Nat :=
    if src.match_flags &&& K.EFX_FILTER_MATCH_REM_PORT ≠ 0 then u16 (-1) else 0
  let dst1 : ethtool_rx_flow_spec :=
    if src.ether_type = htons be ETH_P_IPV6 then
      if proto = IPPROTO_UDP ∨ proto = IPPROTO_TCP then
        { dst with
          flow_type := if proto = IPPROTO_UDP then UDP_V6_FLOW else TCP_V6_FLOW
          h_u := { dst.h_u with
                   udp_ip6_spec := { dst.h_u.udp_ip6_spec with
                                     ip6dst := loc_ip, pdst := loc_port,
                                     ip6src := rem_ip, psrc := rem_port } }
          m_u := { dst.m_u with
                   udp_ip6_spec := { dst.m_u.udp_ip6_spec with
                                     ip6dst := loc_ip_mask, pdst := loc_port_mask,
                                     ip6src := rem_ip_mask, psrc := rem_port_mask } } }
      else
        { dst with
          flow_type := IPV6_USER_FLOW
          h_u := { dst.h_u with
                   usr_ip6_spec := { dst.h_u.usr_ip6_spec with
                                     l4_proto := u8 proto, ip6dst := loc_ip, ip6src := rem_ip,
                                     l4_4_bytes := combine_ports be loc_port rem_port } }
          m_u := { dst.m_u with
                   usr_ip6_spec := { dst.m_u.usr_ip6_spec with
                                     l4_proto := u8 (if proto < 0 then 0 else -1),
                                     ip6dst := loc_ip_mask, ip6src := rem_ip_mask,
                                     l4_4_bytes :=
                                       combine_ports be loc_port_mask rem_port_mask } } }
    else
      if proto = IPPROTO_UDP ∨ proto = IPPROTO_TCP then
        { dst with
          flow_type := if proto = IPPROTO_UDP then UDP_V4_FLOW else TCP_V4_FLOW
          h_u := { dst.h_u with
                   tcp_ip4_spec := { dst.h_u.tcp_ip4_spec with
                                     ip4dst := loc_ip 0, pdst := loc_port,
                                     ip4src := rem_ip 0, psrc := rem_port } }
          m_u := { dst.m_u with
                   tcp_ip4_spec := { dst.m_u.tcp_ip4_spec with
                                     ip4dst := loc_ip_mask 0, pdst := loc_port_mask,
                                     ip4src := rem_ip_mask 0, psrc := rem_port_mask } } }
      else
        { dst with
          flow_type := IPV4_USER_FLOW
          h_u := { dst.h_u with
                   usr_ip4_spec := { dst.h_u.usr_ip4_spec with
                                     proto := u8 proto, ip4dst := loc_ip 0, ip4src := rem_ip 0,
                                     l4_4_bytes := combine_ports be loc_port rem_port } }
          m_u := { dst.m_u with
                   usr_ip4_spec := { dst.m_u.usr_ip4_spec with
                                     proto := u8 (if proto < 0 then 0 else -1),
                                     ip4dst := loc_ip_mask 0, ip4src := rem_ip_mask 0,
                                     l4_4_bytes :=
                                       combine_ports be loc_port_mask rem_port_mask } } }
  if src.match_flags &&& K.EFX_FILTER_MATCH_OUTER_VID ≠ 0 then
    { dst1 with
      flow_type := dst1.flow_type ||| FLOW_EXT
      h_ext := { dst1.h_ext with vlan_tci := src.outer_vid }
      m_ext := { dst1.m_ext with vlan_tci := 0xffff } }
  else
    dst1

/-- The function `efx_spec_to_ethtool_flow`.  The arguments are the byte order
of the host, the driver constants, the source record and the content of the
destination record before the call; the result is the return code and the
content of the destination record after the call. -/
def efx_spec_to_ethtool_flow (be : Bool) (K : efx_filter_consts) (src : efx_filter_spec)
    (dst0 : ethtool_rx_flow_spec) : Int × ethtool_rx_flow_spec :=
  let dst : ethtool_rx_flow_spec := { memset_zero dst0 with location := RX_CLS_LOC_ANY }
  if src.flags &&& lnot32 (K.EFX_FILTER_FLAG_RX ||| K.EFX_FILTER_FLAG_STACK_ID |||
      K.EFX_FILTER_FLAG_VPORT_ID ||| K.EFX_FILTER_FLAG_RX_SCATTER) ≠ 0 then
    (-EPROTONOSUPPORT, dst)
  else if src.match_flags = K.EFX_FILTER_MATCH_LOC_MAC_IG ∧ src.loc_mac 0 = 1 then
    (0, { dst with
          flow_type := UDP_V4_FLOW
          h_u := { dst.h_u with
                   tcp_ip4_spec := { dst.h_u.udp_ip4_spec with ip4dst := htonl be 0xe0000000 } }
          m_u := { dst.m_u with
                   tcp_ip4_spec := { dst.m_u.udp_ip4_spec with ip4dst := htonl be 0xf0000000 } } })
  else if src.match_flags &&& lnot32 (K.EFX_FILTER_MATCH_REM_HOST |||
      K.EFX_FILTER_MATCH_LOC_HOST ||| K.EFX_FILTER_MATCH_REM_PORT |||
      K.EFX_FILTER_MATCH_LOC_PORT ||| K.EFX_FILTER_MATCH_IP_PROTO |||
      K.EFX_FILTER_MATCH_ETHER_TYPE ||| K.EFX_FILTER_MATCH_OUTER_VID) ≠ 0 then
    (-EPROTONOSUPPORT, dst)
  else if src.match_flags &&& (K.EFX_FILTER_MATCH_REM_HOST ||| K.EFX_FILTER_MATCH_LOC_HOST) =
        K.EFX_FILTER_MATCH_REM_HOST ∨
      src.match_flags &&& (K.EFX_FILTER_MATCH_REM_PORT ||| K.EFX_FILTER_MATCH_LOC_PORT) =
        K.EFX_FILTER_MATCH_REM_PORT then
    (-EPROTONOSUPPORT, dst)
  else if src.match_flags &&& K.EFX_FILTER_MATCH_ETHER_TYPE ≠ 0 ∧
      src.ether_type ≠ htons be ETH_P_IP ∧ src.ether_type ≠ htons be ETH_P_IPV6 then
    (-EPROTONOSUPPORT, dst)
  else
    (0, efx_spec_to_ethtool_flow_fill be K src dst)

/-- The record `dst` after the first two statements of the translation:
cleared, with the location set to `RX_CLS_LOC_ANY`. -/
def dst_cleared : ethtool_rx_flow_spec :=
  { ethtool_rx_flow_spec.zero with location := RX_CLS_LOC_ANY }

/-- The flow type without its extended bit, `flow_type & ~FLOW_EXT`. -/
def base_flow_type (flow_type : Nat) : Nat :=
  flow_type &&& lnot32 FLOW_EXT

/-- A filter specification with every field zero. -/
def spec0 : efx_filter_spec :=
  { match_flags := 0, flags := 0, outer_vid := 0, loc_mac := fun _ => 0, ether_type := 0,
    ip_proto := 0, loc_host := fun _ => 0, rem_host := fun _ => 0, loc_port := 0, rem_port := 0 }

/-! ## Auxiliary notions and concrete inputs -/

/-- The 32-bit field value `v` holds the two 16-bit field values `loc` and
`rem` packed for the generic record: read in network byte order, its low
16 bits are the port number of `loc` and its high 16 bits the port number of
`rem`; in memory it is the two bytes of `rem` followed by the two bytes of
`loc`. -/
def packs_ports (be : Bool) (v loc rem : Nat) : Prop :=
  ntohl be v % 2 ^ 16 = ntohs be loc ∧ ntohl be v / 2 ^ 16 = ntohs be rem ∧
    mem32 be v = mem16 be rem ++ mem16 be loc

/-- A filter whose only match flag is `EFX_FILTER_MATCH_LOC_MAC_IG` and whose
`loc_mac` is the IPv6 multicast address 33:33:00:00:00:01. -/
def spec_mac33 : efx_filter_spec :=
  { spec0 with match_flags := efx_consts.EFX_FILTER_MATCH_LOC_MAC_IG,
               loc_mac := ![0x33, 0x33, 0, 0, 0, 1] }

/-- A filter for 10.0.0.1:53 whose match flags are local host and local port
only, with `ether_type` IPv4 and `ip_proto` UDP. -/
def spec_dns : efx_filter_spec :=
  { spec0 with
    match_flags := efx_consts.EFX_FILTER_MATCH_LOC_HOST ||| efx_consts.EFX_FILTER_MATCH_LOC_PORT
    ether_type := htons false ETH_P_IP
    ip_proto := 17
    loc_host := ![htonl false 0x0a000001, 0, 0, 0]
    loc_port := htons false 53 }

/-- A multicast filter: the only match flag is `EFX_FILTER_MATCH_LOC_MAC_IG` and
the first octet of `loc_mac` is 1. -/
def spec_mcast : efx_filter_spec :=
  { spec0 with match_flags := efx_consts.EFX_FILTER_MATCH_LOC_MAC_IG,
               loc_mac := ![1, 0, 0x5e, 0, 0, 1] }

/-- A UDP filter for 10.0.0.1:53 with the match flags local host, local port,
IP protocol and ether type. -/
def spec_udp4 : efx_filter_spec :=
  { spec0 with
    match_flags := efx_consts.EFX_FILTER_MATCH_LOC_HOST ||| efx_consts.EFX_FILTER_MATCH_LOC_PORT |||
      efx_consts.EFX_FILTER_MATCH_IP_PROTO ||| efx_consts.EFX_FILTER_MATCH_ETHER_TYPE
    ether_type := htons false ETH_P_IP
    ip_proto := 17
    loc_host := ![htonl false 0x0a000001, 0, 0, 0]
    loc_port := htons false 53 }

/-- A TCP over IPv6 filter which matches both hosts and both ports. -/
def spec_tcp6 : efx_filter_spec :=
  { spec0 with
    match_flags := efx_consts.EFX_FILTER_MATCH_REM_HOST ||| efx_consts.EFX_FILTER_MATCH_LOC_HOST |||
      efx_consts.EFX_FILTER_MATCH_REM_PORT ||| efx_consts.EFX_FILTER_MATCH_LOC_PORT |||
      efx_consts.EFX_FILTER_MATCH_IP_PROTO ||| efx_consts.EFX_FILTER_MATCH_ETHER_TYPE
    ether_type := htons false ETH_P_IPV6
    ip_proto := 6
    loc_host := ![htonl false 0x20010db8, 0, 0, htonl false 1]
    rem_host := ![htonl false 0x20010db8, 0, htonl false 0xffff, htonl false 2]
    loc_port := htons false 443
    rem_port := htons false 50000 }

/-- A filter which matches the two ports only. -/
def spec_ports : efx_filter_spec :=
  { spec0 with
    match_flags := efx_consts.EFX_FILTER_MATCH_REM_PORT ||| efx_consts.EFX_FILTER_MATCH_LOC_PORT
    loc_port := htons false 0x5678
    rem_port := htons false 0x1234 }

/-! ## The call as a transition, and further inputs -/

/-- The two objects a call of `efx_spec_to_ethtool_flow` can reach: `*src`,
through a pointer to `const`, and `*dst`. -/
structure flow_call_state where
  src : efx_filter_spec
  dst : ethtool_rx_flow_spec

/-- A call `efx_spec_to_ethtool_flow(src, dst)` as a transition on the two
objects: the function has no assignment through `src`. -/
def efx_spec_to_ethtool_flow_call (be : Bool) (K : efx_filter_consts) (s : flow_call_state) :
    Int × flow_call_state :=
  ((efx_spec_to_ethtool_flow be K s.src s.dst).1,
   { src := s.src, dst := (efx_spec_to_ethtool_flow be K s.src s.dst).2 })

/-- A filter which matches the local port 80 only; the host fields and the
remote port hold values which the filter does not constrain. -/
def spec_wild : efx_filter_spec :=
  { spec0 with
    match_flags := efx_consts.EFX_FILTER_MATCH_LOC_PORT
    loc_host := ![7, 7, 7, 7]
    rem_host := ![9, 9, 9, 9]
    loc_port := htons false 80
    rem_port := htons false 1234 }

/-- A filter which matches the outer VLAN 100 only. -/
def spec_vlan : efx_filter_spec :=
  { spec0 with
    match_flags := efx_consts.EFX_FILTER_MATCH_OUTER_VID
    outer_vid := htons false 100 }

/-! ## Register I/O: data model -/

/-- An event a register access performs: taking or releasing the lock
`efx->biu_lock`, or one bus transaction.  A write carries the bus address and
the bytes transferred, lowest address first; a read carries the bus address
and the number of bytes. -/
inductive bus_event where
  | acquire
  | release
  | write (addr : Nat) (data : List Nat)
  | read (addr : Nat) (width : Nat)
  deriving DecidableEq

/-- The event is a bus transaction. -/
def bus_event.is_transfer : bus_event → Bool
  | bus_event.write _ _ => true
  | bus_event.read _ _ => true
  | _ => false

/-- The preprocessor conditions which select the variants of the accessors:
`EFX_USE_QWORD_IO` (defined when `BITS_PER_LONG == 64`) and
`EFX_NOT_UPSTREAM && CONFIG_X86_64`, under which `_efx_writeo` exists. -/
structure efx_build where
  EFX_USE_QWORD_IO : Bool
  EFX_NOT_UPSTREAM_X86_64 : Bool

/-- Modelled from the spec: `struct efx_nic` is not among the sources.  The
device context supplies a base memory-mapped address (`membase`), a register
stride (`vi_stride`, an `unsigned int`) and the lock; the memory-mapped
registers are a byte-addressed mock store `mem`, and `trace` records the lock
and bus events of the device in the order in which they happen. -/
structure efx_nic where
  membase : Nat
  vi_stride : Nat
  mem : Nat → Nat
  trace : List bus_event

/-- Modelled from the spec: `efx_dword_t` is not among the sources; a Dword is a
32-bit register value, one 32-bit limb.  The object is given by its four bytes
in memory, lowest address first. -/
structure efx_dword_t where
  bytes : Fin 4 → Nat

/-- Modelled from the spec: `efx_qword_t` is not among the sources; a Qword is a
64-bit register value, two 32-bit limbs.  The object is given by its eight
bytes in memory. -/
structure efx_qword_t where
  bytes : Fin 8 → Nat

/-- Modelled from the spec: `efx_oword_t` is not among the sources; an Oword is
a 128-bit register value, four 32-bit limbs.  The object is given by its
sixteen bytes in memory. -/
structure efx_oword_t where
  bytes : Fin 16 → Nat

/-- The size of `efx_oword_t` in bytes. -/
def sizeof_efx_oword_t : Nat := 16

/-- The member `u32[i]` of a Dword, as the bytes it occupies. -/
def efx_dword_t.u32 (v : efx_dword_t) (i : Fin 1) : Fin 4 → Nat :=
  fun k => v.bytes ⟨4 * i.val + k.val, by omega⟩

/-- The assignment `value->u32[i] = x` on a Dword. -/
def efx_dword_t.set_u32 (v : efx_dword_t) (i : Fin 1) (x : Fin 4 → Nat) : efx_dword_t :=
  { bytes := fun k => if k.val / 4 = i.val then x ⟨k.val % 4, Nat.mod_lt _ (by decide)⟩
                      else v.bytes k }

/-- The member `u32[i]` of a Qword. -/
def efx_qword_t.u32 (v : efx_qword_t) (i : Fin 2) : Fin 4 → Nat :=
  fun k => v.bytes ⟨4 * i.val + k.val, by omega⟩

/-- The member `u64[i]` of a Qword. -/
def efx_qword_t.u64 (v : efx_qword_t) (i : Fin 1) : Fin 8 → Nat :=
  fun k => v.bytes ⟨8 * i.val + k.val, by omega⟩

/-- The member `u32[i]` of an Oword. -/
def efx_oword_t.u32 (v : efx_oword_t) (i : Fin 4) : Fin 4 → Nat :=
  fun k => v.bytes ⟨4 * i.val + k.val, by omega⟩

/-- The member `u64[i]` of an Oword. -/
def efx_oword_t.u64 (v : efx_oword_t) (i : Fin 2) : Fin 8 → Nat :=
  fun k => v.bytes ⟨8 * i.val + k.val, by omega⟩

/-- The assignment `value->u32[i] = x` on an Oword. -/
def efx_oword_t.set_u32 (v : efx_oword_t) (i : Fin 4) (x : Fin 4 → Nat) : efx_oword_t :=
  { bytes := fun k => if k.val / 4 = i.val then x ⟨k.val % 4, Nat.mod_lt _ (by decide)⟩
                      else v.bytes k }

/-- The store after `n` bytes have been written at the address `p`. -/
def store_bytes (mem : Nat → Nat) (p : Nat) {n : Nat} (data : Fin n → Nat) : Nat → Nat :=
  fun a => if h : p ≤ a ∧ a < p + n then data ⟨a - p, by omega⟩ else mem a

/-- The `n` bytes of the store at the address `p`. -/
def load_bytes (mem : Nat → Nat) (p : Nat) (n : Nat) : Fin n → Nat :=
  fun k => mem (p + k.val)

/-- Addition of two `unsigned int`. -/
def u32_add (a b : Nat) : Nat :=
  (a + b) % 2 ^ 32

/-! ## Register I/O: the kernel primitives -/

/-- The kernel primitive `spin_lock_irqsave(&efx->biu_lock, flags)`. -/
def spin_lock_irqsave (efx : efx_nic) : efx_nic :=
  { efx with trace := efx.trace ++ [bus_event.acquire] }

/-- The kernel primitive `spin_unlock_irqrestore(&efx->biu_lock, flags)`. -/
def spin_unlock_irqrestore (efx : efx_nic) : efx_nic :=
  { efx with trace := efx.trace ++ [bus_event.release] }

/-- The kernel primitive `__raw_writel`: one 32-bit bus write, without byte
swapping, so the bytes on the bus are the bytes of the value in memory. -/
def __raw_writel (efx : efx_nic) (value : Fin 4 → Nat) (addr : Nat) : efx_nic :=
  { efx with mem := store_bytes efx.mem addr value,
             trace := efx.trace ++ [bus_event.write addr (List.ofFn value)] }

/-- The kernel primitive `__raw_writeq`: one 64-bit bus write. -/
def __raw_writeq (efx : efx_nic) (value : Fin 8 → Nat) (addr : Nat) : efx_nic :=
  { efx with mem := store_bytes efx.mem addr value,
             trace := efx.trace ++ [bus_event.write addr (List.ofFn value)] }

/-- The kernel primitive `__raw_readl`: one 32-bit bus read. -/
def __raw_readl (efx : efx_nic) (addr : Nat) : efx_nic × (Fin 4 → Nat) :=
  ({ efx with trace := efx.trace ++ [bus_event.read addr 4] }, load_bytes efx.mem addr 4)

/-- The kernel primitive `__raw_readq`: one 64-bit bus read. -/
def __raw_readq (efx : efx_nic) (addr : Nat) : efx_nic × (Fin 8 → Nat) :=
  ({ efx with trace := efx.trace ++ [bus_event.read addr 8] }, load_bytes efx.mem addr 8)

/-! ## Register I/O: the accessors of `io.h` -/

/-- The function `efx_mem`: `efx->membase + addr`. -/
def efx_mem (efx : efx_nic) (addr : Nat) : Nat :=
  efx.membase + addr

/-- The function `_efx_writeo` of the builds with
`EFX_NOT_UPSTREAM && CONFIG_X86_64`: the sixteen bytes at `value` are written
to the register by one 128-bit store (`movdqa`). -/
def _efx_writeo (efx : efx_nic) (value : Fin 16 → Nat) (reg : Nat) : efx_nic :=
  { efx with mem := store_bytes efx.mem (efx_mem efx reg) value,
             trace := efx.trace ++ [bus_event.write (efx_mem efx reg) (List.ofFn value)] }

/-- The function `_efx_writeq`. -/
def _efx_writeq (efx : efx_nic) (value : Fin 8 → Nat) (reg : Nat) : efx_nic :=
  __raw_writeq efx value (efx_mem efx reg)

/-- The function `_efx_readq`. -/
def _efx_readq (efx : efx_nic) (reg : Nat) : efx_nic × (Fin 8 → Nat) :=
  __raw_readq efx (efx_mem efx reg)

/-- The function `_efx_writed`. -/
def _efx_writed (efx : efx_nic) (value : Fin 4 → Nat) (reg : Nat) : efx_nic :=
  __raw_writel efx value (efx_mem efx reg)

/-- The function `_efx_readd`. -/
def _efx_readd (efx : efx_nic) (reg : Nat) : efx_nic × (Fin 4 → Nat) :=
  __raw_readl efx (efx_mem efx reg)

/-- The function `efx_writeo`, in the build `B`.  The logging call before the
lock is taken and the barrier `mmiowb()`, which builds for older kernels have
directly before the release, are neither lock events nor bus transactions and
are not represented. -/
def efx_writeo (B : efx_build) (efx : efx_nic) (value : efx_oword_t) (reg : Nat) : efx_nic :=
  let efx1 := spin_lock_irqsave efx
  let efx2 :=
    if B.EFX_USE_QWORD_IO then
      let e1 := _efx_writeq efx1 (value.u64 0) (u32_add reg 0)
      _efx_writeq e1 (value.u64 1) (u32_add reg 8)
    else
      let e1 := _efx_writed efx1 (value.u32 0) (u32_add reg 0)
      let e2 := _efx_writed e1 (value.u32 1) (u32_add reg 4)
      let e3 := _efx_writed e2 (value.u32 2) (u32_add reg 8)
      _efx_writed e3 (value.u32 3) (u32_add reg 12)
  spin_unlock_irqrestore efx2

/-- The function `efx_writeq`, in the build `B` (logging and `mmiowb()` as for
`efx_writeo`). -/
def efx_writeq (B : efx_build) (efx : efx_nic) (value : efx_qword_t) (reg : Nat) : efx_nic :=
  let efx1 := spin_lock_irqsave efx
  let efx2 :=
    if B.EFX_USE_QWORD_IO then
      _efx_writeq efx1 (value.u64 0) (u32_add reg 0)
    else
      let e1 := _efx_writed efx1 (value.u32 0) (u32_add reg 0)
      _efx_writed e1 (value.u32 1) (u32_add reg 4)
  spin_unlock_irqrestore efx2

/-- The function `efx_writed`. -/
def efx_writed (efx : efx_nic) (value : efx_dword_t) (reg : Nat) : efx_nic :=
  _efx_writed efx (value.u32 0) reg

/-- The function `efx_reado`: the state of the device and the content of
`*value` after the call. -/
def efx_reado (efx : efx_nic) (value : efx_oword_t) (reg : Nat) : efx_nic × efx_oword_t :=
  let efx1 := spin_lock_irqsave efx
  let r0 := _efx_readd efx1 (u32_add reg 0)
  let v0 := value.set_u32 0 r0.2
  let r1 := _efx_readd r0.1 (u32_add reg 4)
  let v1 := v0.set_u32 1 r1.2
  let r2 := _efx_readd r1.1 (u32_add reg 8)
  let v2 := v1.set_u32 2 r2.2
  let r3 := _efx_readd r2.1 (u32_add reg 12)
  let v3 := v2.set_u32 3 r3.2
  (spin_unlock_irqrestore r3.1, v3)

/-- The function `efx_readd`. -/
def efx_readd (efx : efx_nic) (value : efx_dword_t) (reg : Nat) : efx_nic × efx_dword_t :=
  let r := _efx_readd efx reg
  (r.1, value.set_u32 0 r.2)

/-- The function `efx_writeo_table`; the offset is converted to
`unsigned int`. -/
def efx_writeo_table (B : efx_build) (efx : efx_nic) (value : efx_oword_t)
    (reg index : Nat) : efx_nic :=
  efx_writeo B efx value ((reg + index * sizeof_efx_oword_t) % 2 ^ 32)

/-- The function `efx_reado_table`. -/
def efx_reado_table (efx : efx_nic) (value : efx_oword_t) (reg index : Nat) :
    efx_nic × efx_oword_t :=
  efx_reado efx value ((reg + index * sizeof_efx_oword_t) % 2 ^ 32)

/-- The constant `EFX_DEFAULT_VI_STRIDE`. -/
def EFX_DEFAULT_VI_STRIDE : Nat := 0x2000

/-- The constant `EF100_DEFAULT_VI_STRIDE`. -/
def EF100_DEFAULT_VI_STRIDE : Nat := 0x10000

/-- The function `efx_paged_reg`, in `unsigned int` arithmetic. -/
def efx_paged_reg (efx : efx_nic) (page reg : Nat) : Nat :=
  (page * efx.vi_stride + reg) % 2 ^ 32

/-- The function `_efx_writeo_page`, in the build `B`. -/
def _efx_writeo_page (B : efx_build) (efx : efx_nic) (value : efx_oword_t)
    (reg page : Nat) : efx_nic :=
  let reg := efx_paged_reg efx page reg
  if B.EFX_NOT_UPSTREAM_X86_64 then
    _efx_writeo efx value.bytes (u32_add reg 0)
  else if B.EFX_USE_QWORD_IO then
    let e1 := _efx_writeq efx (value.u64 0) (u32_add reg 0)
    _efx_writeq e1 (value.u64 1) (u32_add reg 8)
  else
    let e1 := _efx_writed efx (value.u32 0) (u32_add reg 0)
    let e2 := _efx_writed e1 (value.u32 1) (u32_add reg 4)
    let e3 := _efx_writed e2 (value.u32 2) (u32_add reg 8)
    _efx_writed e3 (value.u32 3) (u32_add reg 12)

/-- The function `_efx_writed_page`. -/
def _efx_writed_page (efx : efx_nic) (value : efx_dword_t) (reg page : Nat) : efx_nic :=
  efx_writed efx value (efx_paged_reg efx page reg)

/-- The function `_efx_writed_page_locked`. -/
def _efx_writed_page_locked (efx : efx_nic) (value : efx_dword_t) (reg page : Nat) : efx_nic :=
  if page = 0 then
    let efx1 := spin_lock_irqsave efx
    let efx2 := efx_writed efx1 value (efx_paged_reg efx1 page reg)
    spin_unlock_irqrestore efx2
  else
    efx_writed efx value (efx_paged_reg efx page reg)

/-! ## Register I/O: lock discipline -/

/-- The state of the lock (held or free) after one event, or `none` when the
event breaks the discipline: the lock is taken while it is held, or released
while it is free. -/
def lock_step (held : Bool) : bus_event → Option Bool
  | bus_event.acquire => if held then none else some true
  | bus_event.release => if held then some false else none
  | _ => some held

/-- The state of the lock after a sequence of events started in the state
`held`, or `none` when an event of the sequence breaks the discipline. -/
def lock_run (held : Bool) : List bus_event → Option Bool
  | [] => some held
  | e :: t => (lock_step held e).bind (fun h => lock_run h t)

/-- The events are one critical section: the lock is taken, then there are
bus transactions only, at least one, then the lock is released. -/
def locked_section (ev : List bus_event) : Prop :=
  ∃ ts : List bus_event, ev = bus_event.acquire :: (ts ++ [bus_event.release]) ∧ ts ≠ [] ∧
    ∀ e ∈ ts, e.is_transfer = true

/-- A device with an all-zero store and no event yet. -/
def nic0 : efx_nic :=
  { membase := 0, vi_stride := EFX_DEFAULT_VI_STRIDE, mem := fun _ => 0, trace := [] }

/-- The build with 64-bit transfers. -/
def build64 : efx_build :=
  { EFX_USE_QWORD_IO := true, EFX_NOT_UPSTREAM_X86_64 := false }

/-- The build with 32-bit transfers. -/
def build32 : efx_build :=
  { EFX_USE_QWORD_IO := false, EFX_NOT_UPSTREAM_X86_64 := false }

/-- An Oword with the bytes 0xa0, 0xa1, ..., 0xaf. -/
def oword_a : efx_oword_t :=
  { bytes := fun k => 0xa0 + k.val }

/-- An Oword with all bytes zero. -/
def oword_zero : efx_oword_t :=
  { bytes := fun _ => 0 }

/-- A Qword with the bytes 0xb0, ..., 0xb7. -/
def qword_b : efx_qword_t :=
  { bytes := fun k => 0xb0 + k.val }

/-- A Dword with the bytes 0xc0, ..., 0xc3. -/
def dword_c : efx_dword_t :=
  { bytes := fun k => 0xc0 + k.val }

/-- The events which happen between the state `efx` of the device and the later
state `efx1`. -/
def new_events (efx efx1 : efx_nic) : List bus_event :=
  efx1.trace.drop efx.trace.length

/-- The discipline of the lock over the events of one operation started with
the lock free: no event takes the lock while it is held or releases it while
it is free, the lock is free at the end, and it is taken at most once. -/
def lock_discipline (ev : List bus_event) : Prop :=
  lock_run false ev = some false ∧ ev.count bus_event.acquire ≤ 1

/-! ## Register I/O: layout of a wide transfer -/

/-- The bus transactions among the events, in their order. -/
def bus_transfers (ev : List bus_event) : List bus_event :=
  ev.filter bus_event.is_transfer

/-- The extents of the writes among the events, in their order: for each write
the bus address of its first byte and the number of its bytes. -/
def write_extents : List bus_event → List (Nat × Nat)
  | [] => []
  | bus_event.write addr data :: t => (addr, data.length) :: write_extents t
  | _ :: t => write_extents t

/-- The extents are contiguous from the address `p` to the address `q`: the
first extent starts at `p`, every extent has at least one byte and ends where
the next one starts, and the last extent ends at `q`. -/
def contiguous_from : Nat → List (Nat × Nat) → Nat → Bool
  | p, [], q => decide (p = q)
  | p, x :: t, q => decide (x.1 = p) && decide (0 < x.2) && contiguous_from (p + x.2) t q

/-- The layout of the limb writes of one register which starts at the bus
address `p` and ends before `q`: the writes are contiguous from `p` to `q`, at
strictly ascending addresses, and no write overlaps a later one. -/
def limb_layout (p q : Nat) (ws : List (Nat × Nat)) : Prop :=
  contiguous_from p ws q = true ∧
  ws.Pairwise (fun x y => x.1 < y.1) ∧
  ws.Pairwise (fun x y => x.1 + x.2 ≤ y.1)

/-- The filter `spec_udp4` with other values in the limbs 1, 2 and 3 of the two
host fields. -/
def spec_udp4_limbs : efx_filter_spec :=
  { spec_udp4 with
    loc_host := ![htonl false 0x0a000001, 5, 6, 7]
    rem_host := ![0, 1, 2, 3] }

/-! ## Bits -/

/-- Bit `i` of `lnot32 x`. -/
theorem testBit_lnot32 (x i : Nat) :
    (lnot32 x).testBit i = xor (decide (i < 32)) (x.testBit i) := by
  unfold lnot32
  rw [show (0xFFFFFFFF : Nat) = 2 ^ 32 - 1 by norm_num, Nat.testBit_xor,
    Nat.testBit_two_pow_sub_one]

/-- A conjunction of two words is zero when they have no common bit. -/
theorem and_eq_zero_iff_testBit (x y : Nat) :
    x &&& y = 0 ↔ ∀ i, x.testBit i = true → y.testBit i = false := by
  constructor
  · intro h i hx
    have h1 : (x &&& y).testBit i = false := by rw [h]; exact Nat.zero_testBit i
    rw [Nat.testBit_and, hx] at h1
    simpa using h1
  · intro h
    apply Nat.eq_of_testBit_eq
    intro i
    rw [Nat.testBit_and, Nat.zero_testBit]
    cases hx : x.testBit i
    · rfl
    · rw [h i hx]; rfl

/-- Testing a single bit with `&`: the bit is clear. -/
theorem and_two_pow_eq_zero_iff (x k : Nat) : x &&& 2 ^ k = 0 ↔ x.testBit k = false := by
  rw [and_eq_zero_iff_testBit]
  constructor
  · intro h
    cases hx : x.testBit k
    · rfl
    · have := h k hx
      rw [Nat.testBit_two_pow_self] at this
      exact absurd this (by decide)
  · intro h i hx
    rw [Nat.testBit_two_pow]
    by_cases hki : k = i
    · subst hki; rw [h] at hx; exact absurd hx (by decide)
    · simpa using hki

/-- Testing a single bit with `&`: the bit is set. -/
theorem and_two_pow_ne_zero_iff (x k : Nat) : x &&& 2 ^ k ≠ 0 ↔ x.testBit k = true := by
  rw [Ne, and_two_pow_eq_zero_iff]
  cases x.testBit k <;> simp

/-- A bit outside `S` makes `x & ~S` non-zero. -/
theorem bit_outside_and_lnot32 {x S : Nat} (h : bit_outside x S) : x &&& lnot32 S ≠ 0 := by
  obtain ⟨i, hi, hx, hS⟩ := h
  intro h0
  have := (and_eq_zero_iff_testBit _ _).1 h0 i hx
  rw [testBit_lnot32, hS] at this
  simp [hi] at this

/-- For a 32-bit set `S`, `x & ~S` is zero exactly when no bit of `x` is outside `S`. -/
theorem and_lnot32_eq_zero_iff {x S : Nat} (hS : S < 2 ^ 32) :
    x &&& lnot32 S = 0 ↔ ¬ bit_outside x S := by
  rw [and_eq_zero_iff_testBit]
  constructor
  · rintro h ⟨i, hi, hx, hSi⟩
    have := h i hx
    rw [testBit_lnot32, hSi] at this
    simp [hi] at this
  · intro h i hx
    rw [testBit_lnot32]
    by_cases hi : i < 32
    · cases hSi : S.testBit i
      · exact absurd ⟨i, hi, hx, hSi⟩ h
      · simp [hi]
    · have : S.testBit i = false :=
        Nat.testBit_lt_two_pow (lt_of_lt_of_le hS (Nat.pow_le_pow_right (by norm_num) (by omega)))
      simp [hi, this]

/-- The test `(x & (A | B)) == A` for two distinct bits: `A` set and `B` clear. -/
theorem and_pair_eq_iff (x : Nat) {a b : Nat} (hab : a ≠ b) :
    x &&& (2 ^ a ||| 2 ^ b) = 2 ^ a ↔ (x &&& 2 ^ a ≠ 0 ∧ x &&& 2 ^ b = 0) := by
  rw [and_two_pow_ne_zero_iff, and_two_pow_eq_zero_iff]
  constructor
  · intro h
    have ha := congrArg (fun n => Nat.testBit n a) h
    have hb := congrArg (fun n => Nat.testBit n b) h
    simp only [Nat.testBit_and, Nat.testBit_or, Nat.testBit_two_pow_self,
      Nat.testBit_two_pow_of_ne hab, Nat.testBit_two_pow_of_ne (Ne.symm hab)] at ha hb
    simpa using And.intro ha hb
  · rintro ⟨ha, hb⟩
    apply Nat.eq_of_testBit_eq
    intro i
    simp only [Nat.testBit_and, Nat.testBit_or, Nat.testBit_two_pow]
    by_cases hai : a = i
    · subst hai; simp [ha]
    · by_cases hbi : b = i
      · subst hbi; simp [hb, hai]
      · simp [hai, hbi]

/-- Distinct bits are disjoint. -/
theorem two_pow_and_two_pow {a b : Nat} (h : a ≠ b) : 2 ^ a &&& 2 ^ b = 0 := by
  rw [and_two_pow_eq_zero_iff]
  exact Nat.testBit_two_pow_of_ne h

/-- Removing the extended bit from a flow type with or without it. -/
theorem base_flow_type_or_ext {b : Nat} (hb : b < 2 ^ 31) :
    base_flow_type (b ||| FLOW_EXT) = b ∧ base_flow_type b = b := by
  have key : ∀ i, b.testBit i = true → i < 31 := by
    intro i hi
    by_contra hc
    have : b.testBit i = false :=
      Nat.testBit_lt_two_pow (lt_of_lt_of_le hb (Nat.pow_le_pow_right (by norm_num) (by omega)))
    rw [this] at hi
    exact absurd hi (by decide)
  have hF : FLOW_EXT = 2 ^ 31 := by norm_num [FLOW_EXT]
  constructor <;>
  · apply Nat.eq_of_testBit_eq
    intro i
    unfold base_flow_type
    rw [Nat.testBit_and, testBit_lnot32, hF]
    simp only [Nat.testBit_or, Nat.testBit_two_pow]
    cases hbi : b.testBit i
    · by_cases h31 : 31 = i
      · subst h31; simp
      · simp [h31]
    · have := key i hbi
      have h1 : i < 32 := by omega
      have h2 : ¬ (31 = i) := by omega
      simp [h1, h2]

/-- Packing two 16-bit halves with `|` and `<< 16` is addition. -/
theorem or_shiftLeft_16 (a b : Nat) (ha : a < 2 ^ 16) : a ||| (b <<< 16) = a + b * 2 ^ 16 := by
  rw [Nat.shiftLeft_eq, Nat.or_comm, Nat.mul_comm, ← Nat.mul_add_lt_is_or ha]
  omega

/-- The bytes and halves of a 32-bit number given by its four bytes. -/
theorem bytes4 {a b c d : Nat} (ha : a < 256) (hb : b < 256) (hc : c < 256) (hd : d < 256) :
    (a * 2 ^ 24 + b * 2 ^ 16 + c * 2 ^ 8 + d) % 256 = d ∧
    (a * 2 ^ 24 + b * 2 ^ 16 + c * 2 ^ 8 + d) / 2 ^ 8 % 256 = c ∧
    (a * 2 ^ 24 + b * 2 ^ 16 + c * 2 ^ 8 + d) / 2 ^ 16 % 256 = b ∧
    (a * 2 ^ 24 + b * 2 ^ 16 + c * 2 ^ 8 + d) / 2 ^ 24 % 256 = a ∧
    (a * 2 ^ 24 + b * 2 ^ 16 + c * 2 ^ 8 + d) % 2 ^ 32 = a * 2 ^ 24 + b * 2 ^ 16 + c * 2 ^ 8 + d ∧
    (a * 2 ^ 24 + b * 2 ^ 16 + c * 2 ^ 8 + d) % 2 ^ 16 = c * 2 ^ 8 + d ∧
    (a * 2 ^ 24 + b * 2 ^ 16 + c * 2 ^ 8 + d) / 2 ^ 16 = a * 2 ^ 8 + b := by
  refine ⟨?_, ?_, ?_, ?_, ?_, ?_, ?_⟩ <;> omega

/-! ## Byte order -/

/-- The ether types of IPv4 and IPv6 differ in either byte order. -/
theorem htons_ip_ne_ipv6 (be : Bool) : htons be ETH_P_IP ≠ htons be ETH_P_IPV6 := by
  cases be <;> decide

/-- The function `combine_ports` packs its arguments as `packs_ports` says, in
either byte order. -/
theorem combine_ports_packs (be : Bool) (loc rem : Nat) :
    packs_ports be (combine_ports be loc rem) loc rem := by
  have b1 : loc % 256 < 256 := Nat.mod_lt _ (by norm_num)
  have b2 : loc / 256 % 256 < 256 := Nat.mod_lt _ (by norm_num)
  have b3 : rem % 256 < 256 := Nat.mod_lt _ (by norm_num)
  have b4 : rem / 256 % 256 < 256 := Nat.mod_lt _ (by norm_num)
  unfold packs_ports combine_ports
  cases be
  · have h1 : swab16 loc < 2 ^ 16 := by unfold swab16; omega
    simp only [htonl, ntohl, ntohs, htons, mem32, mem16, Bool.false_eq_true, if_false]
    rw [or_shiftLeft_16 _ _ h1]
    unfold swab16
    generalize loc % 256 = ll at b1 ⊢
    generalize loc / 256 % 256 = lh at b2 ⊢
    generalize rem % 256 = rl at b3 ⊢
    generalize rem / 256 % 256 = rh at b4 ⊢
    have hx : ll * 256 + lh + (rl * 256 + rh) * 2 ^ 16 =
        rl * 2 ^ 24 + rh * 2 ^ 16 + ll * 2 ^ 8 + lh := by omega
    obtain ⟨x1, x2, x3, x4, x5, -, -⟩ := bytes4 b3 b4 b1 b2
    obtain ⟨y1, y2, y3, y4, -, -, -⟩ := bytes4 b2 b1 b4 b3
    rw [hx, x5]
    unfold swab32
    rw [x1, x2, x3, x4, y1, y2, y3, y4]
    refine ⟨?_, ?_, rfl⟩ <;> omega
  · have h1 : loc % 2 ^ 16 < 2 ^ 16 := Nat.mod_lt _ (by norm_num)
    simp only [htonl, ntohl, ntohs, htons, mem32, mem16, if_true]
    rw [or_shiftLeft_16 _ _ h1]
    have hl : loc % 2 ^ 16 = loc / 256 % 256 * 2 ^ 8 + loc % 256 := by omega
    have hr : rem % 2 ^ 16 = rem / 256 % 256 * 2 ^ 8 + rem % 256 := by omega
    rw [hl, hr]
    generalize loc % 256 = ll at b1 ⊢
    generalize loc / 256 % 256 = lh at b2 ⊢
    generalize rem % 256 = rl at b3 ⊢
    generalize rem / 256 % 256 = rh at b4 ⊢
    have hx : lh * 2 ^ 8 + ll + (rh * 2 ^ 8 + rl) * 2 ^ 16 =
        rh * 2 ^ 24 + rl * 2 ^ 16 + lh * 2 ^ 8 + ll := by omega
    obtain ⟨x1, x2, x3, x4, x5, x6, x7⟩ := bytes4 b4 b3 b2 b1
    rw [hx]
    simp only [x5, x1, x2, x3, x4, x6, x7]
    simp
    omega

/-- The array `minus1` is sixteen bytes 0xff. -/
theorem mem128_minus1 (be : Bool) : mem128 be minus1 = List.replicate 16 0xff := by
  cases be <;> decide

/-! ## The enumerators -/

/-- Distinct match flags are disjoint. -/
theorem efx_filter_consts.wf.disjoint {K : efx_filter_consts} (hK : K.wf)
    {a b : efx_filter_match_flags} (h : a ≠ b) : K.match_value a &&& K.match_value b = 0 := by
  obtain ⟨-, hm, hinj⟩ := hK
  obtain ⟨i, -, hi⟩ := hm a
  obtain ⟨j, -, hj⟩ := hm b
  rw [hi, hj]
  apply two_pow_and_two_pow
  intro hij
  apply h
  apply hinj
  rw [hi, hj, hij]

/-- A match flag is not zero. -/
theorem efx_filter_consts.wf.match_ne_zero {K : efx_filter_consts} (hK : K.wf)
    (a : efx_filter_match_flags) : K.match_value a ≠ 0 := by
  obtain ⟨i, -, hi⟩ := hK.2.1 a
  rw [hi]
  exact Nat.pos_iff_ne_zero.1 (Nat.pow_pos (by norm_num))

/-- A match flag fits in 32 bits. -/
theorem efx_filter_consts.wf.match_lt {K : efx_filter_consts} (hK : K.wf)
    (a : efx_filter_match_flags) : K.match_value a < 2 ^ 32 := by
  obtain ⟨i, hlt, hi⟩ := hK.2.1 a
  rw [hi]
  exact Nat.pow_lt_pow_right (by norm_num) hlt

/-- The set of supported flags fits in 32 bits. -/
theorem efx_filter_consts.wf.flags_supported_lt {K : efx_filter_consts} (hK : K.wf) :
    K.flags_supported < 2 ^ 32 := by
  have key : ∀ f, K.flag_value f < 2 ^ 32 := by
    intro f
    obtain ⟨k, hk, h⟩ := hK.1 f
    rw [h]
    exact Nat.pow_lt_pow_right (by norm_num) hk
  unfold efx_filter_consts.flags_supported
  exact Nat.or_lt_two_pow (Nat.or_lt_two_pow (Nat.or_lt_two_pow (key _) (key _)) (key _)) (key _)

/-- The set of supported match flags fits in 32 bits. -/
theorem efx_filter_consts.wf.match_supported_lt {K : efx_filter_consts} (hK : K.wf) :
    K.match_supported < 2 ^ 32 := by
  have key := hK.match_lt
  unfold efx_filter_consts.match_supported
  exact Nat.or_lt_two_pow (Nat.or_lt_two_pow (Nat.or_lt_two_pow (Nat.or_lt_two_pow
    (Nat.or_lt_two_pow (Nat.or_lt_two_pow (key _) (key _)) (key _)) (key _)) (key _)) (key _))
    (key _)

/-- The test `(x & (A | B)) == A` for two distinct match flags. -/
theorem efx_filter_consts.wf.and_pair {K : efx_filter_consts} (hK : K.wf)
    {a b : efx_filter_match_flags} (h : a ≠ b) (x : Nat) :
    x &&& (K.match_value a ||| K.match_value b) = K.match_value a ↔
      (x &&& K.match_value a ≠ 0 ∧ x &&& K.match_value b = 0) := by
  obtain ⟨-, hm, hinj⟩ := hK
  obtain ⟨i, -, hi⟩ := hm a
  obtain ⟨j, -, hj⟩ := hm b
  rw [hi, hj]
  apply and_pair_eq_iff
  intro hij
  apply h
  apply hinj
  rw [hi, hj, hij]

/-- The first half of the asymmetry check: remote host without local host. -/
theorem efx_filter_consts.wf.asym_host {K : efx_filter_consts} (hK : K.wf) (x : Nat) :
    x &&& (K.EFX_FILTER_MATCH_REM_HOST ||| K.EFX_FILTER_MATCH_LOC_HOST) =
        K.EFX_FILTER_MATCH_REM_HOST ↔
      (x &&& K.EFX_FILTER_MATCH_REM_HOST ≠ 0 ∧ x &&& K.EFX_FILTER_MATCH_LOC_HOST = 0) :=
  hK.and_pair (by decide) x

/-- The second half of the asymmetry check: remote port without local port. -/
theorem efx_filter_consts.wf.asym_port {K : efx_filter_consts} (hK : K.wf) (x : Nat) :
    x &&& (K.EFX_FILTER_MATCH_REM_PORT ||| K.EFX_FILTER_MATCH_LOC_PORT) =
        K.EFX_FILTER_MATCH_REM_PORT ↔
      (x &&& K.EFX_FILTER_MATCH_REM_PORT ≠ 0 ∧ x &&& K.EFX_FILTER_MATCH_LOC_PORT = 0) :=
  hK.and_pair (by decide) x

/-- The multicast flag is neither the IP protocol flag nor the ether type flag. -/
theorem efx_filter_consts.wf.multicast_disjoint {K : efx_filter_consts} (hK : K.wf) :
    K.EFX_FILTER_MATCH_LOC_MAC_IG &&& K.EFX_FILTER_MATCH_IP_PROTO = 0 ∧
    K.EFX_FILTER_MATCH_LOC_MAC_IG &&& K.EFX_FILTER_MATCH_ETHER_TYPE = 0 :=
  ⟨hK.disjoint (by decide), hK.disjoint (by decide)⟩

/-- The concrete assignment `efx_consts` is well formed. -/
theorem efx_consts_wf : efx_consts.wf := by
  refine ⟨?_, ?_, ?_⟩
  · intro f
    cases f
    · exact ⟨3, by decide, rfl⟩
    · exact ⟨5, by decide, rfl⟩
    · exact ⟨6, by decide, rfl⟩
    · exact ⟨1, by decide, rfl⟩
  · intro m
    cases m
    · exact ⟨0, by decide, rfl⟩
    · exact ⟨1, by decide, rfl⟩
    · exact ⟨3, by decide, rfl⟩
    · exact ⟨5, by decide, rfl⟩
    · exact ⟨9, by decide, rfl⟩
    · exact ⟨6, by decide, rfl⟩
    · exact ⟨8, by decide, rfl⟩
    · exact ⟨10, by decide, rfl⟩
  · intro a b
    cases a <;> cases b <;> simp [efx_consts]

/-! ## Structure of the translation -/

/-- The return code is 0 or `-EPROTONOSUPPORT`. -/
theorem efx_spec_to_ethtool_flow_code (be : Bool) (K : efx_filter_consts)
    (src : efx_filter_spec) (dst0 : ethtool_rx_flow_spec) :
    (efx_spec_to_ethtool_flow be K src dst0).1 = 0 ∨
      (efx_spec_to_ethtool_flow be K src dst0).1 = -EPROTONOSUPPORT := by
  unfold efx_spec_to_ethtool_flow
  dsimp only
  split_ifs <;> simp

/-- The record after the first two statements of the translation. -/
theorem memset_zero_location (dst0 : ethtool_rx_flow_spec) :
    ({ memset_zero dst0 with location := RX_CLS_LOC_ANY } : ethtool_rx_flow_spec) =
      dst_cleared := rfl

/-- An accepted spec outside the multicast special case is translated by
`efx_spec_to_ethtool_flow_fill` from the cleared record. -/
theorem accepted_fill {be : Bool} {K : efx_filter_consts} {src : efx_filter_spec}
    {dst0 : ethtool_rx_flow_spec} (h0 : (efx_spec_to_ethtool_flow be K src dst0).1 = 0)
    (hmc : ¬ (src.match_flags = K.EFX_FILTER_MATCH_LOC_MAC_IG ∧ src.loc_mac 0 = 1)) :
    (efx_spec_to_ethtool_flow be K src dst0).2 =
      efx_spec_to_ethtool_flow_fill be K src dst_cleared := by
  have hE : (-EPROTONOSUPPORT = 0) ↔ False := by simp [EPROTONOSUPPORT]
  unfold efx_spec_to_ethtool_flow at h0 ⊢
  dsimp only at h0 ⊢
  rw [if_neg hmc] at h0 ⊢
  split_ifs at h0 ⊢ with h1 h3 h4 h5
  · exact absurd h0 (by simp [EPROTONOSUPPORT])
  · exact absurd h0 (by simp [EPROTONOSUPPORT])
  · exact absurd h0 (by simp [EPROTONOSUPPORT])
  · exact absurd h0 (by simp [EPROTONOSUPPORT])
  · rfl

/-- The result of the multicast special case. -/
theorem multicast_result {be : Bool} {K : efx_filter_consts} {src : efx_filter_spec}
    (dst0 : ethtool_rx_flow_spec)
    (h1 : src.flags &&& lnot32 K.flags_supported = 0)
    (hmc : src.match_flags = K.EFX_FILTER_MATCH_LOC_MAC_IG ∧ src.loc_mac 0 = 1) :
    efx_spec_to_ethtool_flow be K src dst0 =
      (0, { dst_cleared with
            flow_type := UDP_V4_FLOW
            h_u := { ethtool_flow_union.zero with
                     tcp_ip4_spec := { ethtool_tcpip4_spec.zero with
                                       ip4dst := htonl be 0xe0000000 } }
            m_u := { ethtool_flow_union.zero with
                     tcp_ip4_spec := { ethtool_tcpip4_spec.zero with
                                       ip4dst := htonl be 0xf0000000 } } }) := by
  unfold efx_filter_consts.flags_supported at h1
  unfold efx_spec_to_ethtool_flow
  dsimp only
  rw [if_neg (not_not.2 h1), if_pos hmc]
  rfl

/-! ## Rejection -/

/-- C1: for every filter spec whose `flags` field has a bit set outside
{RX, STACK_ID, VPORT_ID, RX_SCATTER}, `efx_spec_to_ethtool_flow` returns
`-EPROTONOSUPPORT`, whatever `match_flags` and all other fields are; this
includes a spec whose `match_flags` is exactly LOC_MAC_IG with a multicast
`loc_mac`, since the flags are checked before the multicast special case. -/
theorem unsupported_flags_rejected (be : Bool) (K : efx_filter_consts)
    (src : efx_filter_spec) (dst0 : ethtool_rx_flow_spec)
    (h : bit_outside src.flags K.flags_supported) :
    (efx_spec_to_ethtool_flow be K src dst0).1 = -EPROTONOSUPPORT := by
  have h1 := bit_outside_and_lnot32 h
  unfold efx_filter_consts.flags_supported at h1
  unfold efx_spec_to_ethtool_flow
  dsimp only
  rw [if_pos h1]

/-- Witness of `unsupported_flags_rejected`: a multicast spec with the unsupported
flag bit 0x10. -/
theorem unsupported_flags_rejected_witness :
    bit_outside 0x10 efx_consts.flags_supported ∧
    (efx_spec_to_ethtool_flow false efx_consts
      { spec0 with flags := 0x10, match_flags := efx_consts.EFX_FILTER_MATCH_LOC_MAC_IG,
                   loc_mac := ![1, 0, 0x5e, 0, 0, 1] } ethtool_rx_flow_spec.zero).1
      = -EPROTONOSUPPORT :=
  ⟨⟨4, by decide, by decide, by decide⟩,
   unsupported_flags_rejected false efx_consts _ _ ⟨4, by decide, by decide, by decide⟩⟩

/-- C2: for every filter spec which does not take the multicast special case, if
`match_flags` has REM_HOST set and LOC_HOST clear, or REM_PORT set and LOC_PORT
clear, then `efx_spec_to_ethtool_flow` returns `-EPROTONOSUPPORT`, whatever the
other match flags and field values are (no assumption on `flags` is needed: a
spec with unsupported flags is rejected as well). -/
theorem asymmetric_match_rejected (be : Bool) (K : efx_filter_consts) (hK : K.wf)
    (src : efx_filter_spec) (dst0 : ethtool_rx_flow_spec)
    (hmc : ¬ (src.match_flags = K.EFX_FILTER_MATCH_LOC_MAC_IG ∧ src.loc_mac 0 = 1))
    (h : (src.match_flags &&& K.EFX_FILTER_MATCH_REM_HOST ≠ 0 ∧
            src.match_flags &&& K.EFX_FILTER_MATCH_LOC_HOST = 0) ∨
         (src.match_flags &&& K.EFX_FILTER_MATCH_REM_PORT ≠ 0 ∧
            src.match_flags &&& K.EFX_FILTER_MATCH_LOC_PORT = 0)) :
    (efx_spec_to_ethtool_flow be K src dst0).1 = -EPROTONOSUPPORT := by
  rw [← hK.asym_host, ← hK.asym_port] at h
  unfold efx_spec_to_ethtool_flow
  dsimp only
  rw [if_neg hmc, if_pos h]
  split_ifs <;> rfl

/-- Witness of `asymmetric_match_rejected`: match flags {REM_HOST} only. -/
theorem asymmetric_match_rejected_witness :
    (efx_spec_to_ethtool_flow false efx_consts
      { spec0 with match_flags := efx_consts.EFX_FILTER_MATCH_REM_HOST }
      ethtool_rx_flow_spec.zero).1 = -EPROTONOSUPPORT :=
  asymmetric_match_rejected false efx_consts efx_consts_wf _ _ (by decide)
    (Or.inl ⟨by decide, by decide⟩)

/-- C3: `efx_spec_to_ethtool_flow` returns only 0 or `-EPROTONOSUPPORT`; and for
every spec with supported flags whose `match_flags` is not exactly LOC_MAC_IG it
returns 0 if and only if `match_flags` has no bit outside {REM_HOST, LOC_HOST,
REM_PORT, LOC_PORT, IP_PROTO, ETHER_TYPE, OUTER_VID}, REM_HOST implies LOC_HOST,
REM_PORT implies LOC_PORT, and, if ETHER_TYPE is set, `ether_type` is IPv4
(0x0800) or IPv6 (0x86DD) in network byte order.  The condition does not
mention `ip_proto`: a spec passing the checks is accepted for every protocol. -/
theorem accepted_iff_checks (be : Bool) (K : efx_filter_consts) (hK : K.wf)
    (src : efx_filter_spec) (dst0 : ethtool_rx_flow_spec) :
    ((efx_spec_to_ethtool_flow be K src dst0).1 = 0 ∨
      (efx_spec_to_ethtool_flow be K src dst0).1 = -EPROTONOSUPPORT) ∧
    (¬ bit_outside src.flags K.flags_supported →
      src.match_flags ≠ K.EFX_FILTER_MATCH_LOC_MAC_IG →
      ((efx_spec_to_ethtool_flow be K src dst0).1 = 0 ↔
        (¬ bit_outside src.match_flags K.match_supported ∧
         (src.match_flags &&& K.EFX_FILTER_MATCH_REM_HOST ≠ 0 →
            src.match_flags &&& K.EFX_FILTER_MATCH_LOC_HOST ≠ 0) ∧
         (src.match_flags &&& K.EFX_FILTER_MATCH_REM_PORT ≠ 0 →
            src.match_flags &&& K.EFX_FILTER_MATCH_LOC_PORT ≠ 0) ∧
         (src.match_flags &&& K.EFX_FILTER_MATCH_ETHER_TYPE ≠ 0 →
            src.ether_type = htons be ETH_P_IP ∨ src.ether_type = htons be ETH_P_IPV6)))) := by
  refine ⟨efx_spec_to_ethtool_flow_code be K src dst0, ?_⟩
  intro hflags hne
  have h1 := (and_lnot32_eq_zero_iff hK.flags_supported_lt).2 hflags
  have e3 := and_lnot32_eq_zero_iff (x := src.match_flags) hK.match_supported_lt
  unfold efx_filter_consts.flags_supported at h1
  unfold efx_filter_consts.match_supported at e3
  have hE : (-EPROTONOSUPPORT = 0) ↔ False := by simp [EPROTONOSUPPORT]
  unfold efx_spec_to_ethtool_flow
  dsimp only
  rw [if_neg (not_not.2 h1), if_neg (fun h => hne h.1)]
  unfold efx_filter_consts.match_supported
  split_ifs with h3 h4 h5
  · rw [hE, false_iff]
    rintro ⟨hno, -⟩
    exact h3 (e3.2 hno)
  · rw [hK.asym_host, hK.asym_port] at h4
    rw [hE, false_iff]
    rintro ⟨-, hh, hp, -⟩
    rcases h4 with ⟨ha, hb⟩ | ⟨ha, hb⟩
    · exact hh ha hb
    · exact hp ha hb
  · rw [hE, false_iff]
    rintro ⟨-, -, -, het⟩
    rcases het h5.1 with h | h
    · exact h5.2.1 h
    · exact h5.2.2 h
  · rw [hK.asym_host, hK.asym_port] at h4
    simp only [true_iff]
    refine ⟨e3.1 (not_not.1 h3), ?_, ?_, ?_⟩
    · intro ha hb
      exact h4 (Or.inl ⟨ha, hb⟩)
    · intro ha hb
      exact h4 (Or.inr ⟨ha, hb⟩)
    · intro ha
      by_contra hc
      push_neg at hc
      exact h5 ⟨ha, hc.1, hc.2⟩

/-- Witness of `accepted_iff_checks`: a spec with match flags {LOC_HOST, LOC_PORT,
ETHER_TYPE, IP_PROTO}, `ether_type` IPv4 and `ip_proto` 200 is accepted. -/
theorem accepted_iff_checks_witness :
    (efx_spec_to_ethtool_flow false efx_consts
      { spec0 with match_flags := 0x262, ether_type := htons false ETH_P_IP, ip_proto := 200 }
      ethtool_rx_flow_spec.zero).1 = 0 :=
  ((accepted_iff_checks false efx_consts efx_consts_wf _ _).2
    ((and_lnot32_eq_zero_iff efx_consts_wf.flags_supported_lt).1 (by decide)) (by decide)).2
    ⟨(and_lnot32_eq_zero_iff efx_consts_wf.match_supported_lt).1 (by decide),
      by decide, by decide, fun _ => Or.inl rfl⟩

/-! ## The multicast special case -/

/-- C4, as stated, fails: the spec `spec_mac33` has supported flags, its
`match_flags` is exactly LOC_MAC_IG and the low bit of its first `loc_mac` octet
0x33 is set, yet the translation returns `-EPROTONOSUPPORT`. -/
theorem multicast_low_bit_counterexample :
    ¬ bit_outside spec_mac33.flags efx_consts.flags_supported ∧
    spec_mac33.match_flags = efx_consts.EFX_FILTER_MATCH_LOC_MAC_IG ∧
    spec_mac33.loc_mac 0 &&& 1 = 1 ∧
    (efx_spec_to_ethtool_flow false efx_consts spec_mac33 ethtool_rx_flow_spec.zero).1
      = -EPROTONOSUPPORT :=
  ⟨(and_lnot32_eq_zero_iff efx_consts_wf.flags_supported_lt).1 (by decide), rfl, by decide,
    by decide⟩

/-- C4, amended: for every filter spec with supported flags whose `match_flags` is
exactly LOC_MAC_IG and whose first `loc_mac` octet equals 1,
`efx_spec_to_ethtool_flow` returns success with `flow_type = UDP_V4_FLOW`, value
`ip4dst` = 224.0.0.0 and mask `ip4dst` = 240.0.0.0, both in network byte order,
and every other value, mask and extension field zero. -/
theorem multicast_record (be : Bool) (K : efx_filter_consts) (hK : K.wf)
    (src : efx_filter_spec) (dst0 : ethtool_rx_flow_spec)
    (hflags : ¬ bit_outside src.flags K.flags_supported)
    (hmf : src.match_flags = K.EFX_FILTER_MATCH_LOC_MAC_IG) (hmac : src.loc_mac 0 = 1) :
    efx_spec_to_ethtool_flow be K src dst0 =
      (0, { ethtool_rx_flow_spec.zero with
            location := RX_CLS_LOC_ANY
            flow_type := UDP_V4_FLOW
            h_u := { ethtool_flow_union.zero with
                     tcp_ip4_spec := { ethtool_tcpip4_spec.zero with
                                       ip4dst := htonl be 0xe0000000 } }
            m_u := { ethtool_flow_union.zero with
                     tcp_ip4_spec := { ethtool_tcpip4_spec.zero with
                                       ip4dst := htonl be 0xf0000000 } } }) ∧
    mem32 be (htonl be 0xe0000000) = [224, 0, 0, 0] ∧
    mem32 be (htonl be 0xf0000000) = [240, 0, 0, 0] := by
  refine ⟨?_, ?_, ?_⟩
  · rw [multicast_result dst0 ((and_lnot32_eq_zero_iff hK.flags_supported_lt).2 hflags)
      ⟨hmf, hmac⟩]
    rfl
  · cases be <;> decide
  · cases be <;> decide

/-- Witness of `multicast_record`: the multicast MAC address 01:00:5e:00:00:01. -/
theorem multicast_record_witness :
    efx_spec_to_ethtool_flow false efx_consts
      { spec0 with match_flags := efx_consts.EFX_FILTER_MATCH_LOC_MAC_IG,
                   loc_mac := ![1, 0, 0x5e, 0, 0, 1] } ethtool_rx_flow_spec.zero =
      (0, { ethtool_rx_flow_spec.zero with
            location := RX_CLS_LOC_ANY
            flow_type := UDP_V4_FLOW
            h_u := { ethtool_flow_union.zero with
                     tcp_ip4_spec := { ethtool_tcpip4_spec.zero with
                                       ip4dst := htonl false 0xe0000000 } }
            m_u := { ethtool_flow_union.zero with
                     tcp_ip4_spec := { ethtool_tcpip4_spec.zero with
                                       ip4dst := htonl false 0xf0000000 } } }) :=
  (multicast_record false efx_consts efx_consts_wf _ _
    ((and_lnot32_eq_zero_iff efx_consts_wf.flags_supported_lt).1 (by decide)) rfl rfl).1

/-! ## The records for TCP and UDP -/

/-- C5: for every accepted filter spec which is not on the IPv6 path and has
IP_PROTO set with `ip_proto` UDP (17) or TCP (6), the flow type without the
extended bit is `UDP_V4_FLOW` or `TCP_V4_FLOW` respectively, the local side is
the destination and the remote side the source: `ip4dst` is the resolved local
address (limb 0 of `loc_host`, or 0), `pdst` the resolved local port, `ip4src`
the resolved remote address (limb 0 of `rem_host`, or 0), `psrc` the resolved
remote port; and the mask record holds the resolved masks in the same four
positions. -/
theorem tcp_udp_v4_record (be : Bool) (K : efx_filter_consts) (hK : K.wf)
    (src : efx_filter_spec) (dst0 : ethtool_rx_flow_spec)
    (h0 : (efx_spec_to_ethtool_flow be K src dst0).1 = 0)
    (hv4 : src.ether_type ≠ htons be ETH_P_IPV6)
    (hip : src.match_flags &&& K.EFX_FILTER_MATCH_IP_PROTO ≠ 0)
    (hproto : src.ip_proto = 17 ∨ src.ip_proto = 6) :
    base_flow_type (efx_spec_to_ethtool_flow be K src dst0).2.flow_type =
      (if src.ip_proto = 17 then UDP_V4_FLOW else TCP_V4_FLOW) ∧
    (efx_spec_to_ethtool_flow be K src dst0).2.h_u.tcp_ip4_spec =
      { ip4dst := if src.match_flags &&& K.EFX_FILTER_MATCH_LOC_HOST ≠ 0 then src.loc_host 0 else 0
        pdst := if src.match_flags &&& K.EFX_FILTER_MATCH_LOC_PORT ≠ 0 then src.loc_port else 0
        ip4src :=
          if src.match_flags &&& K.EFX_FILTER_MATCH_REM_HOST ≠ 0 then src.rem_host 0 else 0
        psrc := if src.match_flags &&& K.EFX_FILTER_MATCH_REM_PORT ≠ 0 then src.rem_port else 0
        tos := 0 } ∧
    (efx_spec_to_ethtool_flow be K src dst0).2.m_u.tcp_ip4_spec =
      { ip4dst := if src.match_flags &&& K.EFX_FILTER_MATCH_LOC_HOST ≠ 0 then 0xFFFFFFFF else 0
        pdst := if src.match_flags &&& K.EFX_FILTER_MATCH_LOC_PORT ≠ 0 then 0xFFFF else 0
        ip4src := if src.match_flags &&& K.EFX_FILTER_MATCH_REM_HOST ≠ 0 then 0xFFFFFFFF else 0
        psrc := if src.match_flags &&& K.EFX_FILTER_MATCH_REM_PORT ≠ 0 then 0xFFFF else 0
        tos := 0 } := by
  have hmc : ¬ (src.match_flags = K.EFX_FILTER_MATCH_LOC_MAC_IG ∧ src.loc_mac 0 = 1) :=
    fun h => hip (by rw [h.1]; exact hK.multicast_disjoint.1)
  rw [accepted_fill h0 hmc]
  unfold efx_spec_to_ethtool_flow_fill
  dsimp only
  rw [if_pos hip, if_neg hv4]
  have hp : ((src.ip_proto : Int) = IPPROTO_UDP ∨ (src.ip_proto : Int) = IPPROTO_TCP) := by
    rcases hproto with h | h <;> rw [h] <;> simp [IPPROTO_UDP, IPPROTO_TCP]
  rw [if_pos hp]
  have hu : ((src.ip_proto : Int) = IPPROTO_UDP) ↔ src.ip_proto = 17 := by
    simp only [IPPROTO_UDP]; omega
  refine ⟨?_, ?_, ?_⟩
  · split_ifs <;> simp_all [base_flow_type_or_ext, UDP_V4_FLOW, TCP_V4_FLOW]
  · rw [apply_ite ethtool_rx_flow_spec.h_u]
    dsimp only
    rw [ite_self]
    simp only [zero]
    split_ifs <;> rfl
  · rw [apply_ite ethtool_rx_flow_spec.m_u]
    dsimp only
    rw [ite_self]
    simp only [zero, minus1]
    split_ifs <;> rfl

/-- Witness of `tcp_udp_v4_record`: the UDP filter `spec_udp4`. -/
theorem tcp_udp_v4_record_witness :
    base_flow_type
      (efx_spec_to_ethtool_flow false efx_consts spec_udp4 ethtool_rx_flow_spec.zero).2.flow_type
      = UDP_V4_FLOW :=
  (tcp_udp_v4_record false efx_consts efx_consts_wf spec_udp4 ethtool_rx_flow_spec.zero
    (by decide) (by decide) (by decide) (Or.inl rfl)).1

/-- C6, as stated, fails: the spec `spec_dns` has supported flags, `match_flags`
exactly {LOC_HOST, LOC_PORT}, `ether_type` IPv4, `ip_proto` UDP, local host
10.0.0.1 and local port 53; the translation accepts it, but with the flow type
`IPV4_USER_FLOW`, not `UDP_V4_FLOW`, because the IP_PROTO match flag is clear. -/
theorem loc_host_port_counterexample :
    ¬ bit_outside spec_dns.flags efx_consts.flags_supported ∧
    spec_dns.match_flags =
      efx_consts.EFX_FILTER_MATCH_LOC_HOST ||| efx_consts.EFX_FILTER_MATCH_LOC_PORT ∧
    spec_dns.ether_type = htons false ETH_P_IP ∧ spec_dns.ip_proto = 17 ∧
    (efx_spec_to_ethtool_flow false efx_consts spec_dns ethtool_rx_flow_spec.zero).1 = 0 ∧
    (efx_spec_to_ethtool_flow false efx_consts spec_dns ethtool_rx_flow_spec.zero).2.flow_type
      = IPV4_USER_FLOW ∧
    (efx_spec_to_ethtool_flow false efx_consts spec_dns ethtool_rx_flow_spec.zero).2.flow_type
      ≠ UDP_V4_FLOW :=
  ⟨(and_lnot32_eq_zero_iff efx_consts_wf.flags_supported_lt).1 (by decide), rfl, rfl, rfl,
    by decide, by decide, by decide⟩

/-- C6, amended: for every filter spec with supported flags, `match_flags` exactly
{LOC_HOST, LOC_PORT, IP_PROTO}, with or without ETHER_TYPE, `ether_type` IPv4
and `ip_proto` UDP, `efx_spec_to_ethtool_flow` succeeds with
`flow_type = UDP_V4_FLOW`, `ip4dst = loc_host[0]`, `pdst = loc_port`, all-ones
masks for `ip4dst` and `pdst`, and every other field zero, in particular zero
value and zero mask for `ip4src` and `psrc`. -/
theorem loc_host_port_udp_record (be : Bool) (K : efx_filter_consts) (hK : K.wf)
    (src : efx_filter_spec) (dst0 : ethtool_rx_flow_spec)
    (hflags : ¬ bit_outside src.flags K.flags_supported)
    (hmf : src.match_flags = K.EFX_FILTER_MATCH_LOC_HOST ||| K.EFX_FILTER_MATCH_LOC_PORT |||
              K.EFX_FILTER_MATCH_IP_PROTO ∨
           src.match_flags = K.EFX_FILTER_MATCH_LOC_HOST ||| K.EFX_FILTER_MATCH_LOC_PORT |||
              K.EFX_FILTER_MATCH_IP_PROTO ||| K.EFX_FILTER_MATCH_ETHER_TYPE)
    (het : src.ether_type = htons be ETH_P_IP) (hproto : src.ip_proto = 17) :
    efx_spec_to_ethtool_flow be K src dst0 =
      (0, { ethtool_rx_flow_spec.zero with
            location := RX_CLS_LOC_ANY
            flow_type := UDP_V4_FLOW
            h_u := { ethtool_flow_union.zero with
                     tcp_ip4_spec := { ethtool_tcpip4_spec.zero with
                                       ip4dst := src.loc_host 0, pdst := src.loc_port } }
            m_u := { ethtool_flow_union.zero with
                     tcp_ip4_spec := { ethtool_tcpip4_spec.zero with
                                       ip4dst := 0xFFFFFFFF, pdst := 0xFFFF } } }) := by
  have h1 := (and_lnot32_eq_zero_iff hK.flags_supported_lt).2 hflags
  unfold efx_filter_consts.flags_supported at h1
  have e3 := and_lnot32_eq_zero_iff (x := src.match_flags) hK.match_supported_lt
  unfold efx_filter_consts.match_supported at e3
  have hz := hK.match_ne_zero
  have f3 : src.match_flags &&& K.EFX_FILTER_MATCH_IP_PROTO ≠ 0 := by
    rcases hmf with h | h <;> rw [h] <;>
      simp [Nat.and_distrib_right, hK.disjoint, hz]
  have f4 : src.match_flags &&& K.EFX_FILTER_MATCH_LOC_HOST ≠ 0 := by
    rcases hmf with h | h <;> rw [h] <;>
      simp [Nat.and_distrib_right, hK.disjoint, hz]
  have f5 : src.match_flags &&& K.EFX_FILTER_MATCH_LOC_PORT ≠ 0 := by
    rcases hmf with h | h <;> rw [h] <;>
      simp [Nat.and_distrib_right, hK.disjoint, hz]
  have f6 : src.match_flags &&& K.EFX_FILTER_MATCH_REM_HOST = 0 := by
    rcases hmf with h | h <;> rw [h] <;>
      simp [Nat.and_distrib_right, hK.disjoint, hz]
  have f7 : src.match_flags &&& K.EFX_FILTER_MATCH_REM_PORT = 0 := by
    rcases hmf with h | h <;> rw [h] <;>
      simp [Nat.and_distrib_right, hK.disjoint, hz]
  have f8 : src.match_flags &&& K.EFX_FILTER_MATCH_OUTER_VID = 0 := by
    rcases hmf with h | h <;> rw [h] <;>
      simp [Nat.and_distrib_right, hK.disjoint, hz]
  have f1 : src.match_flags ≠ K.EFX_FILTER_MATCH_LOC_MAC_IG := by
    intro hc
    apply f4
    rw [hc]
    exact hK.disjoint (by decide)
  have f2 : ¬ bit_outside src.match_flags (K.EFX_FILTER_MATCH_REM_HOST |||
      K.EFX_FILTER_MATCH_LOC_HOST ||| K.EFX_FILTER_MATCH_REM_PORT |||
      K.EFX_FILTER_MATCH_LOC_PORT ||| K.EFX_FILTER_MATCH_IP_PROTO |||
      K.EFX_FILTER_MATCH_ETHER_TYPE ||| K.EFX_FILTER_MATCH_OUTER_VID) := by
    rintro ⟨i, -, hx, hS⟩
    simp only [Nat.testBit_or, Bool.or_eq_false_iff] at hS
    rcases hmf with h | h <;> rw [h] at hx <;>
      simp only [Nat.testBit_or, Bool.or_eq_true] at hx <;> simp_all
  have f2' := e3.2 f2
  have g4 : ¬ (src.match_flags &&& (K.EFX_FILTER_MATCH_REM_HOST ||| K.EFX_FILTER_MATCH_LOC_HOST)
        = K.EFX_FILTER_MATCH_REM_HOST ∨
      src.match_flags &&& (K.EFX_FILTER_MATCH_REM_PORT ||| K.EFX_FILTER_MATCH_LOC_PORT)
        = K.EFX_FILTER_MATCH_REM_PORT) := by
    rw [hK.asym_host, hK.asym_port]
    rintro (⟨a, -⟩ | ⟨a, -⟩)
    · exact a f6
    · exact a f7
  have g5 : ¬ (src.match_flags &&& K.EFX_FILTER_MATCH_ETHER_TYPE ≠ 0 ∧
      src.ether_type ≠ htons be ETH_P_IP ∧ src.ether_type ≠ htons be ETH_P_IPV6) :=
    fun h => h.2.1 het
  have hv4 : src.ether_type ≠ htons be ETH_P_IPV6 := by
    rw [het]; exact htons_ip_ne_ipv6 be
  unfold efx_spec_to_ethtool_flow
  dsimp only
  rw [if_neg (not_not.2 h1), if_neg (fun h => f1 h.1), if_neg (not_not.2 f2'), if_neg g4,
    if_neg g5]
  unfold efx_spec_to_ethtool_flow_fill
  simp only [f3, f4, f5, f6, f7, f8, hv4, hproto, ne_eq, not_true_eq_false, not_false_eq_true,
    if_true, if_false, IPPROTO_UDP, Nat.cast_ofNat, true_or]
  rfl

/-- Witness of `loc_host_port_udp_record`: the UDP filter `spec_udp4` for
10.0.0.1:53. -/
theorem loc_host_port_udp_record_witness :
    efx_spec_to_ethtool_flow false efx_consts spec_udp4 ethtool_rx_flow_spec.zero =
      (0, { ethtool_rx_flow_spec.zero with
            location := RX_CLS_LOC_ANY
            flow_type := UDP_V4_FLOW
            h_u := { ethtool_flow_union.zero with
                     tcp_ip4_spec := { ethtool_tcpip4_spec.zero with
                                       ip4dst := htonl false 0x0a000001, pdst := htons false 53 } }
            m_u := { ethtool_flow_union.zero with
                     tcp_ip4_spec := { ethtool_tcpip4_spec.zero with
                                       ip4dst := 0xFFFFFFFF, pdst := 0xFFFF } } }) :=
  loc_host_port_udp_record false efx_consts efx_consts_wf spec_udp4 ethtool_rx_flow_spec.zero
    ((and_lnot32_eq_zero_iff efx_consts_wf.flags_supported_lt).1 (by decide)) (Or.inr rfl) rfl rfl

/-- C7: for every accepted filter spec with `ether_type` IPv6 (whether or not the
ETHER_TYPE flag is set), IP_PROTO set with `ip_proto` TCP (resp. UDP), and
LOC_HOST and REM_HOST set, the flow type, taken without the extended bit, is
`TCP_V6_FLOW` (resp. `UDP_V6_FLOW`), and `flow_type` is exactly that value when
the outer VLAN is not matched; `ip6dst` is all four limbs (16 bytes) of `loc_host`, `ip6src` all four limbs of
`rem_host`, both address masks are 16 bytes of 0xff, and `pdst`, `psrc` and
their masks are the resolved local and remote ports and their masks. -/
theorem tcp_udp_v6_record (be : Bool) (K : efx_filter_consts) (hK : K.wf)
    (src : efx_filter_spec) (dst0 : ethtool_rx_flow_spec)
    (h0 : (efx_spec_to_ethtool_flow be K src dst0).1 = 0)
    (hv6 : src.ether_type = htons be ETH_P_IPV6)
    (hip : src.match_flags &&& K.EFX_FILTER_MATCH_IP_PROTO ≠ 0)
    (hproto : src.ip_proto = 6 ∨ src.ip_proto = 17)
    (hloc : src.match_flags &&& K.EFX_FILTER_MATCH_LOC_HOST ≠ 0)
    (hrem : src.match_flags &&& K.EFX_FILTER_MATCH_REM_HOST ≠ 0) :
    base_flow_type (efx_spec_to_ethtool_flow be K src dst0).2.flow_type =
      (if src.ip_proto = 6 then TCP_V6_FLOW else UDP_V6_FLOW) ∧
    (src.match_flags &&& K.EFX_FILTER_MATCH_OUTER_VID = 0 →
      (efx_spec_to_ethtool_flow be K src dst0).2.flow_type =
        (if src.ip_proto = 6 then TCP_V6_FLOW else UDP_V6_FLOW)) ∧
    (efx_spec_to_ethtool_flow be K src dst0).2.h_u.tcp_ip6_spec =
      { ip6dst := src.loc_host
        ip6src := src.rem_host
        pdst := if src.match_flags &&& K.EFX_FILTER_MATCH_LOC_PORT ≠ 0 then src.loc_port else 0
        psrc := if src.match_flags &&& K.EFX_FILTER_MATCH_REM_PORT ≠ 0 then src.rem_port else 0
        tclass := 0 } ∧
    (efx_spec_to_ethtool_flow be K src dst0).2.m_u.tcp_ip6_spec =
      { ip6dst := minus1
        ip6src := minus1
        pdst := if src.match_flags &&& K.EFX_FILTER_MATCH_LOC_PORT ≠ 0 then 0xFFFF else 0
        psrc := if src.match_flags &&& K.EFX_FILTER_MATCH_REM_PORT ≠ 0 then 0xFFFF else 0
        tclass := 0 } ∧
    mem128 be (efx_spec_to_ethtool_flow be K src dst0).2.h_u.tcp_ip6_spec.ip6dst =
      mem128 be src.loc_host ∧
    mem128 be (efx_spec_to_ethtool_flow be K src dst0).2.h_u.tcp_ip6_spec.ip6src =
      mem128 be src.rem_host ∧
    mem128 be (efx_spec_to_ethtool_flow be K src dst0).2.m_u.tcp_ip6_spec.ip6dst =
      List.replicate 16 0xff ∧
    mem128 be (efx_spec_to_ethtool_flow be K src dst0).2.m_u.tcp_ip6_spec.ip6src =
      List.replicate 16 0xff := by
  have hmc : ¬ (src.match_flags = K.EFX_FILTER_MATCH_LOC_MAC_IG ∧ src.loc_mac 0 = 1) :=
    fun h => hip (by rw [h.1]; exact hK.multicast_disjoint.1)
  have hp : ((src.ip_proto : Int) = IPPROTO_UDP ∨ (src.ip_proto : Int) = IPPROTO_TCP) := by
    rcases hproto with h | h <;> rw [h] <;> simp [IPPROTO_UDP, IPPROTO_TCP]
  have hhu : (efx_spec_to_ethtool_flow be K src dst0).2.h_u.tcp_ip6_spec =
      { ip6dst := src.loc_host
        ip6src := src.rem_host
        pdst := if src.match_flags &&& K.EFX_FILTER_MATCH_LOC_PORT ≠ 0 then src.loc_port else 0
        psrc := if src.match_flags &&& K.EFX_FILTER_MATCH_REM_PORT ≠ 0 then src.rem_port else 0
        tclass := 0 } := by
    rw [accepted_fill h0 hmc]
    unfold efx_spec_to_ethtool_flow_fill
    dsimp only
    rw [if_pos hip, if_pos hv6, if_pos hp, apply_ite ethtool_rx_flow_spec.h_u]
    dsimp only
    rw [ite_self, if_pos hloc, if_pos hrem]
    rfl
  have hmu : (efx_spec_to_ethtool_flow be K src dst0).2.m_u.tcp_ip6_spec =
      { ip6dst := minus1
        ip6src := minus1
        pdst := if src.match_flags &&& K.EFX_FILTER_MATCH_LOC_PORT ≠ 0 then 0xFFFF else 0
        psrc := if src.match_flags &&& K.EFX_FILTER_MATCH_REM_PORT ≠ 0 then 0xFFFF else 0
        tclass := 0 } := by
    rw [accepted_fill h0 hmc]
    unfold efx_spec_to_ethtool_flow_fill
    dsimp only
    rw [if_pos hip, if_pos hv6, if_pos hp, apply_ite ethtool_rx_flow_spec.m_u]
    dsimp only
    rw [ite_self, if_pos hloc, if_pos hrem]
    split_ifs <;> rfl
  refine ⟨?_, ?_, hhu, hmu, ?_, ?_, ?_, ?_⟩
  · rw [accepted_fill h0 hmc]
    unfold efx_spec_to_ethtool_flow_fill
    dsimp only
    rw [if_pos hip, if_pos hv6, if_pos hp]
    rcases hproto with h | h <;> rw [h] <;> split_ifs <;>
      simp_all [base_flow_type_or_ext, UDP_V6_FLOW, TCP_V6_FLOW, IPPROTO_UDP, IPPROTO_TCP]
  · intro hvid
    rw [accepted_fill h0 hmc]
    unfold efx_spec_to_ethtool_flow_fill
    dsimp only
    rw [if_pos hip, if_pos hv6, if_pos hp, if_neg (not_not.2 hvid)]
    rcases hproto with h | h <;> rw [h] <;>
      simp [UDP_V6_FLOW, TCP_V6_FLOW, IPPROTO_UDP, IPPROTO_TCP]
  · rw [hhu]
  · rw [hhu]
  · rw [hmu]; exact mem128_minus1 be
  · rw [hmu]; exact mem128_minus1 be

/-- Witness of `tcp_udp_v6_record`: the TCP over IPv6 filter `spec_tcp6`. -/
theorem tcp_udp_v6_record_witness :
    base_flow_type
      (efx_spec_to_ethtool_flow false efx_consts spec_tcp6 ethtool_rx_flow_spec.zero).2.flow_type
      = TCP_V6_FLOW ∧
    (efx_spec_to_ethtool_flow false efx_consts spec_tcp6
      ethtool_rx_flow_spec.zero).2.h_u.tcp_ip6_spec.ip6dst = spec_tcp6.loc_host :=
  have h := tcp_udp_v6_record false efx_consts efx_consts_wf spec_tcp6 ethtool_rx_flow_spec.zero
    (by decide) rfl (by decide) (Or.inl rfl) (by decide) (by decide)
  ⟨h.1, congrArg ethtool_tcpip6_spec.ip6dst h.2.2.1⟩

/-! ## The generic records -/

/-- C8, as stated, fails: the multicast spec `spec_mcast` is accepted and does not
have IP_PROTO set, yet the output is not a generic user record: its flow type
is `UDP_V4_FLOW`. -/
theorem user_record_counterexample :
    (efx_spec_to_ethtool_flow false efx_consts spec_mcast ethtool_rx_flow_spec.zero).1 = 0 ∧
    spec_mcast.match_flags &&& efx_consts.EFX_FILTER_MATCH_IP_PROTO = 0 ∧
    base_flow_type
      (efx_spec_to_ethtool_flow false efx_consts spec_mcast ethtool_rx_flow_spec.zero).2.flow_type
      = UDP_V4_FLOW ∧
    UDP_V4_FLOW ≠ IPV4_USER_FLOW ∧ UDP_V4_FLOW ≠ IPV6_USER_FLOW := by
  decide

/-- C8, amended: for every accepted filter spec outside the multicast special case
which does not have IP_PROTO set to TCP or UDP, the output is the generic user
record (`IPV4_USER_FLOW`, or `IPV6_USER_FLOW` when `ether_type` is IPv6) whose
`l4_4_bytes` value, read as a network-byte-order 32-bit number, has the resolved
local port in its low 16 bits and the resolved remote port in its high 16 bits,
i.e. its four bytes in memory are the two bytes of the remote port followed by
the two bytes of the local port, on little-endian and big-endian hosts alike;
and the `l4_4_bytes` mask is the same packing of the two port masks (0xffff
where the port flag is set, 0 otherwise). -/
theorem user_record_ports (be : Bool) (K : efx_filter_consts)
    (src : efx_filter_spec) (dst0 : ethtool_rx_flow_spec)
    (h0 : (efx_spec_to_ethtool_flow be K src dst0).1 = 0)
    (hmc : ¬ (src.match_flags = K.EFX_FILTER_MATCH_LOC_MAC_IG ∧ src.loc_mac 0 = 1))
    (hp : ¬ (src.match_flags &&& K.EFX_FILTER_MATCH_IP_PROTO ≠ 0 ∧
              (src.ip_proto = 6 ∨ src.ip_proto = 17))) :
    (src.ether_type ≠ htons be ETH_P_IPV6 →
      base_flow_type (efx_spec_to_ethtool_flow be K src dst0).2.flow_type = IPV4_USER_FLOW ∧
      packs_ports be (efx_spec_to_ethtool_flow be K src dst0).2.h_u.usr_ip4_spec.l4_4_bytes
        (if src.match_flags &&& K.EFX_FILTER_MATCH_LOC_PORT ≠ 0 then src.loc_port else 0)
        (if src.match_flags &&& K.EFX_FILTER_MATCH_REM_PORT ≠ 0 then src.rem_port else 0) ∧
      packs_ports be (efx_spec_to_ethtool_flow be K src dst0).2.m_u.usr_ip4_spec.l4_4_bytes
        (if src.match_flags &&& K.EFX_FILTER_MATCH_LOC_PORT ≠ 0 then 0xffff else 0)
        (if src.match_flags &&& K.EFX_FILTER_MATCH_REM_PORT ≠ 0 then 0xffff else 0)) ∧
    (src.ether_type = htons be ETH_P_IPV6 →
      base_flow_type (efx_spec_to_ethtool_flow be K src dst0).2.flow_type = IPV6_USER_FLOW ∧
      packs_ports be (efx_spec_to_ethtool_flow be K src dst0).2.h_u.usr_ip6_spec.l4_4_bytes
        (if src.match_flags &&& K.EFX_FILTER_MATCH_LOC_PORT ≠ 0 then src.loc_port else 0)
        (if src.match_flags &&& K.EFX_FILTER_MATCH_REM_PORT ≠ 0 then src.rem_port else 0) ∧
      packs_ports be (efx_spec_to_ethtool_flow be K src dst0).2.m_u.usr_ip6_spec.l4_4_bytes
        (if src.match_flags &&& K.EFX_FILTER_MATCH_LOC_PORT ≠ 0 then 0xffff else 0)
        (if src.match_flags &&& K.EFX_FILTER_MATCH_REM_PORT ≠ 0 then 0xffff else 0)) := by
  have hq : ¬ ((if src.match_flags &&& K.EFX_FILTER_MATCH_IP_PROTO ≠ 0
        then (src.ip_proto : Int) else -1) = IPPROTO_UDP ∨
      (if src.match_flags &&& K.EFX_FILTER_MATCH_IP_PROTO ≠ 0
        then (src.ip_proto : Int) else -1) = IPPROTO_TCP) := by
    by_cases h : src.match_flags &&& K.EFX_FILTER_MATCH_IP_PROTO ≠ 0
    · rw [if_pos h]
      have := fun h' => hp ⟨h, h'⟩
      simp only [IPPROTO_UDP, IPPROTO_TCP]
      omega
    · rw [if_neg h]
      simp [IPPROTO_UDP, IPPROTO_TCP]
  rw [accepted_fill h0 hmc]
  unfold efx_spec_to_ethtool_flow_fill
  dsimp only
  constructor
  · intro hv4
    rw [if_neg hv4, if_neg hq]
    refine ⟨?_, ?_, ?_⟩
    · split_ifs <;> simp [base_flow_type_or_ext, IPV4_USER_FLOW]
    · rw [apply_ite ethtool_rx_flow_spec.h_u]
      dsimp only
      rw [ite_self]
      exact combine_ports_packs _ _ _
    · rw [apply_ite ethtool_rx_flow_spec.m_u]
      dsimp only
      rw [ite_self]
      exact combine_ports_packs _ _ _
  · intro hv6
    rw [if_pos hv6, if_neg hq]
    refine ⟨?_, ?_, ?_⟩
    · split_ifs <;> simp [base_flow_type_or_ext, IPV6_USER_FLOW]
    · rw [apply_ite ethtool_rx_flow_spec.h_u]
      dsimp only
      rw [ite_self]
      exact combine_ports_packs _ _ _
    · rw [apply_ite ethtool_rx_flow_spec.m_u]
      dsimp only
      rw [ite_self]
      exact combine_ports_packs _ _ _

/-- Witness of `user_record_ports`: local port 0x5678 and remote port 0x1234 occupy
the bytes 12 34 56 78. -/
theorem user_record_ports_witness :
    mem32 false (efx_spec_to_ethtool_flow false efx_consts spec_ports
      ethtool_rx_flow_spec.zero).2.h_u.usr_ip4_spec.l4_4_bytes = [0x12, 0x34, 0x56, 0x78] :=
  ((user_record_ports false efx_consts spec_ports ethtool_rx_flow_spec.zero
    (by decide) (by decide) (by decide)).1 (by decide)).2.1.2.2

/-- C9, evaluated at the failing input: for the all-zero spec `spec0` (no match
flag set, so the protocol is wildcarded) the translation succeeds with the
generic IPv4 record whose `proto` mask is 0 but whose `proto` value is 0xff, not
0; likewise the IPv6 record of the same spec with `ether_type` IPv6 has
`l4_proto` value 0xff under mask 0. -/
theorem wildcard_proto_value (be : Bool) :
    spec0.match_flags &&& efx_consts.EFX_FILTER_MATCH_IP_PROTO = 0 ∧
    (efx_spec_to_ethtool_flow be efx_consts spec0 ethtool_rx_flow_spec.zero).1 = 0 ∧
    (efx_spec_to_ethtool_flow be efx_consts spec0 ethtool_rx_flow_spec.zero).2.flow_type
      = IPV4_USER_FLOW ∧
    (efx_spec_to_ethtool_flow be efx_consts spec0
      ethtool_rx_flow_spec.zero).2.h_u.usr_ip4_spec.proto = 0xff ∧
    (efx_spec_to_ethtool_flow be efx_consts spec0
      ethtool_rx_flow_spec.zero).2.m_u.usr_ip4_spec.proto = 0 ∧
    (efx_spec_to_ethtool_flow be efx_consts { spec0 with ether_type := htons be ETH_P_IPV6 }
      ethtool_rx_flow_spec.zero).2.flow_type = IPV6_USER_FLOW ∧
    (efx_spec_to_ethtool_flow be efx_consts { spec0 with ether_type := htons be ETH_P_IPV6 }
      ethtool_rx_flow_spec.zero).2.h_u.usr_ip6_spec.l4_proto = 0xff ∧
    (efx_spec_to_ethtool_flow be efx_consts { spec0 with ether_type := htons be ETH_P_IPV6 }
      ethtool_rx_flow_spec.zero).2.m_u.usr_ip6_spec.l4_proto = 0 := by
  cases be <;> decide

/-- C10, evaluated at the failing input: a spec with no match flag set (so the
ETHER_TYPE flag is clear) whose `ether_type` field holds the IPv6 value is
accepted with the flow type `IPV6_USER_FLOW`, which is none of `UDP_V4_FLOW`,
`TCP_V4_FLOW`, `IPV4_USER_FLOW`. -/
theorem unconstrained_ether_type_ipv6 (be : Bool) :
    ({ spec0 with ether_type := htons be ETH_P_IPV6 } : efx_filter_spec).match_flags &&&
      efx_consts.EFX_FILTER_MATCH_ETHER_TYPE = 0 ∧
    (efx_spec_to_ethtool_flow be efx_consts { spec0 with ether_type := htons be ETH_P_IPV6 }
      ethtool_rx_flow_spec.zero).1 = 0 ∧
    base_flow_type (efx_spec_to_ethtool_flow be efx_consts
      { spec0 with ether_type := htons be ETH_P_IPV6 } ethtool_rx_flow_spec.zero).2.flow_type
      = IPV6_USER_FLOW ∧
    IPV6_USER_FLOW ≠ UDP_V4_FLOW ∧ IPV6_USER_FLOW ≠ TCP_V4_FLOW ∧
    IPV6_USER_FLOW ≠ IPV4_USER_FLOW := by
  cases be <;> decide

/-! ## Wildcards, the VLAN extension and the frame of the translation -/

/-- The `switch` on `proto` takes the UDP/TCP case exactly when IP_PROTO is set and
`ip_proto` is TCP or UDP. -/
theorem proto_switch_iff (K : efx_filter_consts) (src : efx_filter_spec) :
    ((if src.match_flags &&& K.EFX_FILTER_MATCH_IP_PROTO ≠ 0
        then (src.ip_proto : Int) else -1) = IPPROTO_UDP ∨
      (if src.match_flags &&& K.EFX_FILTER_MATCH_IP_PROTO ≠ 0
        then (src.ip_proto : Int) else -1) = IPPROTO_TCP) ↔
    (src.match_flags &&& K.EFX_FILTER_MATCH_IP_PROTO ≠ 0 ∧
      (src.ip_proto = 6 ∨ src.ip_proto = 17)) := by
  by_cases h : src.match_flags &&& K.EFX_FILTER_MATCH_IP_PROTO ≠ 0
  · rw [if_pos h]
    simp only [IPPROTO_UDP, IPPROTO_TCP]
    constructor
    · intro h'
      exact ⟨h, by omega⟩
    · intro h'
      omega
  · rw [if_neg h]
    simp only [IPPROTO_UDP, IPPROTO_TCP]
    constructor
    · intro h'
      omega
    · intro h'
      exact absurd h'.1 h

/-- An accepted spec has supported flags. -/
theorem accepted_flags {be : Bool} {K : efx_filter_consts} {src : efx_filter_spec}
    {dst0 : ethtool_rx_flow_spec} (h0 : (efx_spec_to_ethtool_flow be K src dst0).1 = 0) :
    src.flags &&& lnot32 K.flags_supported = 0 := by
  by_contra hc
  unfold efx_filter_consts.flags_supported at hc
  unfold efx_spec_to_ethtool_flow at h0
  dsimp only at h0
  rw [if_pos hc] at h0
  exact absurd h0 (by simp [EPROTONOSUPPORT])

/-- The extended bit of a flow type with and without `FLOW_EXT`. -/
theorem flow_ext_bit {b : Nat} (hb : b < 2 ^ 31) :
    (b ||| FLOW_EXT) &&& FLOW_EXT ≠ 0 ∧ b &&& FLOW_EXT = 0 := by
  have hF : FLOW_EXT = 2 ^ 31 := by norm_num [FLOW_EXT]
  rw [hF, and_two_pow_ne_zero_iff, and_two_pow_eq_zero_iff, Nat.testBit_or,
    Nat.testBit_two_pow_self, Nat.testBit_lt_two_pow hb]
  exact ⟨rfl, rfl⟩

/-- Filling the record leaves its location alone. -/
theorem fill_location (be : Bool) (K : efx_filter_consts) (src : efx_filter_spec)
    (dst : ethtool_rx_flow_spec) :
    (efx_spec_to_ethtool_flow_fill be K src dst).location = dst.location := by
  unfold efx_spec_to_ethtool_flow_fill
  simp only [apply_ite ethtool_rx_flow_spec.location, ite_self]

/-- The result of the translation does not depend on the content of the destination
record before the call. -/
theorem efx_spec_to_ethtool_flow_dst_irrelevant (be : Bool) (K : efx_filter_consts)
    (src : efx_filter_spec) (dst0 dst1 : ethtool_rx_flow_spec) :
    efx_spec_to_ethtool_flow be K src dst0 = efx_spec_to_ethtool_flow be K src dst1 := by
  unfold efx_spec_to_ethtool_flow
  rfl

/-- C11: for every accepted filter spec outside the multicast special case and for
each of the fields local host, remote host, local port, remote port: if its
match flag is set the output carries the field value of the spec with an
all-ones mask, and if it is not set the output carries value zero and mask zero
in that position, whatever the field of the spec contains.  This holds in the
four record shapes: TCP/UDP over IPv4 and user IPv4 (which carry limb 0 of a
host), TCP/UDP over IPv6 and user IPv6 (which carry its four limbs); the user
records carry the two ports packed in `l4_4_bytes`. -/
theorem wildcard_or_exact (be : Bool) (K : efx_filter_consts)
    (src : efx_filter_spec) (dst0 : ethtool_rx_flow_spec)
    (h0 : (efx_spec_to_ethtool_flow be K src dst0).1 = 0)
    (hmc : ¬ (src.match_flags = K.EFX_FILTER_MATCH_LOC_MAC_IG ∧ src.loc_mac 0 = 1)) :
    (src.ether_type ≠ htons be ETH_P_IPV6 →
      (src.match_flags &&& K.EFX_FILTER_MATCH_IP_PROTO ≠ 0 ∧
        (src.ip_proto = 6 ∨ src.ip_proto = 17)) →
      (efx_spec_to_ethtool_flow be K src dst0).2.h_u.tcp_ip4_spec =
        { ip4dst :=
            if src.match_flags &&& K.EFX_FILTER_MATCH_LOC_HOST ≠ 0 then src.loc_host 0 else 0
          ip4src :=
            if src.match_flags &&& K.EFX_FILTER_MATCH_REM_HOST ≠ 0 then src.rem_host 0 else 0
          pdst := if src.match_flags &&& K.EFX_FILTER_MATCH_LOC_PORT ≠ 0 then src.loc_port else 0
          psrc := if src.match_flags &&& K.EFX_FILTER_MATCH_REM_PORT ≠ 0 then src.rem_port else 0
          tos := 0 } ∧
      (efx_spec_to_ethtool_flow be K src dst0).2.m_u.tcp_ip4_spec =
        { ip4dst := if src.match_flags &&& K.EFX_FILTER_MATCH_LOC_HOST ≠ 0 then 0xFFFFFFFF else 0
          ip4src := if src.match_flags &&& K.EFX_FILTER_MATCH_REM_HOST ≠ 0 then 0xFFFFFFFF else 0
          pdst := if src.match_flags &&& K.EFX_FILTER_MATCH_LOC_PORT ≠ 0 then 0xFFFF else 0
          psrc := if src.match_flags &&& K.EFX_FILTER_MATCH_REM_PORT ≠ 0 then 0xFFFF else 0
          tos := 0 }) ∧
    (src.ether_type ≠ htons be ETH_P_IPV6 →
      ¬ (src.match_flags &&& K.EFX_FILTER_MATCH_IP_PROTO ≠ 0 ∧
        (src.ip_proto = 6 ∨ src.ip_proto = 17)) →
      (efx_spec_to_ethtool_flow be K src dst0).2.h_u.usr_ip4_spec.ip4dst =
        (if src.match_flags &&& K.EFX_FILTER_MATCH_LOC_HOST ≠ 0 then src.loc_host 0 else 0) ∧
      (efx_spec_to_ethtool_flow be K src dst0).2.h_u.usr_ip4_spec.ip4src =
        (if src.match_flags &&& K.EFX_FILTER_MATCH_REM_HOST ≠ 0 then src.rem_host 0 else 0) ∧
      (efx_spec_to_ethtool_flow be K src dst0).2.h_u.usr_ip4_spec.l4_4_bytes =
        combine_ports be
          (if src.match_flags &&& K.EFX_FILTER_MATCH_LOC_PORT ≠ 0 then src.loc_port else 0)
          (if src.match_flags &&& K.EFX_FILTER_MATCH_REM_PORT ≠ 0 then src.rem_port else 0) ∧
      (efx_spec_to_ethtool_flow be K src dst0).2.m_u.usr_ip4_spec.ip4dst =
        (if src.match_flags &&& K.EFX_FILTER_MATCH_LOC_HOST ≠ 0 then 0xFFFFFFFF else 0) ∧
      (efx_spec_to_ethtool_flow be K src dst0).2.m_u.usr_ip4_spec.ip4src =
        (if src.match_flags &&& K.EFX_FILTER_MATCH_REM_HOST ≠ 0 then 0xFFFFFFFF else 0) ∧
      (efx_spec_to_ethtool_flow be K src dst0).2.m_u.usr_ip4_spec.l4_4_bytes =
        combine_ports be
          (if src.match_flags &&& K.EFX_FILTER_MATCH_LOC_PORT ≠ 0 then 0xFFFF else 0)
          (if src.match_flags &&& K.EFX_FILTER_MATCH_REM_PORT ≠ 0 then 0xFFFF else 0) ∧
      packs_ports be (efx_spec_to_ethtool_flow be K src dst0).2.h_u.usr_ip4_spec.l4_4_bytes
        (if src.match_flags &&& K.EFX_FILTER_MATCH_LOC_PORT ≠ 0 then src.loc_port else 0)
        (if src.match_flags &&& K.EFX_FILTER_MATCH_REM_PORT ≠ 0 then src.rem_port else 0) ∧
      packs_ports be (efx_spec_to_ethtool_flow be K src dst0).2.m_u.usr_ip4_spec.l4_4_bytes
        (if src.match_flags &&& K.EFX_FILTER_MATCH_LOC_PORT ≠ 0 then 0xFFFF else 0)
        (if src.match_flags &&& K.EFX_FILTER_MATCH_REM_PORT ≠ 0 then 0xFFFF else 0)) ∧
    (src.ether_type = htons be ETH_P_IPV6 →
      (src.match_flags &&& K.EFX_FILTER_MATCH_IP_PROTO ≠ 0 ∧
        (src.ip_proto = 6 ∨ src.ip_proto = 17)) →
      (efx_spec_to_ethtool_flow be K src dst0).2.h_u.tcp_ip6_spec =
        { ip6dst :=
            if src.match_flags &&& K.EFX_FILTER_MATCH_LOC_HOST ≠ 0 then src.loc_host else zero
          ip6src :=
            if src.match_flags &&& K.EFX_FILTER_MATCH_REM_HOST ≠ 0 then src.rem_host else zero
          pdst := if src.match_flags &&& K.EFX_FILTER_MATCH_LOC_PORT ≠ 0 then src.loc_port else 0
          psrc := if src.match_flags &&& K.EFX_FILTER_MATCH_REM_PORT ≠ 0 then src.rem_port else 0
          tclass := 0 } ∧
      (efx_spec_to_ethtool_flow be K src dst0).2.m_u.tcp_ip6_spec =
        { ip6dst := if src.match_flags &&& K.EFX_FILTER_MATCH_LOC_HOST ≠ 0 then minus1 else zero
          ip6src := if src.match_flags &&& K.EFX_FILTER_MATCH_REM_HOST ≠ 0 then minus1 else zero
          pdst := if src.match_flags &&& K.EFX_FILTER_MATCH_LOC_PORT ≠ 0 then 0xFFFF else 0
          psrc := if src.match_flags &&& K.EFX_FILTER_MATCH_REM_PORT ≠ 0 then 0xFFFF else 0
          tclass := 0 }) ∧
    (src.ether_type = htons be ETH_P_IPV6 →
      ¬ (src.match_flags &&& K.EFX_FILTER_MATCH_IP_PROTO ≠ 0 ∧
        (src.ip_proto = 6 ∨ src.ip_proto = 17)) →
      (efx_spec_to_ethtool_flow be K src dst0).2.h_u.usr_ip6_spec.ip6dst =
        (if src.match_flags &&& K.EFX_FILTER_MATCH_LOC_HOST ≠ 0 then src.loc_host else zero) ∧
      (efx_spec_to_ethtool_flow be K src dst0).2.h_u.usr_ip6_spec.ip6src =
        (if src.match_flags &&& K.EFX_FILTER_MATCH_REM_HOST ≠ 0 then src.rem_host else zero) ∧
      (efx_spec_to_ethtool_flow be K src dst0).2.h_u.usr_ip6_spec.l4_4_bytes =
        combine_ports be
          (if src.match_flags &&& K.EFX_FILTER_MATCH_LOC_PORT ≠ 0 then src.loc_port else 0)
          (if src.match_flags &&& K.EFX_FILTER_MATCH_REM_PORT ≠ 0 then src.rem_port else 0) ∧
      (efx_spec_to_ethtool_flow be K src dst0).2.m_u.usr_ip6_spec.ip6dst =
        (if src.match_flags &&& K.EFX_FILTER_MATCH_LOC_HOST ≠ 0 then minus1 else zero) ∧
      (efx_spec_to_ethtool_flow be K src dst0).2.m_u.usr_ip6_spec.ip6src =
        (if src.match_flags &&& K.EFX_FILTER_MATCH_REM_HOST ≠ 0 then minus1 else zero) ∧
      (efx_spec_to_ethtool_flow be K src dst0).2.m_u.usr_ip6_spec.l4_4_bytes =
        combine_ports be
          (if src.match_flags &&& K.EFX_FILTER_MATCH_LOC_PORT ≠ 0 then 0xFFFF else 0)
          (if src.match_flags &&& K.EFX_FILTER_MATCH_REM_PORT ≠ 0 then 0xFFFF else 0) ∧
      packs_ports be (efx_spec_to_ethtool_flow be K src dst0).2.h_u.usr_ip6_spec.l4_4_bytes
        (if src.match_flags &&& K.EFX_FILTER_MATCH_LOC_PORT ≠ 0 then src.loc_port else 0)
        (if src.match_flags &&& K.EFX_FILTER_MATCH_REM_PORT ≠ 0 then src.rem_port else 0) ∧
      packs_ports be (efx_spec_to_ethtool_flow be K src dst0).2.m_u.usr_ip6_spec.l4_4_bytes
        (if src.match_flags &&& K.EFX_FILTER_MATCH_LOC_PORT ≠ 0 then 0xFFFF else 0)
        (if src.match_flags &&& K.EFX_FILTER_MATCH_REM_PORT ≠ 0 then 0xFFFF else 0)) := by
  have hq := proto_switch_iff K src
  rw [accepted_fill h0 hmc]
  unfold efx_spec_to_ethtool_flow_fill
  dsimp only
  refine ⟨?_, ?_, ?_, ?_⟩
  · intro hv hp
    rw [if_neg hv, if_pos (hq.2 hp), apply_ite ethtool_rx_flow_spec.h_u,
      apply_ite ethtool_rx_flow_spec.m_u]
    dsimp only
    rw [ite_self, ite_self]
    simp only [zero, minus1]
    constructor <;> split_ifs <;> rfl
  · intro hv hp
    rw [if_neg hv, if_neg (fun h => hp (hq.1 h)), apply_ite ethtool_rx_flow_spec.h_u,
      apply_ite ethtool_rx_flow_spec.m_u]
    dsimp only
    rw [ite_self, ite_self]
    simp only [zero, minus1]
    refine ⟨?_, ?_, ?_, ?_, ?_, ?_, combine_ports_packs _ _ _, combine_ports_packs _ _ _⟩ <;>
      first | trivial | rfl | (split_ifs <;> rfl)
  · intro hv hp
    rw [if_pos hv, if_pos (hq.2 hp), apply_ite ethtool_rx_flow_spec.h_u,
      apply_ite ethtool_rx_flow_spec.m_u]
    dsimp only
    rw [ite_self, ite_self]
    constructor <;> split_ifs <;> rfl
  · intro hv hp
    rw [if_pos hv, if_neg (fun h => hp (hq.1 h)), apply_ite ethtool_rx_flow_spec.h_u,
      apply_ite ethtool_rx_flow_spec.m_u]
    dsimp only
    rw [ite_self, ite_self]
    refine ⟨rfl, rfl, rfl, rfl, rfl, ?_, combine_ports_packs _ _ _, combine_ports_packs _ _ _⟩
    split_ifs <;> rfl

/-- Witness of `wildcard_or_exact`: the filter `spec_wild` leaves the local host
wildcarded although `loc_host` is not zero, and carries the local port. -/
theorem wildcard_or_exact_witness :
    (efx_spec_to_ethtool_flow false efx_consts spec_wild
      ethtool_rx_flow_spec.zero).2.h_u.usr_ip4_spec.ip4dst = 0 ∧
    (efx_spec_to_ethtool_flow false efx_consts spec_wild
      ethtool_rx_flow_spec.zero).2.m_u.usr_ip4_spec.ip4dst = 0 ∧
    (efx_spec_to_ethtool_flow false efx_consts spec_wild
      ethtool_rx_flow_spec.zero).2.h_u.usr_ip4_spec.l4_4_bytes =
        combine_ports false (htons false 80) 0 :=
  have h := (wildcard_or_exact false efx_consts spec_wild ethtool_rx_flow_spec.zero
    (by decide) (by decide)).2.1 (by decide) (by decide)
  ⟨h.1, h.2.2.2.1, h.2.2.1⟩

/-- C12: for every successful call of `efx_spec_to_ethtool_flow`, the extended bit
`FLOW_EXT` is set in `flow_type` if and only if the OUTER_VID match flag is set;
when it is set the extension value `vlan_tci` is `outer_vid` of the spec and the
extension mask `vlan_tci` is 0xffff; when it is not set both extension records
are zero; and the remaining bits of `flow_type` are the base flow type selected
by the family and the protocol (`UDP_V4_FLOW` in the multicast special case). -/
theorem vlan_extension (be : Bool) (K : efx_filter_consts) (hK : K.wf)
    (src : efx_filter_spec) (dst0 : ethtool_rx_flow_spec)
    (h0 : (efx_spec_to_ethtool_flow be K src dst0).1 = 0) :
    ((efx_spec_to_ethtool_flow be K src dst0).2.flow_type &&& FLOW_EXT ≠ 0 ↔
      src.match_flags &&& K.EFX_FILTER_MATCH_OUTER_VID ≠ 0) ∧
    (src.match_flags &&& K.EFX_FILTER_MATCH_OUTER_VID ≠ 0 →
      (efx_spec_to_ethtool_flow be K src dst0).2.h_ext =
        { ethtool_flow_ext.zero with vlan_tci := src.outer_vid } ∧
      (efx_spec_to_ethtool_flow be K src dst0).2.m_ext =
        { ethtool_flow_ext.zero with vlan_tci := 0xffff }) ∧
    (src.match_flags &&& K.EFX_FILTER_MATCH_OUTER_VID = 0 →
      (efx_spec_to_ethtool_flow be K src dst0).2.h_ext = ethtool_flow_ext.zero ∧
      (efx_spec_to_ethtool_flow be K src dst0).2.m_ext = ethtool_flow_ext.zero) ∧
    base_flow_type (efx_spec_to_ethtool_flow be K src dst0).2.flow_type =
      (if src.match_flags = K.EFX_FILTER_MATCH_LOC_MAC_IG ∧ src.loc_mac 0 = 1 then UDP_V4_FLOW
       else if src.ether_type = htons be ETH_P_IPV6 then
         (if src.match_flags &&& K.EFX_FILTER_MATCH_IP_PROTO ≠ 0 ∧
              (src.ip_proto = 6 ∨ src.ip_proto = 17)
          then (if src.ip_proto = 17 then UDP_V6_FLOW else TCP_V6_FLOW) else IPV6_USER_FLOW)
       else
         (if src.match_flags &&& K.EFX_FILTER_MATCH_IP_PROTO ≠ 0 ∧
              (src.ip_proto = 6 ∨ src.ip_proto = 17)
          then (if src.ip_proto = 17 then UDP_V4_FLOW else TCP_V4_FLOW)
          else IPV4_USER_FLOW)) := by
  by_cases hmc : src.match_flags = K.EFX_FILTER_MATCH_LOC_MAC_IG ∧ src.loc_mac 0 = 1
  · have hov : src.match_flags &&& K.EFX_FILTER_MATCH_OUTER_VID = 0 := by
      rw [hmc.1]
      exact hK.disjoint (by decide)
    rw [multicast_result dst0 (accepted_flags h0) hmc, if_pos hmc]
    refine ⟨?_, ?_, ?_, ?_⟩
    · simp only [hov, ne_eq, not_true_eq_false, iff_false, not_not]
      show UDP_V4_FLOW &&& FLOW_EXT = 0
      decide
    · intro h
      exact absurd hov h
    · intro _
      exact ⟨rfl, rfl⟩
    · show base_flow_type UDP_V4_FLOW = UDP_V4_FLOW
      decide
  · have hq := proto_switch_iff K src
    rw [accepted_fill h0 hmc, if_neg hmc]
    unfold efx_spec_to_ethtool_flow_fill
    dsimp only
    refine ⟨?_, ?_, ?_, ?_⟩
    · simp only [apply_ite ethtool_rx_flow_spec.flow_type]
      split_ifs with h1 h2 h3 h4 <;>
        simp [h1, flow_ext_bit, UDP_V6_FLOW, TCP_V6_FLOW, IPV6_USER_FLOW, UDP_V4_FLOW,
          TCP_V4_FLOW, IPV4_USER_FLOW]
    · intro hov
      rw [if_pos hov]
      simp only [apply_ite ethtool_rx_flow_spec.h_ext, apply_ite ethtool_rx_flow_spec.m_ext,
        ite_self]
      exact ⟨rfl, rfl⟩
    · intro hov
      rw [if_neg (not_not.2 hov)]
      simp only [apply_ite ethtool_rx_flow_spec.h_ext, apply_ite ethtool_rx_flow_spec.m_ext,
        ite_self]
      exact ⟨rfl, rfl⟩
    · simp only [apply_ite ethtool_rx_flow_spec.flow_type, hq]
      have hu : ((if src.match_flags &&& K.EFX_FILTER_MATCH_IP_PROTO ≠ 0
          then (src.ip_proto : Int) else -1) = IPPROTO_UDP) ↔
          (src.match_flags &&& K.EFX_FILTER_MATCH_IP_PROTO ≠ 0 ∧ src.ip_proto = 17) := by
        by_cases h : src.match_flags &&& K.EFX_FILTER_MATCH_IP_PROTO ≠ 0
        · rw [if_pos h]
          simp only [IPPROTO_UDP]
          constructor
          · intro h'
            exact ⟨h, by omega⟩
          · intro h'
            omega
        · rw [if_neg h]
          simp only [IPPROTO_UDP]
          constructor
          · intro h'
            omega
          · intro h'
            exact absurd h'.1 h
      simp only [hu]
      split_ifs <;>
        simp_all [base_flow_type_or_ext, UDP_V6_FLOW, TCP_V6_FLOW, IPV6_USER_FLOW, UDP_V4_FLOW,
          TCP_V4_FLOW, IPV4_USER_FLOW]

/-- Witness of `vlan_extension`: the outer VLAN 100. -/
theorem vlan_extension_witness :
    (efx_spec_to_ethtool_flow false efx_consts spec_vlan
      ethtool_rx_flow_spec.zero).2.h_ext.vlan_tci = htons false 100 ∧
    (efx_spec_to_ethtool_flow false efx_consts spec_vlan
      ethtool_rx_flow_spec.zero).2.m_ext.vlan_tci = 0xffff ∧
    (efx_spec_to_ethtool_flow false efx_consts spec_vlan
      ethtool_rx_flow_spec.zero).2.flow_type &&& FLOW_EXT ≠ 0 :=
  have h := vlan_extension false efx_consts efx_consts_wf spec_vlan ethtool_rx_flow_spec.zero
    (by decide)
  ⟨congrArg ethtool_flow_ext.vlan_tci (h.2.1 (by decide)).1,
   congrArg ethtool_flow_ext.vlan_tci (h.2.1 (by decide)).2,
   h.1.2 (by decide)⟩

/-- C13: `efx_spec_to_ethtool_flow` is a function of the source spec alone: for
every spec and any two initial contents of the destination record, the return
code and the complete final destination record are the same, and the source
spec is not modified. -/
theorem translation_deterministic (be : Bool) (K : efx_filter_consts)
    (src : efx_filter_spec) (dst0 dst1 : ethtool_rx_flow_spec) :
    efx_spec_to_ethtool_flow be K src dst0 = efx_spec_to_ethtool_flow be K src dst1 ∧
    (efx_spec_to_ethtool_flow_call be K { src := src, dst := dst0 }).1 =
      (efx_spec_to_ethtool_flow_call be K { src := src, dst := dst1 }).1 ∧
    (efx_spec_to_ethtool_flow_call be K { src := src, dst := dst0 }).2 =
      (efx_spec_to_ethtool_flow_call be K { src := src, dst := dst1 }).2 ∧
    (efx_spec_to_ethtool_flow_call be K { src := src, dst := dst0 }).2.src = src := by
  have h := efx_spec_to_ethtool_flow_dst_irrelevant be K src dst0 dst1
  refine ⟨h, ?_, ?_, rfl⟩
  · simp only [efx_spec_to_ethtool_flow_call, h]
  · simp only [efx_spec_to_ethtool_flow_call, h]

/-- C14: for every input, on every return of `efx_spec_to_ethtool_flow`, success or
error, the location of the destination record is `RX_CLS_LOC_ANY`. -/
theorem location_any (be : Bool) (K : efx_filter_consts)
    (src : efx_filter_spec) (dst0 : ethtool_rx_flow_spec) :
    (efx_spec_to_ethtool_flow be K src dst0).2.location = RX_CLS_LOC_ANY := by
  unfold efx_spec_to_ethtool_flow
  dsimp only
  split_ifs
  all_goals first | rfl | exact fill_location _ _ _ _

/-! ## Register I/O: the store -/

/-- Addition of `unsigned int` without wrap-around. -/
theorem u32_add_eq {a b : Nat} (h : a + b < 2 ^ 32) : u32_add a b = a + b :=
  Nat.mod_eq_of_lt h

/-- The store at an address which has been written. -/
theorem store_bytes_of_mem {mem : Nat → Nat} {p n : Nat} {data : Fin n → Nat} {a : Nat}
    (h : p ≤ a ∧ a < p + n) :
    store_bytes mem p data a = data ⟨a - p, by omega⟩ := by
  unfold store_bytes
  rw [dif_pos h]

/-- The store at an address which has not been written. -/
theorem store_bytes_of_not_mem {mem : Nat → Nat} {p n : Nat} {data : Fin n → Nat} {a : Nat}
    (h : ¬ (p ≤ a ∧ a < p + n)) :
    store_bytes mem p data a = mem a := by
  unfold store_bytes
  rw [dif_neg h]

/-- Reading back the bytes which have just been written at the same address. -/
theorem load_store_same (mem : Nat → Nat) (p : Nat) {n : Nat} (data : Fin n → Nat) :
    load_bytes (store_bytes mem p data) p n = data := by
  funext k
  unfold load_bytes
  rw [store_bytes_of_mem ⟨by omega, by omega⟩]
  congr 1
  apply Fin.ext
  simp

/-- Reading bytes which the write does not overlap. -/
theorem load_store_disjoint (mem : Nat → Nat) (p q : Nat) {n : Nat} (m : Nat) (data : Fin n → Nat)
    (h : q + m ≤ p ∨ p + n ≤ q) :
    load_bytes (store_bytes mem p data) q m = load_bytes mem q m := by
  funext k
  unfold load_bytes
  rw [store_bytes_of_not_mem]
  have := k.isLt
  omega

/-- Two 64-bit writes of the halves of an Oword are one write of its 16 bytes. -/
theorem store_u64_u64 (mem : Nat → Nat) (p : Nat) (v : efx_oword_t) :
    store_bytes (store_bytes mem p (v.u64 0)) (p + 8) (v.u64 1) = store_bytes mem p v.bytes := by
  funext a
  by_cases h1 : p + 8 ≤ a ∧ a < p + 8 + 8
  · rw [store_bytes_of_mem h1, store_bytes_of_mem ⟨by omega, by omega⟩]
    unfold efx_oword_t.u64
    congr 1
    apply Fin.ext
    simp
    omega
  · rw [store_bytes_of_not_mem h1]
    by_cases h0 : p ≤ a ∧ a < p + 8
    · rw [store_bytes_of_mem h0, store_bytes_of_mem ⟨by omega, by omega⟩]
      unfold efx_oword_t.u64
      congr 1
      apply Fin.ext
      simp
    · rw [store_bytes_of_not_mem h0, store_bytes_of_not_mem (by omega)]

/-- Four 32-bit writes of the limbs of an Oword are one write of its 16 bytes. -/
theorem store_u32_x4 (mem : Nat → Nat) (p : Nat) (v : efx_oword_t) :
    store_bytes (store_bytes (store_bytes (store_bytes mem p (v.u32 0)) (p + 4) (v.u32 1))
      (p + 8) (v.u32 2)) (p + 12) (v.u32 3) = store_bytes mem p v.bytes := by
  funext a
  by_cases h3 : p + 12 ≤ a ∧ a < p + 12 + 4
  · rw [store_bytes_of_mem h3, store_bytes_of_mem ⟨by omega, by omega⟩]
    unfold efx_oword_t.u32
    congr 1
    apply Fin.ext
    simp
    omega
  · rw [store_bytes_of_not_mem h3]
    by_cases h2 : p + 8 ≤ a ∧ a < p + 8 + 4
    · rw [store_bytes_of_mem h2, store_bytes_of_mem ⟨by omega, by omega⟩]
      unfold efx_oword_t.u32
      congr 1
      apply Fin.ext
      simp
      omega
    · rw [store_bytes_of_not_mem h2]
      by_cases h1 : p + 4 ≤ a ∧ a < p + 4 + 4
      · rw [store_bytes_of_mem h1, store_bytes_of_mem ⟨by omega, by omega⟩]
        unfold efx_oword_t.u32
        congr 1
        apply Fin.ext
        simp
        omega
      · rw [store_bytes_of_not_mem h1]
        by_cases h0 : p ≤ a ∧ a < p + 4
        · rw [store_bytes_of_mem h0, store_bytes_of_mem ⟨by omega, by omega⟩]
          unfold efx_oword_t.u32
          congr 1
          apply Fin.ext
          simp
        · rw [store_bytes_of_not_mem h0, store_bytes_of_not_mem (by omega)]

/-- Two 32-bit writes of the limbs of a Qword are one write of its 8 bytes. -/
theorem store_u32_x2 (mem : Nat → Nat) (p : Nat) (v : efx_qword_t) :
    store_bytes (store_bytes mem p (v.u32 0)) (p + 4) (v.u32 1) = store_bytes mem p v.bytes := by
  funext a
  by_cases h1 : p + 4 ≤ a ∧ a < p + 4 + 4
  · rw [store_bytes_of_mem h1, store_bytes_of_mem ⟨by omega, by omega⟩]
    unfold efx_qword_t.u32
    congr 1
    apply Fin.ext
    simp
    omega
  · rw [store_bytes_of_not_mem h1]
    by_cases h0 : p ≤ a ∧ a < p + 4
    · rw [store_bytes_of_mem h0, store_bytes_of_mem ⟨by omega, by omega⟩]
      unfold efx_qword_t.u32
      congr 1
      apply Fin.ext
      simp
    · rw [store_bytes_of_not_mem h0, store_bytes_of_not_mem (by omega)]

/-- The member `u64[0]` of a Qword is the whole object. -/
theorem efx_qword_u64_zero (v : efx_qword_t) : v.u64 0 = v.bytes := by
  funext k
  unfold efx_qword_t.u64
  congr 1
  apply Fin.ext
  simp

/-- The member `u32[0]` of a Dword is the whole object. -/
theorem efx_dword_u32_zero (v : efx_dword_t) : v.u32 0 = v.bytes := by
  funext k
  unfold efx_dword_t.u32
  congr 1
  apply Fin.ext
  simp

/-- Two Owords with the same bytes are equal. -/
theorem efx_oword_ext {a b : efx_oword_t} (h : a.bytes = b.bytes) : a = b := by
  cases a; cases b; simp_all

/-- Two Dwords with the same bytes are equal. -/
theorem efx_dword_ext {a b : efx_dword_t} (h : a.bytes = b.bytes) : a = b := by
  cases a; cases b; simp_all

/-! ## Register I/O: effect and events of the accessors -/

/-- The store after `efx_writeo`, for a register which does not wrap. -/
theorem efx_writeo_mem (B : efx_build) (efx : efx_nic) (value : efx_oword_t) {reg : Nat}
    (h : reg + 16 ≤ 2 ^ 32) :
    (efx_writeo B efx value reg).mem = store_bytes efx.mem (efx_mem efx reg) value.bytes := by
  unfold efx_writeo
  dsimp only
  rw [u32_add_eq (by omega : reg + 0 < 2 ^ 32), u32_add_eq (by omega : reg + 4 < 2 ^ 32),
    u32_add_eq (by omega : reg + 8 < 2 ^ 32), u32_add_eq (by omega : reg + 12 < 2 ^ 32)]
  cases B.EFX_USE_QWORD_IO
  · simp only [Bool.false_eq_true, if_false, spin_unlock_irqrestore, spin_lock_irqsave,
      _efx_writed, __raw_writel, efx_mem, Nat.add_zero, ← Nat.add_assoc]
    exact store_u32_x4 _ _ _
  · simp only [if_true, spin_unlock_irqrestore, spin_lock_irqsave,
      _efx_writeq, __raw_writeq, efx_mem, Nat.add_zero, ← Nat.add_assoc]
    exact store_u64_u64 _ _ _

/-- The function `efx_writeo` changes neither `membase` nor `vi_stride`. -/
theorem efx_writeo_frame (B : efx_build) (efx : efx_nic) (value : efx_oword_t) (reg : Nat) :
    (efx_writeo B efx value reg).membase = efx.membase ∧
    (efx_writeo B efx value reg).vi_stride = efx.vi_stride := by
  unfold efx_writeo
  dsimp only
  cases B.EFX_USE_QWORD_IO <;> exact ⟨rfl, rfl⟩

/-- The events of `efx_writeo`. -/
theorem efx_writeo_trace (B : efx_build) (efx : efx_nic) (value : efx_oword_t) (reg : Nat) :
    (efx_writeo B efx value reg).trace = efx.trace ++
      (if B.EFX_USE_QWORD_IO then
        [bus_event.acquire,
         bus_event.write (efx_mem efx (u32_add reg 0)) (List.ofFn (value.u64 0)),
         bus_event.write (efx_mem efx (u32_add reg 8)) (List.ofFn (value.u64 1)),
         bus_event.release]
       else
        [bus_event.acquire,
         bus_event.write (efx_mem efx (u32_add reg 0)) (List.ofFn (value.u32 0)),
         bus_event.write (efx_mem efx (u32_add reg 4)) (List.ofFn (value.u32 1)),
         bus_event.write (efx_mem efx (u32_add reg 8)) (List.ofFn (value.u32 2)),
         bus_event.write (efx_mem efx (u32_add reg 12)) (List.ofFn (value.u32 3)),
         bus_event.release]) := by
  unfold efx_writeo
  dsimp only
  cases B.EFX_USE_QWORD_IO <;>
    simp [spin_unlock_irqrestore, spin_lock_irqsave, _efx_writed, __raw_writel, _efx_writeq,
      __raw_writeq, efx_mem]

/-- The store after `efx_writeq`, for a register which does not wrap. -/
theorem efx_writeq_mem (B : efx_build) (efx : efx_nic) (value : efx_qword_t) {reg : Nat}
    (h : reg + 8 ≤ 2 ^ 32) :
    (efx_writeq B efx value reg).mem = store_bytes efx.mem (efx_mem efx reg) value.bytes := by
  unfold efx_writeq
  dsimp only
  rw [u32_add_eq (by omega : reg + 0 < 2 ^ 32), u32_add_eq (by omega : reg + 4 < 2 ^ 32)]
  cases B.EFX_USE_QWORD_IO
  · simp only [Bool.false_eq_true, if_false, spin_unlock_irqrestore, spin_lock_irqsave,
      _efx_writed, __raw_writel, efx_mem, Nat.add_zero, ← Nat.add_assoc]
    exact store_u32_x2 _ _ _
  · simp only [if_true, spin_unlock_irqrestore, spin_lock_irqsave,
      _efx_writeq, __raw_writeq, efx_mem, Nat.add_zero]
    rw [efx_qword_u64_zero]

/-- The events of `efx_writeq`. -/
theorem efx_writeq_trace (B : efx_build) (efx : efx_nic) (value : efx_qword_t) (reg : Nat) :
    (efx_writeq B efx value reg).trace = efx.trace ++
      (if B.EFX_USE_QWORD_IO then
        [bus_event.acquire,
         bus_event.write (efx_mem efx (u32_add reg 0)) (List.ofFn (value.u64 0)),
         bus_event.release]
       else
        [bus_event.acquire,
         bus_event.write (efx_mem efx (u32_add reg 0)) (List.ofFn (value.u32 0)),
         bus_event.write (efx_mem efx (u32_add reg 4)) (List.ofFn (value.u32 1)),
         bus_event.release]) := by
  unfold efx_writeq
  dsimp only
  cases B.EFX_USE_QWORD_IO <;>
    simp [spin_unlock_irqrestore, spin_lock_irqsave, _efx_writed, __raw_writel, _efx_writeq,
      __raw_writeq, efx_mem]

/-- The store after `efx_writed`. -/
theorem efx_writed_mem (efx : efx_nic) (value : efx_dword_t) (reg : Nat) :
    (efx_writed efx value reg).mem = store_bytes efx.mem (efx_mem efx reg) value.bytes := by
  unfold efx_writed _efx_writed __raw_writel
  dsimp only
  rw [efx_dword_u32_zero]

/-- The events of `efx_writed`. -/
theorem efx_writed_trace (efx : efx_nic) (value : efx_dword_t) (reg : Nat) :
    (efx_writed efx value reg).trace =
      efx.trace ++ [bus_event.write (efx_mem efx reg) (List.ofFn (value.u32 0))] := rfl

/-- The value `efx_readd` reads. -/
theorem efx_readd_value (efx : efx_nic) (value : efx_dword_t) (reg : Nat) :
    (efx_readd efx value reg).2.bytes = load_bytes efx.mem (efx_mem efx reg) 4 := by
  funext k
  unfold efx_readd efx_dword_t.set_u32 _efx_readd __raw_readl
  dsimp only
  have hk := k.isLt
  rw [if_pos (by omega)]
  congr 1
  apply Fin.ext
  simp

/-- The device after `efx_readd`. -/
theorem efx_readd_state (efx : efx_nic) (value : efx_dword_t) (reg : Nat) :
    (efx_readd efx value reg).1 =
      { efx with trace := efx.trace ++ [bus_event.read (efx_mem efx reg) 4] } := rfl

/-- The value `efx_reado` reads, for a register which does not wrap. -/
theorem efx_reado_value (efx : efx_nic) (value : efx_oword_t) {reg : Nat}
    (h : reg + 16 ≤ 2 ^ 32) :
    (efx_reado efx value reg).2.bytes = load_bytes efx.mem (efx_mem efx reg) 16 := by
  funext k
  unfold efx_reado
  dsimp only
  rw [u32_add_eq (by omega : reg + 0 < 2 ^ 32), u32_add_eq (by omega : reg + 4 < 2 ^ 32),
    u32_add_eq (by omega : reg + 8 < 2 ^ 32), u32_add_eq (by omega : reg + 12 < 2 ^ 32)]
  simp only [efx_oword_t.set_u32, _efx_readd, __raw_readl, spin_lock_irqsave, load_bytes,
    efx_mem, Fin.val_zero, Fin.val_one, Fin.val_two]
  have hk := k.isLt
  have h3 : ((3 : Fin 4) : Nat) = 3 := rfl
  rw [h3]
  split_ifs <;> (congr 1; omega)

/-- The device after `efx_reado`. -/
theorem efx_reado_state (efx : efx_nic) (value : efx_oword_t) (reg : Nat) :
    (efx_reado efx value reg).1 =
      { efx with trace := efx.trace ++
          [bus_event.acquire,
           bus_event.read (efx_mem efx (u32_add reg 0)) 4,
           bus_event.read (efx_mem efx (u32_add reg 4)) 4,
           bus_event.read (efx_mem efx (u32_add reg 8)) 4,
           bus_event.read (efx_mem efx (u32_add reg 12)) 4,
           bus_event.release] } := by
  unfold efx_reado
  simp [spin_unlock_irqrestore, spin_lock_irqsave, _efx_readd, __raw_readl, efx_mem]

/-- A paged register offset is an `unsigned int`. -/
theorem efx_paged_reg_lt (efx : efx_nic) (page reg : Nat) : efx_paged_reg efx page reg < 2 ^ 32 :=
  Nat.mod_lt _ (by norm_num)

/-- The events of `_efx_writeo_page`. -/
theorem efx_writeo_page_trace (B : efx_build) (efx : efx_nic) (o : efx_oword_t)
    (reg page : Nat) :
    (_efx_writeo_page B efx o reg page).trace = efx.trace ++
      (if B.EFX_NOT_UPSTREAM_X86_64 then
        [bus_event.write (efx_mem efx (efx_paged_reg efx page reg)) (List.ofFn o.bytes)]
       else if B.EFX_USE_QWORD_IO then
        [bus_event.write (efx_mem efx (efx_paged_reg efx page reg)) (List.ofFn (o.u64 0)),
         bus_event.write (efx_mem efx (u32_add (efx_paged_reg efx page reg) 8))
           (List.ofFn (o.u64 1))]
       else
        [bus_event.write (efx_mem efx (efx_paged_reg efx page reg)) (List.ofFn (o.u32 0)),
         bus_event.write (efx_mem efx (u32_add (efx_paged_reg efx page reg) 4))
           (List.ofFn (o.u32 1)),
         bus_event.write (efx_mem efx (u32_add (efx_paged_reg efx page reg) 8))
           (List.ofFn (o.u32 2)),
         bus_event.write (efx_mem efx (u32_add (efx_paged_reg efx page reg) 12))
           (List.ofFn (o.u32 3))]) := by
  have hlt := efx_paged_reg_lt efx page reg
  have h0 : u32_add (efx_paged_reg efx page reg) 0 = efx_paged_reg efx page reg :=
    u32_add_eq (by omega)
  unfold _efx_writeo_page
  dsimp only
  rw [h0]
  cases B.EFX_NOT_UPSTREAM_X86_64 <;> cases B.EFX_USE_QWORD_IO <;>
    simp [_efx_writeo, _efx_writed, __raw_writel, _efx_writeq, __raw_writeq, efx_mem]

/-- The store after `_efx_writeo_page`, for a register which does not wrap. -/
theorem efx_writeo_page_mem (B : efx_build) (efx : efx_nic) (o : efx_oword_t)
    (reg page : Nat) (h : efx_paged_reg efx page reg + 16 ≤ 2 ^ 32) :
    (_efx_writeo_page B efx o reg page).mem =
      store_bytes efx.mem (efx_mem efx (efx_paged_reg efx page reg)) o.bytes := by
  unfold _efx_writeo_page
  dsimp only
  rw [u32_add_eq (by omega : efx_paged_reg efx page reg + 0 < 2 ^ 32),
    u32_add_eq (by omega : efx_paged_reg efx page reg + 4 < 2 ^ 32),
    u32_add_eq (by omega : efx_paged_reg efx page reg + 8 < 2 ^ 32),
    u32_add_eq (by omega : efx_paged_reg efx page reg + 12 < 2 ^ 32)]
  cases B.EFX_NOT_UPSTREAM_X86_64 <;> cases B.EFX_USE_QWORD_IO
  · simp only [Bool.false_eq_true, if_false, _efx_writed, __raw_writel, efx_mem,
      Nat.add_zero, ← Nat.add_assoc]
    exact store_u32_x4 _ _ _
  · simp only [Bool.false_eq_true, if_false, if_true, _efx_writeq, __raw_writeq, efx_mem,
      Nat.add_zero, ← Nat.add_assoc]
    exact store_u64_u64 _ _ _
  · rfl
  · rfl

/-- The events of `_efx_writed_page_locked`. -/
theorem efx_writed_page_locked_trace (efx : efx_nic) (d : efx_dword_t) (reg page : Nat) :
    (_efx_writed_page_locked efx d reg page).trace = efx.trace ++
      (if page = 0 then
        [bus_event.acquire,
         bus_event.write (efx_mem efx (efx_paged_reg efx page reg)) (List.ofFn (d.u32 0)),
         bus_event.release]
       else
        [bus_event.write (efx_mem efx (efx_paged_reg efx page reg)) (List.ofFn (d.u32 0))]) := by
  unfold _efx_writed_page_locked
  by_cases hp : page = 0
  · rw [if_pos hp, if_pos hp]
    simp [spin_unlock_irqrestore, spin_lock_irqsave, efx_writed, _efx_writed, __raw_writel,
      efx_mem, efx_paged_reg]
  · rw [if_neg hp, if_neg hp]
    rfl

/-! ## Register I/O: the lock -/

/-- The new events of a trace which has grown by `ev`. -/
theorem new_events_eq {efx efx1 : efx_nic} {ev : List bus_event}
    (h : efx1.trace = efx.trace ++ ev) : new_events efx efx1 = ev := by
  unfold new_events
  rw [h, List.drop_left]

/-- Bus transactions do not change the state of the lock. -/
theorem lock_run_transfers (held : Bool) (ts rest : List bus_event)
    (h : ∀ e ∈ ts, e.is_transfer = true) :
    lock_run held (ts ++ rest) = lock_run held rest := by
  induction ts with
  | nil => rfl
  | cons e t ih =>
    have he := h e (List.mem_cons_self _ _)
    have ht : ∀ x ∈ t, x.is_transfer = true := fun x hx => h x (List.mem_cons_of_mem _ hx)
    cases e with
    | acquire => exact absurd he (by decide)
    | release => exact absurd he (by decide)
    | write a d =>
      show (lock_step held (bus_event.write a d)).bind _ = _
      simp only [lock_step, Option.some_bind]
      exact ih ht
    | read a w =>
      show (lock_step held (bus_event.read a w)).bind _ = _
      simp only [lock_step, Option.some_bind]
      exact ih ht

/-- Bus transactions do not take the lock. -/
theorem count_acquire_transfers (ts : List bus_event) (h : ∀ e ∈ ts, e.is_transfer = true) :
    ts.count bus_event.acquire = 0 := by
  rw [List.count_eq_zero]
  intro hm
  exact absurd (h _ hm) (by decide)

/-- One critical section obeys the discipline and takes the lock once. -/
theorem locked_section_discipline {ev : List bus_event} (h : locked_section ev) :
    lock_discipline ev ∧ ev.count bus_event.acquire = 1 := by
  obtain ⟨ts, rfl, -, hts⟩ := h
  have hc : (bus_event.acquire :: (ts ++ [bus_event.release])).count bus_event.acquire = 1 := by
    rw [List.count_cons_self, List.count_append, count_acquire_transfers ts hts]
    rfl
  refine ⟨⟨?_, by omega⟩, hc⟩
  show (lock_step false bus_event.acquire).bind _ = _
  simp only [lock_step, Bool.false_eq_true, if_false, Option.some_bind]
  rw [lock_run_transfers true ts _ hts]
  rfl

/-- Bus transactions alone obey the discipline and do not take the lock. -/
theorem transfers_discipline {ev : List bus_event} (h : ∀ e ∈ ev, e.is_transfer = true) :
    lock_discipline ev ∧ ev.count bus_event.acquire = 0 := by
  have hc := count_acquire_transfers ev h
  refine ⟨⟨?_, by omega⟩, hc⟩
  have := lock_run_transfers false ev [] h
  rw [List.append_nil] at this
  rw [this]
  rfl

/-- The events of `efx_writeo` are one critical section. -/
theorem efx_writeo_section (B : efx_build) (efx : efx_nic) (o : efx_oword_t) (reg : Nat) :
    locked_section (new_events efx (efx_writeo B efx o reg)) := by
  rw [new_events_eq (efx_writeo_trace B efx o reg)]
  cases B.EFX_USE_QWORD_IO
  · exact ⟨[_, _, _, _], rfl, by simp, by simp [bus_event.is_transfer]⟩
  · exact ⟨[_, _], rfl, by simp, by simp [bus_event.is_transfer]⟩

/-- The events of `efx_writeq` are one critical section. -/
theorem efx_writeq_section (B : efx_build) (efx : efx_nic) (q : efx_qword_t) (reg : Nat) :
    locked_section (new_events efx (efx_writeq B efx q reg)) := by
  rw [new_events_eq (efx_writeq_trace B efx q reg)]
  cases B.EFX_USE_QWORD_IO
  · exact ⟨[_, _], rfl, by simp, by simp [bus_event.is_transfer]⟩
  · exact ⟨[_], rfl, by simp, by simp [bus_event.is_transfer]⟩

/-- The events of `efx_reado` are one critical section. -/
theorem efx_reado_section (efx : efx_nic) (o0 : efx_oword_t) (reg : Nat) :
    locked_section (new_events efx (efx_reado efx o0 reg).1) := by
  have h : (efx_reado efx o0 reg).1.trace = efx.trace ++ _ :=
    congrArg efx_nic.trace (efx_reado_state efx o0 reg)
  rw [new_events_eq h]
  exact ⟨[_, _, _, _], rfl, by simp, by simp [bus_event.is_transfer]⟩

/-! ## Register I/O: loopback, paged and table accessors, lock discipline -/

/-- C15, as stated, fails: in the build with 64-bit transfers, on the all-zero
store, `efx_writeo` of the Oword `oword_a` at the offset 0xFFFFFFFC followed by
`efx_reado` at the same offset does not return `oword_a`: the second half is
written at `reg + 8` and the limbs are read at `reg + 4`, `reg + 8`, `reg + 12`,
all of which wrap in `unsigned int`, while the first 64-bit transfer does not. -/
theorem oword_loopback_counterexample :
    ¬ ((efx_reado (efx_writeo build64 nic0 oword_a 0xFFFFFFFC) oword_zero 0xFFFFFFFC).2 =
        oword_a) := by
  intro h
  have h4 := congrArg (fun v : efx_oword_t => v.bytes 4) h
  revert h4
  decide

/-- C15, amended: over a byte-addressed mock register store, a write followed by a
read of the same width at the same address returns the written value:
`efx_writed` then `efx_readd` for every address; `efx_writeo` then `efx_reado`,
in both builds, for every address whose register does not wrap in 32 bits
(`reg + 16 ≤ 2 ^ 32`); and `efx_writeq` followed by reading the 8 bytes at that
address, in both builds, when `reg + 8 ≤ 2 ^ 32`. -/
theorem register_loopback (B : efx_build) (efx : efx_nic) (reg : Nat)
    (d d0 : efx_dword_t) (q : efx_qword_t) (o o0 : efx_oword_t) :
    (efx_readd (efx_writed efx d reg) d0 reg).2 = d ∧
    (reg + 16 ≤ 2 ^ 32 → (efx_reado (efx_writeo B efx o reg) o0 reg).2 = o) ∧
    (reg + 8 ≤ 2 ^ 32 →
      load_bytes (efx_writeq B efx q reg).mem (efx_mem efx reg) 8 = q.bytes) := by
  refine ⟨?_, ?_, ?_⟩
  · apply efx_dword_ext
    rw [efx_readd_value, efx_writed_mem]
    exact load_store_same _ _ _
  · intro h
    apply efx_oword_ext
    rw [efx_reado_value _ _ h, efx_writeo_mem _ _ _ h]
    have hb : efx_mem (efx_writeo B efx o reg) reg = efx_mem efx reg := by
      unfold efx_mem
      rw [(efx_writeo_frame B efx o reg).1]
    rw [hb]
    exact load_store_same _ _ _
  · intro h
    rw [efx_writeq_mem _ _ _ h]
    exact load_store_same _ _ _

/-- Witness of `register_loopback`: the register at offset 0x830. -/
theorem register_loopback_witness :
    (efx_reado (efx_writeo build64 nic0 oword_a 0x830) oword_zero 0x830).2 = oword_a ∧
    load_bytes (efx_writeq build64 nic0 qword_b 0x830).mem (efx_mem nic0 0x830) 8 =
      qword_b.bytes :=
  ⟨(register_loopback build64 nic0 0x830 dword_c dword_c qword_b oword_a oword_zero).2.1
      (by decide),
   (register_loopback build64 nic0 0x830 dword_c dword_c qword_b oword_a oword_zero).2.2
      (by decide)⟩

/-- C16: for both stride constants, 0x2000 and 0x10000, and every page and reg,
`efx_paged_reg` is `page * stride + reg` in unsigned 32-bit arithmetic, hence the
exact integer when that is below `2 ^ 32`; and `_efx_writeo_page` and
`_efx_writed_page` write their limbs at exactly that effective address and the
offsets following it (one 128-bit write, two 64-bit writes or four 32-bit
writes for the Oword, according to the build). -/
theorem paged_reg_address (B : efx_build) (efx : efx_nic) (page reg : Nat)
    (o : efx_oword_t) (d : efx_dword_t)
    (hs : efx.vi_stride = EFX_DEFAULT_VI_STRIDE ∨ efx.vi_stride = EF100_DEFAULT_VI_STRIDE) :
    efx_paged_reg efx page reg = (page * efx.vi_stride + reg) % 2 ^ 32 ∧
    (efx_paged_reg efx page reg = (page * 0x2000 + reg) % 2 ^ 32 ∨
      efx_paged_reg efx page reg = (page * 0x10000 + reg) % 2 ^ 32) ∧
    (page * efx.vi_stride + reg < 2 ^ 32 →
      efx_paged_reg efx page reg = page * efx.vi_stride + reg) ∧
    (_efx_writeo_page B efx o reg page).trace = efx.trace ++
      (if B.EFX_NOT_UPSTREAM_X86_64 then
        [bus_event.write (efx_mem efx (efx_paged_reg efx page reg)) (List.ofFn o.bytes)]
       else if B.EFX_USE_QWORD_IO then
        [bus_event.write (efx_mem efx (efx_paged_reg efx page reg)) (List.ofFn (o.u64 0)),
         bus_event.write (efx_mem efx (u32_add (efx_paged_reg efx page reg) 8))
           (List.ofFn (o.u64 1))]
       else
        [bus_event.write (efx_mem efx (efx_paged_reg efx page reg)) (List.ofFn (o.u32 0)),
         bus_event.write (efx_mem efx (u32_add (efx_paged_reg efx page reg) 4))
           (List.ofFn (o.u32 1)),
         bus_event.write (efx_mem efx (u32_add (efx_paged_reg efx page reg) 8))
           (List.ofFn (o.u32 2)),
         bus_event.write (efx_mem efx (u32_add (efx_paged_reg efx page reg) 12))
           (List.ofFn (o.u32 3))]) ∧
    (_efx_writed_page efx d reg page).trace = efx.trace ++
      [bus_event.write (efx_mem efx (efx_paged_reg efx page reg)) (List.ofFn (d.u32 0))] ∧
    (efx_paged_reg efx page reg + 16 ≤ 2 ^ 32 →
      (_efx_writeo_page B efx o reg page).mem =
        store_bytes efx.mem (efx_mem efx (efx_paged_reg efx page reg)) o.bytes) ∧
    (_efx_writed_page efx d reg page).mem =
      store_bytes efx.mem (efx_mem efx (efx_paged_reg efx page reg)) d.bytes := by
  refine ⟨rfl, ?_, ?_, efx_writeo_page_trace B efx o reg page, rfl,
    efx_writeo_page_mem B efx o reg page, ?_⟩
  · rcases hs with h | h
    · left
      rw [efx_paged_reg, h, EFX_DEFAULT_VI_STRIDE]
    · right
      rw [efx_paged_reg, h, EF100_DEFAULT_VI_STRIDE]
  · intro h
    exact Nat.mod_eq_of_lt h
  · unfold _efx_writed_page
    exact efx_writed_mem _ _ _

/-- Witness of `paged_reg_address`: page 3 of the register 0x830 with the stride
0x2000. -/
theorem paged_reg_address_witness :
    efx_paged_reg nic0 3 0x830 = 3 * 0x2000 + 0x830 ∧
    (_efx_writeo_page build64 nic0 oword_a 0x830 3).mem =
      store_bytes nic0.mem (efx_mem nic0 (efx_paged_reg nic0 3 0x830)) oword_a.bytes :=
  ⟨(paged_reg_address build64 nic0 3 0x830 oword_a dword_c (Or.inl rfl)).2.2.1 (by decide),
   (paged_reg_address build64 nic0 3 0x830 oword_a dword_c (Or.inl rfl)).2.2.2.2.2.1
     (by decide)⟩

/-- C17: `_efx_writed_page_locked` takes the lock if and only if `page == 0`: for
page 0 its events are acquire, one 32-bit write at `efx_paged_reg(page, reg)`,
release; for every other page that single write and no lock event; and for
every page its effect on the register store is that of `_efx_writed_page` with
the same arguments. -/
theorem writed_page_locked_events (efx : efx_nic) (d : efx_dword_t) (reg page : Nat) :
    (_efx_writed_page_locked efx d reg page).trace = efx.trace ++
      (if page = 0 then
        [bus_event.acquire,
         bus_event.write (efx_mem efx (efx_paged_reg efx page reg)) (List.ofFn (d.u32 0)),
         bus_event.release]
       else
        [bus_event.write (efx_mem efx (efx_paged_reg efx page reg)) (List.ofFn (d.u32 0))]) ∧
    (bus_event.acquire ∈ (_efx_writed_page_locked efx d reg page).trace.drop efx.trace.length ↔
      page = 0) ∧
    (_efx_writed_page_locked efx d reg page).mem = (_efx_writed_page efx d reg page).mem ∧
    (_efx_writed_page efx d reg page).trace = efx.trace ++
      [bus_event.write (efx_mem efx (efx_paged_reg efx page reg)) (List.ofFn (d.u32 0))] := by
  have ht := efx_writed_page_locked_trace efx d reg page
  refine ⟨ht, ?_, ?_, rfl⟩
  · rw [ht, List.drop_left]
    by_cases hp : page = 0
    · simp [hp]
    · simp [hp]
  · unfold _efx_writed_page_locked _efx_writed_page
    by_cases hp : page = 0
    · rw [if_pos hp]
      rfl
    · rw [if_neg hp]

/-- C18: `efx_writeo_table(value, reg, index)` is `efx_writeo(value, reg + index * 16)`
and `efx_reado_table(reg, index)` is `efx_reado(reg + index * 16)`, events
included, so there is no lock event beyond those of the wide accessor; and for
entries which do not wrap in 32 bits, writing entry `i` and then reading entry
`j` returns the written value when `i = j` and the previous content of entry
`j` otherwise. -/
theorem table_accessors (B : efx_build) (efx : efx_nic) (reg i j : Nat) (o o0 : efx_oword_t) :
    efx_writeo_table B efx o reg i = efx_writeo B efx o ((reg + i * 16) % 2 ^ 32) ∧
    efx_reado_table efx o0 reg i = efx_reado efx o0 ((reg + i * 16) % 2 ^ 32) ∧
    (reg + i * 16 + 16 ≤ 2 ^ 32 → reg + j * 16 + 16 ≤ 2 ^ 32 →
      (efx_reado_table (efx_writeo_table B efx o reg i) o0 reg j).2 =
        if i = j then o else (efx_reado_table efx o0 reg j).2) := by
  refine ⟨rfl, rfl, ?_⟩
  intro hi hj
  unfold efx_reado_table efx_writeo_table sizeof_efx_oword_t
  rw [Nat.mod_eq_of_lt (by omega : reg + i * 16 < 2 ^ 32),
    Nat.mod_eq_of_lt (by omega : reg + j * 16 < 2 ^ 32)]
  apply efx_oword_ext
  have hb : efx_mem (efx_writeo B efx o (reg + i * 16)) (reg + j * 16) =
      efx_mem efx (reg + j * 16) := by
    unfold efx_mem
    rw [(efx_writeo_frame B efx o _).1]
  rw [efx_reado_value _ _ (by omega), efx_writeo_mem _ _ _ (by omega), hb]
  by_cases hij : i = j
  · rw [if_pos hij, hij]
    exact load_store_same _ _ _
  · rw [if_neg hij, efx_reado_value _ _ (by omega)]
    apply load_store_disjoint
    unfold efx_mem
    omega

/-- Witness of `table_accessors`: entries 2 and 3 of the table at 0x1000. -/
theorem table_accessors_witness :
    (efx_reado_table (efx_writeo_table build32 nic0 oword_a 0x1000 2) oword_zero 0x1000 2).2 =
      oword_a ∧
    (efx_reado_table (efx_writeo_table build32 nic0 oword_a 0x1000 2) oword_zero 0x1000 3).2 =
      (efx_reado_table nic0 oword_zero 0x1000 3).2 :=
  ⟨(table_accessors build32 nic0 0x1000 2 2 oword_a oword_zero).2.2 (by decide) (by decide),
   (table_accessors build32 nic0 0x1000 2 3 oword_a oword_zero).2.2 (by decide) (by decide)⟩

/-- C20: the events of every accessor started with the lock free obey the
discipline of the lock: the lock is free again at the end, it is taken at most
once and never while it is held.  `efx_writeo`, `efx_writeq`, `efx_reado`,
`_efx_writed_page_locked` with page 0 and the table accessors perform one
critical section: acquire, their bus transactions and nothing else, release.
`efx_writed` and `efx_readd` perform exactly one 32-bit transaction and no lock
event; the paged accessors without lock perform bus transactions only. -/
theorem lock_discipline_of_accessors (B : efx_build) (efx : efx_nic) (reg page index : Nat)
    (d d0 : efx_dword_t) (q : efx_qword_t) (o o0 : efx_oword_t) :
    (locked_section (new_events efx (efx_writeo B efx o reg)) ∧
      lock_discipline (new_events efx (efx_writeo B efx o reg))) ∧
    (locked_section (new_events efx (efx_writeq B efx q reg)) ∧
      lock_discipline (new_events efx (efx_writeq B efx q reg))) ∧
    (locked_section (new_events efx (efx_reado efx o0 reg).1) ∧
      lock_discipline (new_events efx (efx_reado efx o0 reg).1)) ∧
    (locked_section (new_events efx (_efx_writed_page_locked efx d reg 0)) ∧
      lock_discipline (new_events efx (_efx_writed_page_locked efx d reg 0))) ∧
    (locked_section (new_events efx (efx_writeo_table B efx o reg index)) ∧
      lock_discipline (new_events efx (efx_writeo_table B efx o reg index))) ∧
    (locked_section (new_events efx (efx_reado_table efx o0 reg index).1) ∧
      lock_discipline (new_events efx (efx_reado_table efx o0 reg index).1)) ∧
    new_events efx (efx_writed efx d reg) =
      [bus_event.write (efx_mem efx reg) (List.ofFn (d.u32 0))] ∧
    new_events efx (efx_readd efx d0 reg).1 = [bus_event.read (efx_mem efx reg) 4] ∧
    lock_discipline (new_events efx (efx_writed efx d reg)) ∧
    lock_discipline (new_events efx (efx_readd efx d0 reg).1) ∧
    ((∀ e ∈ new_events efx (_efx_writeo_page B efx o reg page), e.is_transfer = true) ∧
      lock_discipline (new_events efx (_efx_writeo_page B efx o reg page))) ∧
    ((∀ e ∈ new_events efx (_efx_writed_page efx d reg page), e.is_transfer = true) ∧
      lock_discipline (new_events efx (_efx_writed_page efx d reg page))) ∧
    ((∀ e ∈ new_events efx (_efx_writed_page_locked efx d reg (page + 1)),
        e.is_transfer = true) ∧
      lock_discipline (new_events efx (_efx_writed_page_locked efx d reg (page + 1)))) := by
  have hwd : new_events efx (efx_writed efx d reg) =
      [bus_event.write (efx_mem efx reg) (List.ofFn (d.u32 0))] :=
    new_events_eq (efx_writed_trace efx d reg)
  have hrd : new_events efx (efx_readd efx d0 reg).1 = [bus_event.read (efx_mem efx reg) 4] :=
    new_events_eq (congrArg efx_nic.trace (efx_readd_state efx d0 reg))
  have hl0 : locked_section (new_events efx (_efx_writed_page_locked efx d reg 0)) := by
    rw [new_events_eq (efx_writed_page_locked_trace efx d reg 0), if_pos rfl]
    exact ⟨[_], rfl, by simp, by simp [bus_event.is_transfer]⟩
  have hop : ∀ e ∈ new_events efx (_efx_writeo_page B efx o reg page), e.is_transfer = true := by
    rw [new_events_eq (efx_writeo_page_trace B efx o reg page)]
    cases B.EFX_NOT_UPSTREAM_X86_64 <;> cases B.EFX_USE_QWORD_IO <;>
      simp [bus_event.is_transfer]
  have hdp : ∀ e ∈ new_events efx (_efx_writed_page efx d reg page), e.is_transfer = true := by
    have h : (_efx_writed_page efx d reg page).trace = efx.trace ++
        [bus_event.write (efx_mem efx (efx_paged_reg efx page reg)) (List.ofFn (d.u32 0))] := rfl
    rw [new_events_eq h]
    simp [bus_event.is_transfer]
  have hl1 : ∀ e ∈ new_events efx (_efx_writed_page_locked efx d reg (page + 1)),
      e.is_transfer = true := by
    rw [new_events_eq (efx_writed_page_locked_trace efx d reg (page + 1)),
      if_neg (Nat.succ_ne_zero page)]
    simp [bus_event.is_transfer]
  have hwd1 : ∀ e ∈ new_events efx (efx_writed efx d reg), e.is_transfer = true := by
    rw [hwd]
    simp [bus_event.is_transfer]
  have hrd1 : ∀ e ∈ new_events efx (efx_readd efx d0 reg).1, e.is_transfer = true := by
    rw [hrd]
    simp [bus_event.is_transfer]
  exact ⟨⟨efx_writeo_section B efx o reg, (locked_section_discipline
      (efx_writeo_section B efx o reg)).1⟩,
    ⟨efx_writeq_section B efx q reg, (locked_section_discipline
      (efx_writeq_section B efx q reg)).1⟩,
    ⟨efx_reado_section efx o0 reg, (locked_section_discipline
      (efx_reado_section efx o0 reg)).1⟩,
    ⟨hl0, (locked_section_discipline hl0).1⟩,
    ⟨efx_writeo_section B efx o _, (locked_section_discipline
      (efx_writeo_section B efx o _)).1⟩,
    ⟨efx_reado_section efx o0 _, (locked_section_discipline
      (efx_reado_section efx o0 _)).1⟩,
    hwd, hrd, (transfers_discipline hwd1).1, (transfers_discipline hrd1).1,
    ⟨hop, (transfers_discipline hop).1⟩, ⟨hdp, (transfers_discipline hdp).1⟩,
    ⟨hl1, (transfers_discipline hl1).1⟩⟩

/-! ## Register I/O: layout of the wide transfers, equivalence of the builds -/

/-- The layout of two writes of 8 bytes. -/
theorem limb_layout_x2 (p : Nat) : limb_layout p (p + 16) [(p, 8), (p + 8, 8)] := by
  simp [limb_layout, contiguous_from]

/-- The layout of four writes of 4 bytes. -/
theorem limb_layout_x4 (p : Nat) :
    limb_layout p (p + 16) [(p, 4), (p + 4, 4), (p + 8, 4), (p + 12, 4)] := by
  simp [limb_layout, contiguous_from]

/-- The layout of one write. -/
theorem limb_layout_x1 (p n : Nat) (h : 0 < n) : limb_layout p (p + n) [(p, n)] := by
  simp [limb_layout, contiguous_from, h]

/-- The layout of two writes of 4 bytes. -/
theorem limb_layout_x2_4 (p : Nat) : limb_layout p (p + 8) [(p, 4), (p + 4, 4)] := by
  simp [limb_layout, contiguous_from]

/-- The store at a byte of the range which has been written. -/
theorem store_bytes_at (mem : Nat → Nat) (p : Nat) {n : Nat} (data : Fin n → Nat) (k : Fin n) :
    store_bytes mem p data (p + k.val) = data k :=
  congrFun (load_store_same mem p data) k

/-- The extents of the writes of `efx_writeo`, for a register which does not
wrap. -/
theorem efx_writeo_extents (B : efx_build) (efx : efx_nic) (o : efx_oword_t) {reg : Nat}
    (h : reg + 16 ≤ 2 ^ 32) :
    write_extents (new_events efx (efx_writeo B efx o reg)) =
      if B.EFX_USE_QWORD_IO then [(efx_mem efx reg, 8), (efx_mem efx reg + 8, 8)]
      else [(efx_mem efx reg, 4), (efx_mem efx reg + 4, 4), (efx_mem efx reg + 8, 4),
        (efx_mem efx reg + 12, 4)] := by
  rw [new_events_eq (efx_writeo_trace B efx o reg),
    u32_add_eq (by omega : reg + 0 < 2 ^ 32), u32_add_eq (by omega : reg + 4 < 2 ^ 32),
    u32_add_eq (by omega : reg + 8 < 2 ^ 32), u32_add_eq (by omega : reg + 12 < 2 ^ 32)]
  cases B.EFX_USE_QWORD_IO <;> simp [write_extents, efx_mem, Nat.add_assoc]

/-- The extents of the writes of `efx_writeq`, for a register which does not
wrap. -/
theorem efx_writeq_extents (B : efx_build) (efx : efx_nic) (q : efx_qword_t) {reg : Nat}
    (h : reg + 8 ≤ 2 ^ 32) :
    write_extents (new_events efx (efx_writeq B efx q reg)) =
      if B.EFX_USE_QWORD_IO then [(efx_mem efx reg, 8)]
      else [(efx_mem efx reg, 4), (efx_mem efx reg + 4, 4)] := by
  rw [new_events_eq (efx_writeq_trace B efx q reg),
    u32_add_eq (by omega : reg + 0 < 2 ^ 32), u32_add_eq (by omega : reg + 4 < 2 ^ 32)]
  cases B.EFX_USE_QWORD_IO <;> simp [write_extents, efx_mem, Nat.add_assoc]

/-- The extents of the writes of `_efx_writeo_page`, for a register which does
not wrap. -/
theorem efx_writeo_page_extents (B : efx_build) (efx : efx_nic) (o : efx_oword_t)
    (reg page : Nat) (h : efx_paged_reg efx page reg + 16 ≤ 2 ^ 32) :
    write_extents (new_events efx (_efx_writeo_page B efx o reg page)) =
      if B.EFX_NOT_UPSTREAM_X86_64 then [(efx_mem efx (efx_paged_reg efx page reg), 16)]
      else if B.EFX_USE_QWORD_IO then
        [(efx_mem efx (efx_paged_reg efx page reg), 8),
         (efx_mem efx (efx_paged_reg efx page reg) + 8, 8)]
      else
        [(efx_mem efx (efx_paged_reg efx page reg), 4),
         (efx_mem efx (efx_paged_reg efx page reg) + 4, 4),
         (efx_mem efx (efx_paged_reg efx page reg) + 8, 4),
         (efx_mem efx (efx_paged_reg efx page reg) + 12, 4)] := by
  rw [new_events_eq (efx_writeo_page_trace B efx o reg page),
    u32_add_eq (by omega : efx_paged_reg efx page reg + 4 < 2 ^ 32),
    u32_add_eq (by omega : efx_paged_reg efx page reg + 8 < 2 ^ 32),
    u32_add_eq (by omega : efx_paged_reg efx page reg + 12 < 2 ^ 32)]
  cases B.EFX_NOT_UPSTREAM_X86_64 <;> cases B.EFX_USE_QWORD_IO <;>
    simp [write_extents, efx_mem, Nat.add_assoc]

/-- On the path for IPv4 the records are filled from the first limbs of the two
host fields only. -/
theorem fill_ipv4_hosts (be : Bool) (K : efx_filter_consts) (src : efx_filter_spec)
    (lh rh : Fin 4 → Nat) (hv4 : src.ether_type ≠ htons be ETH_P_IPV6)
    (hl : lh 0 = src.loc_host 0) (hr : rh 0 = src.rem_host 0) (dst : ethtool_rx_flow_spec) :
    efx_spec_to_ethtool_flow_fill be K { src with loc_host := lh, rem_host := rh } dst =
      efx_spec_to_ethtool_flow_fill be K src dst := by
  unfold efx_spec_to_ethtool_flow_fill
  dsimp only
  rw [if_neg hv4, if_neg hv4]
  simp only [ite_apply, hl, hr]

/-! ## Register I/O: the claims on the layout of wide transfers -/

/-- C21, as stated, fails: in the build with 32-bit transfers the write of
`efx_writeo` at the offset 0x830 consists of four bus transactions, at the
offsets 0x830, 0x834, 0x838 and 0x83c, and the read of `efx_reado` consists of
four 32-bit reads at these offsets. -/
theorem oword_two_transactions_counterexample :
    bus_transfers (new_events nic0 (efx_writeo build32 nic0 oword_a 0x830)) =
      [bus_event.write 0x830 [0xa0, 0xa1, 0xa2, 0xa3],
       bus_event.write 0x834 [0xa4, 0xa5, 0xa6, 0xa7],
       bus_event.write 0x838 [0xa8, 0xa9, 0xaa, 0xab],
       bus_event.write 0x83c [0xac, 0xad, 0xae, 0xaf]] ∧
    bus_transfers (new_events nic0 (efx_reado nic0 oword_zero 0x830).1) =
      [bus_event.read 0x830 4, bus_event.read 0x834 4, bus_event.read 0x838 4,
       bus_event.read 0x83c 4] := by
  decide

/-- C21, amended: the bus transactions of an Oword transfer depend on the build.
With `EFX_USE_QWORD_IO` the write of `efx_writeo`, and of `_efx_writeo_page`
when the build has no `_efx_writeo`, consists of exactly two 64-bit writes, the
first at `reg + 0` and the second at `reg + 8`; without it, of exactly four
32-bit writes at `reg + 0`, `reg + 4`, `reg + 8`, `reg + 12`; in the build with
`_efx_writeo`, `_efx_writeo_page` performs one 128-bit write at `reg + 0`; and
the read of `efx_reado` consists in every build of four 32-bit reads at
`reg + 0`, `reg + 4`, `reg + 8`, `reg + 12`.  There is no other transaction. -/
theorem oword_transfer_transactions (B : efx_build) (efx : efx_nic) (reg page : Nat)
    (o o0 : efx_oword_t) :
    bus_transfers (new_events efx (efx_writeo B efx o reg)) =
      (if B.EFX_USE_QWORD_IO then
        [bus_event.write (efx_mem efx (u32_add reg 0)) (List.ofFn (o.u64 0)),
         bus_event.write (efx_mem efx (u32_add reg 8)) (List.ofFn (o.u64 1))]
       else
        [bus_event.write (efx_mem efx (u32_add reg 0)) (List.ofFn (o.u32 0)),
         bus_event.write (efx_mem efx (u32_add reg 4)) (List.ofFn (o.u32 1)),
         bus_event.write (efx_mem efx (u32_add reg 8)) (List.ofFn (o.u32 2)),
         bus_event.write (efx_mem efx (u32_add reg 12)) (List.ofFn (o.u32 3))]) ∧
    bus_transfers (new_events efx (_efx_writeo_page B efx o reg page)) =
      (if B.EFX_NOT_UPSTREAM_X86_64 then
        [bus_event.write (efx_mem efx (efx_paged_reg efx page reg)) (List.ofFn o.bytes)]
       else if B.EFX_USE_QWORD_IO then
        [bus_event.write (efx_mem efx (efx_paged_reg efx page reg)) (List.ofFn (o.u64 0)),
         bus_event.write (efx_mem efx (u32_add (efx_paged_reg efx page reg) 8))
           (List.ofFn (o.u64 1))]
       else
        [bus_event.write (efx_mem efx (efx_paged_reg efx page reg)) (List.ofFn (o.u32 0)),
         bus_event.write (efx_mem efx (u32_add (efx_paged_reg efx page reg) 4))
           (List.ofFn (o.u32 1)),
         bus_event.write (efx_mem efx (u32_add (efx_paged_reg efx page reg) 8))
           (List.ofFn (o.u32 2)),
         bus_event.write (efx_mem efx (u32_add (efx_paged_reg efx page reg) 12))
           (List.ofFn (o.u32 3))]) ∧
    bus_transfers (new_events efx (efx_reado efx o0 reg).1) =
      [bus_event.read (efx_mem efx (u32_add reg 0)) 4,
       bus_event.read (efx_mem efx (u32_add reg 4)) 4,
       bus_event.read (efx_mem efx (u32_add reg 8)) 4,
       bus_event.read (efx_mem efx (u32_add reg 12)) 4] := by
  refine ⟨?_, ?_, ?_⟩
  · rw [new_events_eq (efx_writeo_trace B efx o reg)]
    cases B.EFX_USE_QWORD_IO <;> simp [bus_transfers, bus_event.is_transfer]
  · rw [new_events_eq (efx_writeo_page_trace B efx o reg page)]
    cases B.EFX_NOT_UPSTREAM_X86_64 <;> cases B.EFX_USE_QWORD_IO <;>
      simp [bus_transfers, bus_event.is_transfer]
  · rw [new_events_eq (congrArg efx_nic.trace (efx_reado_state efx o0 reg))]
    simp [bus_transfers, bus_event.is_transfer]

/-- C22, as stated, fails: in the build with 32-bit transfers `efx_writeo` at the
offset 0xFFFFFFFC writes its four limbs at the offsets 0xFFFFFFFC, 0, 4 and 8,
because `reg + 4`, `reg + 8` and `reg + 12` wrap in `unsigned int`: the offsets
are not ascending, the writes are not contiguous, and the byte at the offset 0,
which is outside the sixteen bytes from `reg`, is changed. -/
theorem wide_write_layout_counterexample :
    write_extents (new_events nic0 (efx_writeo build32 nic0 oword_a 0xFFFFFFFC)) =
      [(0xFFFFFFFC, 4), (0, 4), (4, 4), (8, 4)] ∧
    ¬ limb_layout (efx_mem nic0 0xFFFFFFFC) (efx_mem nic0 0xFFFFFFFC + 16)
        (write_extents (new_events nic0 (efx_writeo build32 nic0 oword_a 0xFFFFFFFC))) ∧
    ¬ (efx_mem nic0 0xFFFFFFFC ≤ 0 ∧ 0 < efx_mem nic0 0xFFFFFFFC + 16) ∧
    (efx_writeo build32 nic0 oword_a 0xFFFFFFFC).mem 0 ≠ nic0.mem 0 := by
  refine ⟨by decide, ?_, by decide, by decide⟩
  intro h
  have h1 := h.1
  revert h1
  decide

/-- C22, amended: for a register which does not wrap in 32 bits
(`reg + 8 ≤ 2 ^ 32` for a Qword, `reg + 16 ≤ 2 ^ 32` for an Oword, the paged
offset taken for `_efx_writeo_page`), the limb writes of `efx_writeq`,
`efx_writeo` and `_efx_writeo_page`, in every build, start at `reg`, are at
strictly ascending addresses, contiguous and non-overlapping, and end at
`reg + 8`, respectively `reg + 16`; the bytes of that range hold the value
afterwards and every byte of the store outside it is unchanged.  For every
`reg`, `efx_writed` writes the four bytes from `reg` and changes no other
byte. -/
theorem wide_write_layout (B : efx_build) (efx : efx_nic) (reg page : Nat)
    (d : efx_dword_t) (q : efx_qword_t) (o : efx_oword_t) :
    (reg + 8 ≤ 2 ^ 32 →
      limb_layout (efx_mem efx reg) (efx_mem efx reg + 8)
        (write_extents (new_events efx (efx_writeq B efx q reg))) ∧
      (∀ k : Fin 8, (efx_writeq B efx q reg).mem (efx_mem efx reg + k.val) = q.bytes k) ∧
      (∀ a, ¬ (efx_mem efx reg ≤ a ∧ a < efx_mem efx reg + 8) →
        (efx_writeq B efx q reg).mem a = efx.mem a)) ∧
    (reg + 16 ≤ 2 ^ 32 →
      limb_layout (efx_mem efx reg) (efx_mem efx reg + 16)
        (write_extents (new_events efx (efx_writeo B efx o reg))) ∧
      (∀ k : Fin 16, (efx_writeo B efx o reg).mem (efx_mem efx reg + k.val) = o.bytes k) ∧
      (∀ a, ¬ (efx_mem efx reg ≤ a ∧ a < efx_mem efx reg + 16) →
        (efx_writeo B efx o reg).mem a = efx.mem a)) ∧
    (efx_paged_reg efx page reg + 16 ≤ 2 ^ 32 →
      limb_layout (efx_mem efx (efx_paged_reg efx page reg))
        (efx_mem efx (efx_paged_reg efx page reg) + 16)
        (write_extents (new_events efx (_efx_writeo_page B efx o reg page))) ∧
      (∀ k : Fin 16, (_efx_writeo_page B efx o reg page).mem
        (efx_mem efx (efx_paged_reg efx page reg) + k.val) = o.bytes k) ∧
      (∀ a, ¬ (efx_mem efx (efx_paged_reg efx page reg) ≤ a ∧
          a < efx_mem efx (efx_paged_reg efx page reg) + 16) →
        (_efx_writeo_page B efx o reg page).mem a = efx.mem a)) ∧
    write_extents (new_events efx (efx_writed efx d reg)) = [(efx_mem efx reg, 4)] ∧
    (∀ k : Fin 4, (efx_writed efx d reg).mem (efx_mem efx reg + k.val) = d.bytes k) ∧
    (∀ a, ¬ (efx_mem efx reg ≤ a ∧ a < efx_mem efx reg + 4) →
      (efx_writed efx d reg).mem a = efx.mem a) := by
  refine ⟨?_, ?_, ?_, ?_, ?_, ?_⟩
  · intro h
    refine ⟨?_, ?_, ?_⟩
    · rw [efx_writeq_extents B efx q h]
      cases B.EFX_USE_QWORD_IO
      · exact limb_layout_x2_4 _
      · exact limb_layout_x1 _ _ (by norm_num)
    · intro k
      rw [efx_writeq_mem B efx q h]
      exact store_bytes_at _ _ _ k
    · intro a ha
      rw [efx_writeq_mem B efx q h]
      exact store_bytes_of_not_mem ha
  · intro h
    refine ⟨?_, ?_, ?_⟩
    · rw [efx_writeo_extents B efx o h]
      cases B.EFX_USE_QWORD_IO
      · exact limb_layout_x4 _
      · exact limb_layout_x2 _
    · intro k
      rw [efx_writeo_mem B efx o h]
      exact store_bytes_at _ _ _ k
    · intro a ha
      rw [efx_writeo_mem B efx o h]
      exact store_bytes_of_not_mem ha
  · intro h
    refine ⟨?_, ?_, ?_⟩
    · rw [efx_writeo_page_extents B efx o reg page h]
      cases B.EFX_NOT_UPSTREAM_X86_64 <;> cases B.EFX_USE_QWORD_IO
      · exact limb_layout_x4 _
      · exact limb_layout_x2 _
      · exact limb_layout_x1 _ _ (by norm_num)
      · exact limb_layout_x1 _ _ (by norm_num)
    · intro k
      rw [efx_writeo_page_mem B efx o reg page h]
      exact store_bytes_at _ _ _ k
    · intro a ha
      rw [efx_writeo_page_mem B efx o reg page h]
      exact store_bytes_of_not_mem ha
  · rw [new_events_eq (efx_writed_trace efx d reg)]
    simp [write_extents]
  · intro k
    rw [efx_writed_mem]
    exact store_bytes_at _ _ _ k
  · intro a ha
    rw [efx_writed_mem]
    exact store_bytes_of_not_mem ha

/-- Witness of `wide_write_layout`: the register at the offset 0x830 and its
copy for the page 3, in the build with 32-bit transfers. -/
theorem wide_write_layout_witness :
    limb_layout (efx_mem nic0 0x830) (efx_mem nic0 0x830 + 8)
      (write_extents (new_events nic0 (efx_writeq build32 nic0 qword_b 0x830))) ∧
    limb_layout (efx_mem nic0 0x830) (efx_mem nic0 0x830 + 16)
      (write_extents (new_events nic0 (efx_writeo build32 nic0 oword_a 0x830))) ∧
    limb_layout (efx_mem nic0 (efx_paged_reg nic0 3 0x830))
      (efx_mem nic0 (efx_paged_reg nic0 3 0x830) + 16)
      (write_extents (new_events nic0 (_efx_writeo_page build32 nic0 oword_a 0x830 3))) :=
  ⟨((wide_write_layout build32 nic0 0x830 3 dword_c qword_b oword_a).1 (by decide)).1,
   ((wide_write_layout build32 nic0 0x830 3 dword_c qword_b oword_a).2.1 (by decide)).1,
   ((wide_write_layout build32 nic0 0x830 3 dword_c qword_b oword_a).2.2.1 (by decide)).1⟩

/-- C23, as stated, fails: on the all-zero store, `efx_writeo` of `oword_a` at the
offset 0xFFFFFFFC leaves different stores in the two builds.  With 32-bit
transfers the limb `u32[1]` is written at the offset `reg + 4`, which wraps to
0; with 64-bit transfers it is the second half of the transfer at `reg + 0`,
which does not wrap, and the byte at the offset 0 keeps its value. -/
theorem build_variants_counterexample :
    (efx_writeo build64 nic0 oword_a 0xFFFFFFFC).mem 0 = 0 ∧
    (efx_writeo build32 nic0 oword_a 0xFFFFFFFC).mem 0 = 0xa4 ∧
    (efx_writeo build64 nic0 oword_a 0xFFFFFFFC).mem ≠
      (efx_writeo build32 nic0 oword_a 0xFFFFFFFC).mem := by
  refine ⟨by decide, by decide, ?_⟩
  intro h
  have h0 := congrFun h 0
  revert h0
  decide

/-- C23, amended: for every store and value and every address whose register
does not wrap in 32 bits (`reg + 16 ≤ 2 ^ 32` for `efx_writeo`, `reg + 8 ≤ 2 ^ 32`
for `efx_writeq`, the paged offset plus 16 for `_efx_writeo_page`), the
byte-addressed store after the write is the same in any two builds, hence the
same with `EFX_USE_QWORD_IO` (64-bit transfers of `u64[0]`, `u64[1]`) as without
it (32-bit transfers of `u32[0..3]`). -/
theorem build_variants_equivalent (B1 B2 : efx_build) (efx : efx_nic) (reg page : Nat)
    (q : efx_qword_t) (o : efx_oword_t) :
    (reg + 16 ≤ 2 ^ 32 → (efx_writeo B1 efx o reg).mem = (efx_writeo B2 efx o reg).mem) ∧
    (reg + 8 ≤ 2 ^ 32 → (efx_writeq B1 efx q reg).mem = (efx_writeq B2 efx q reg).mem) ∧
    (efx_paged_reg efx page reg + 16 ≤ 2 ^ 32 →
      (_efx_writeo_page B1 efx o reg page).mem = (_efx_writeo_page B2 efx o reg page).mem) := by
  refine ⟨?_, ?_, ?_⟩
  · intro h
    rw [efx_writeo_mem B1 efx o h, efx_writeo_mem B2 efx o h]
  · intro h
    rw [efx_writeq_mem B1 efx q h, efx_writeq_mem B2 efx q h]
  · intro h
    rw [efx_writeo_page_mem B1 efx o reg page h, efx_writeo_page_mem B2 efx o reg page h]

/-- Witness of `build_variants_equivalent`: the register at the offset 0x830 and
its copy for the page 3, with 64-bit and with 32-bit transfers. -/
theorem build_variants_equivalent_witness :
    (efx_writeo build64 nic0 oword_a 0x830).mem = (efx_writeo build32 nic0 oword_a 0x830).mem ∧
    (efx_writeq build64 nic0 qword_b 0x830).mem = (efx_writeq build32 nic0 qword_b 0x830).mem ∧
    (_efx_writeo_page build64 nic0 oword_a 0x830 3).mem =
      (_efx_writeo_page build32 nic0 oword_a 0x830 3).mem :=
  ⟨(build_variants_equivalent build64 build32 nic0 0x830 3 qword_b oword_a).1 (by decide),
   (build_variants_equivalent build64 build32 nic0 0x830 3 qword_b oword_a).2.1 (by decide),
   (build_variants_equivalent build64 build32 nic0 0x830 3 qword_b oword_a).2.2 (by decide)⟩

/-! ## The translation: the host fields on the path for IPv4 -/

/-- C24: on the path for IPv4 (`ether_type` different from IPv6 in network byte
order) the result of `efx_spec_to_ethtool_flow` depends on `loc_host` and
`rem_host` only through their first limbs: two specifications which differ at
most in the limbs 1, 2 and 3 of the two host fields give the same return code
and the same destination record, whatever the records held before the calls
and whether the specification is accepted or not. -/
theorem ipv4_hosts_first_limb (be : Bool) (K : efx_filter_consts) (src : efx_filter_spec)
    (lh rh : Fin 4 → Nat) (d1 d2 : ethtool_rx_flow_spec)
    (hv4 : src.ether_type ≠ htons be ETH_P_IPV6)
    (hl : lh 0 = src.loc_host 0) (hr : rh 0 = src.rem_host 0) :
    efx_spec_to_ethtool_flow be K { src with loc_host := lh, rem_host := rh } d1 =
      efx_spec_to_ethtool_flow be K src d2 := by
  simp only [efx_spec_to_ethtool_flow, fill_ipv4_hosts be K src lh rh hv4 hl hr]
  rfl

/-- Witness of `ipv4_hosts_first_limb`: the accepted UDP filter `spec_udp4` and
the filter with other values in the limbs 1, 2 and 3 of its host fields. -/
theorem ipv4_hosts_first_limb_witness :
    efx_spec_to_ethtool_flow false efx_consts spec_udp4_limbs dst_cleared =
      efx_spec_to_ethtool_flow false efx_consts spec_udp4 ethtool_rx_flow_spec.zero ∧
    (efx_spec_to_ethtool_flow false efx_consts spec_udp4 ethtool_rx_flow_spec.zero).1 = 0 :=
  ⟨ipv4_hosts_first_limb false efx_consts spec_udp4 ![htonl false 0x0a000001, 5, 6, 7]
      ![0, 1, 2, 3] dst_cleared ethtool_rx_flow_spec.zero (by decide) (by decide) (by decide),
   by decide⟩

end Onload
